import Mathlib

/-!
# iMac-3D-Scene: texture/material registry and draw-state setters

A shallow embedding of `src/SceneManager.cpp` and `src/ViewManager.cpp`.

* Scalars (`float` in the source) are the elements of a type `R`; where the
  source performs arithmetic on them (`SetTransformations`) `R` is a ring, so
  rounding, NaN and infinities are outside the model.
* The mouse callbacks of the view manager convert `double` arguments to
  `float`: there the values are rationals, every conversion and every `float`
  subtraction rounds to the nearest binary32 value, and a result outside the
  range of `float` is a `Fault`.
* The shader manager (uniform sink) is the chronological list of the
  `set*Value` calls made through it; the OpenGL context is the chronological
  list of GL calls.
* Undefined behaviour of the source (indexing `m_textureIDs` outside `0..15`,
  calling through a null `m_pShaderManager`) is an explicit `Fault`.
* Every `while`/`for` loop is a function recursing on a fuel counter; the
  entry point passes a fuel that the theorems show to be sufficient, and
  running out of fuel is itself a `Fault`, never a silent result.
-/

set_option linter.unusedVariables false

/-! ## Faults -/

/-- The ways in which an embedded function can fail to produce a value. -/
inductive Fault where
  | nullDereference
  | outOfBounds
  | outOfFuel
  | floatOutOfRange
deriving DecidableEq, Repr

/-! ## GLM (external library): vectors and matrices -/

namespace glm

/-- Counterpart of `glm::vec2`. -/
structure vec2 (R : Type) where
  x : R
  y : R
deriving DecidableEq, Repr

/-- Counterpart of `glm::vec3`. -/
structure vec3 (R : Type) where
  x : R
  y : R
  z : R
deriving DecidableEq, Repr

/-- Counterpart of `glm::vec4`. -/
structure vec4 (R : Type) where
  x : R
  y : R
  z : R
  w : R
deriving DecidableEq, Repr

/-- Counterpart of `glm::mat4`: four columns, as GLM stores them (`m[i]` is column `i`). -/
structure mat4 (R : Type) where
  c0 : vec4 R
  c1 : vec4 R
  c2 : vec4 R
  c3 : vec4 R
deriving DecidableEq, Repr

section Ops

variable {R : Type} [Ring R]

/-- The scalar functions of the C++ maths library that GLM calls, and the
literal factor pi/180 of `glm::radians`; they are parameters of the model. -/
structure ScalarFns (R : Type) where
  cos : R → R
  sin : R → R
  inversesqrt : R → R
  degToRad : R

/-- Product `v * a` of a `vec3` with a scalar (componentwise). -/
def vec3.smul (v : vec3 R) (a : R) : vec3 R := ⟨v.x * a, v.y * a, v.z * a⟩

/-- Product `a * v` of a scalar with a `vec3` (componentwise). -/
def vec3.lsmul (a : R) (v : vec3 R) : vec3 R := ⟨a * v.x, a * v.y, a * v.z⟩

/-- Product `v * a` of a `vec4` with a scalar (componentwise). -/
def vec4.smul (v : vec4 R) (a : R) : vec4 R := ⟨v.x * a, v.y * a, v.z * a, v.w * a⟩

/-- Sum `v + w` of two `vec4` (componentwise). -/
def vec4.add (v w : vec4 R) : vec4 R := ⟨v.x + w.x, v.y + w.y, v.z + w.z, v.w + w.w⟩

/-- The constructor `mat4(1)`: the identity matrix. -/
def mat4.identity : mat4 R :=
  ⟨⟨1, 0, 0, 0⟩, ⟨0, 1, 0, 0⟩, ⟨0, 0, 1, 0⟩, ⟨0, 0, 0, 1⟩⟩

/-- The operator `m1 * m2` on `mat4`: column `j` of the result is
`m1[0] * m2[j][0] + m1[1] * m2[j][1] + m1[2] * m2[j][2] + m1[3] * m2[j][3]`. -/
def mat4.mul (m1 m2 : mat4 R) : mat4 R :=
  { c0 := (((m1.c0.smul m2.c0.x).add (m1.c1.smul m2.c0.y)).add (m1.c2.smul m2.c0.z)).add
      (m1.c3.smul m2.c0.w)
    c1 := (((m1.c0.smul m2.c1.x).add (m1.c1.smul m2.c1.y)).add (m1.c2.smul m2.c1.z)).add
      (m1.c3.smul m2.c1.w)
    c2 := (((m1.c0.smul m2.c2.x).add (m1.c1.smul m2.c2.y)).add (m1.c2.smul m2.c2.z)).add
      (m1.c3.smul m2.c2.w)
    c3 := (((m1.c0.smul m2.c3.x).add (m1.c1.smul m2.c3.y)).add (m1.c2.smul m2.c3.z)).add
      (m1.c3.smul m2.c3.w) }

instance : Mul (mat4 R) := ⟨mat4.mul⟩

/-- Function `glm::radians(degrees)`: `degrees * (pi / 180)`. -/
def radians (G : ScalarFns R) (degrees : R) : R := degrees * G.degToRad

/-- Function `glm::dot` on `vec3`. -/
def dot (a b : vec3 R) : R := a.x * b.x + a.y * b.y + a.z * b.z

/-- Function `glm::normalize` on `vec3`: `v * inversesqrt(dot(v, v))`. -/
def normalize (G : ScalarFns R) (v : vec3 R) : vec3 R := v.smul (G.inversesqrt (dot v v))

/-- Function `glm::translate(m, v)`: the first three columns of `m` are kept,
the fourth becomes `m[0] * v[0] + m[1] * v[1] + m[2] * v[2] + m[3]`. -/
def translateM (m : mat4 R) (v : vec3 R) : mat4 R :=
  { m with c3 := (((m.c0.smul v.x).add (m.c1.smul v.y)).add (m.c2.smul v.z)).add m.c3 }

/-- Function `glm::scale(m, v)`: column `i < 3` of `m` is multiplied by `v[i]`,
the fourth column is kept. -/
def scaleM (m : mat4 R) (v : vec3 R) : mat4 R :=
  { c0 := m.c0.smul v.x, c1 := m.c1.smul v.y, c2 := m.c2.smul v.z, c3 := m.c3 }

/-- Function `glm::rotate(m, angle, v)`: rotation by `angle` radians about the
normalised axis `v`, applied to `m`; the fourth column of `m` is kept. -/
def rotateM (G : ScalarFns R) (m : mat4 R) (angle : R) (v : vec3 R) : mat4 R :=
  let a := angle
  let c := G.cos a
  let s := G.sin a
  let axis := normalize G v
  let temp := vec3.lsmul (1 - c) axis
  let r00 := c + temp.x * axis.x
  let r01 := temp.x * axis.y + s * axis.z
  let r02 := temp.x * axis.z - s * axis.y
  let r10 := temp.y * axis.x - s * axis.z
  let r11 := c + temp.y * axis.y
  let r12 := temp.y * axis.z + s * axis.x
  let r20 := temp.z * axis.x + s * axis.y
  let r21 := temp.z * axis.y - s * axis.x
  let r22 := c + temp.z * axis.z
  { c0 := ((m.c0.smul r00).add (m.c1.smul r01)).add (m.c2.smul r02)
    c1 := ((m.c0.smul r10).add (m.c1.smul r11)).add (m.c2.smul r12)
    c2 := ((m.c0.smul r20).add (m.c1.smul r21)).add (m.c2.smul r22)
    c3 := m.c3 }

/-- Function `glm::translate(v)` of glm/gtx/transform.hpp: `translate(mat4(1), v)`. -/
def translate (v : vec3 R) : mat4 R := translateM mat4.identity v

/-- Function `glm::rotate(angle, v)` of glm/gtx/transform.hpp: `rotate(mat4(1), angle, v)`. -/
def rotate (G : ScalarFns R) (angle : R) (v : vec3 R) : mat4 R := rotateM G mat4.identity angle v

/-- Function `glm::scale(v)` of glm/gtx/transform.hpp: `scale(mat4(1), v)`. -/
def scale (v : vec3 R) : mat4 R := scaleM mat4.identity v

end Ops

end glm

/-! ## OpenGL (external): the calls the scene manager issues -/

/-- One OpenGL call together with the arguments the source passes to it. For
`glGenTextures` the second field is the texture name the driver wrote back. -/
inductive GLCall where
  | glGenTextures (n : Int) (texture : Nat)
  | glBindTexture (target : Int) (texture : Nat)
  | glTexParameteri (target : Int) (pname : Int) (param : Int)
  | glTexImage2D (target : Int) (level : Int) (internalformat : Int)
      (width : Int) (height : Int) (border : Int) (format : Int) (type : Int)
  | glGenerateMipmap (target : Int)
  | glActiveTexture (texture : Int)
deriving DecidableEq, Repr

/-- Value of the OpenGL enumerant `GL_TEXTURE_2D`. -/
def GL_TEXTURE_2D : Int := 0x0DE1
/-- Value of the OpenGL enumerant `GL_TEXTURE0`. -/
def GL_TEXTURE0 : Int := 0x84C0
/-- Value of the OpenGL enumerant `GL_TEXTURE_WRAP_S`. -/
def GL_TEXTURE_WRAP_S : Int := 0x2802
/-- Value of the OpenGL enumerant `GL_TEXTURE_WRAP_T`. -/
def GL_TEXTURE_WRAP_T : Int := 0x2803
/-- Value of the OpenGL enumerant `GL_TEXTURE_MIN_FILTER`. -/
def GL_TEXTURE_MIN_FILTER : Int := 0x2801
/-- Value of the OpenGL enumerant `GL_TEXTURE_MAG_FILTER`. -/
def GL_TEXTURE_MAG_FILTER : Int := 0x2800
/-- Value of the OpenGL enumerant `GL_REPEAT`. -/
def GL_REPEAT : Int := 0x2901
/-- Value of the OpenGL enumerant `GL_LINEAR`. -/
def GL_LINEAR : Int := 0x2601
/-- Value of the OpenGL enumerant `GL_RGB`. -/
def GL_RGB : Int := 0x1907
/-- Value of the OpenGL enumerant `GL_RGBA`. -/
def GL_RGBA : Int := 0x1908
/-- Value of the OpenGL enumerant `GL_RGB8`. -/
def GL_RGB8 : Int := 0x8051
/-- Value of the OpenGL enumerant `GL_RGBA8`. -/
def GL_RGBA8 : Int := 0x8058
/-- Value of the OpenGL enumerant `GL_UNSIGNED_BYTE`. -/
def GL_UNSIGNED_BYTE : Int := 0x1401

/-- OpenGL semantics (external): the part of the context state that
`glActiveTexture` and `glBindTexture` act on, namely the selected texture unit
and, for every texture unit, the texture bound to its `GL_TEXTURE_2D` target. -/
structure GLBindings where
  activeTexture : Int
  texture2D : Int → Nat

/-- Effect of one GL call on the bindings: `glActiveTexture` selects a unit,
`glBindTexture(GL_TEXTURE_2D, texture)` binds `texture` on the selected unit,
and the other calls of the source leave the bindings alone. -/
def GLBindings.exec (b : GLBindings) : GLCall → GLBindings
  | GLCall.glActiveTexture u => { b with activeTexture := u }
  | GLCall.glBindTexture target texture =>
    if target = GL_TEXTURE_2D then
      { b with texture2D := Function.update b.texture2D b.activeTexture texture }
    else b
  | _ => b

/-- Effect of a list of GL calls, executed in order. -/
def GLBindings.run (b : GLBindings) (calls : List GLCall) : GLBindings :=
  calls.foldl GLBindings.exec b

/-- What `stbi_load` hands back for a readable image file: its dimensions and
its number of colour channels (the pixel bytes are not inspected by the
source). -/
structure Image where
  width : Int
  height : Int
  colorChannels : Int
deriving DecidableEq, Repr

/-! ## The shader manager (uniform sink) -/

/-- A value handed to one of the `set*Value` methods of the shader manager. -/
inductive UniformValue (R : Type) where
  | int (v : Int)
  | bool (v : Bool)
  | float (v : R)
  | vec2 (v : glm.vec2 R)
  | vec3 (v : glm.vec3 R)
  | vec4 (v : glm.vec4 R)
  | mat4 (v : glm.mat4 R)
  | sampler2D (v : Int)
deriving DecidableEq, Repr

/-- Modelled from the spec: the `ShaderManager` class (declared in
ShaderManager.h, which is not among the sources) is the "shader uniform sink";
it is represented by the chronological list of (uniform name, value) pairs
pushed through it, the most recent push last. -/
abbrev ShaderManager (R : Type) : Type := List (String × UniformValue R)

namespace ShaderManager

variable {R : Type}

/-- Call `setIntValue(name, value)`. -/
def setIntValue (sh : ShaderManager R) (name : String) (value : Int) : ShaderManager R :=
  sh ++ [(name, UniformValue.int value)]

/-- Call `setFloatValue(name, value)`. -/
def setFloatValue (sh : ShaderManager R) (name : String) (value : R) : ShaderManager R :=
  sh ++ [(name, UniformValue.float value)]

/-- Call `setVec2Value(name, value)`. -/
def setVec2Value (sh : ShaderManager R) (name : String) (value : glm.vec2 R) : ShaderManager R :=
  sh ++ [(name, UniformValue.vec2 value)]

/-- Call `setVec3Value(name, value)`. -/
def setVec3Value (sh : ShaderManager R) (name : String) (value : glm.vec3 R) : ShaderManager R :=
  sh ++ [(name, UniformValue.vec3 value)]

/-- Call `setVec4Value(name, value)`. -/
def setVec4Value (sh : ShaderManager R) (name : String) (value : glm.vec4 R) : ShaderManager R :=
  sh ++ [(name, UniformValue.vec4 value)]

/-- Call `setMat4Value(name, value)`. -/
def setMat4Value (sh : ShaderManager R) (name : String) (value : glm.mat4 R) : ShaderManager R :=
  sh ++ [(name, UniformValue.mat4 value)]

/-- Call `setSampler2DValue(name, value)`. -/
def setSampler2DValue (sh : ShaderManager R) (name : String) (value : Int) : ShaderManager R :=
  sh ++ [(name, UniformValue.sampler2D value)]

/-- The value a uniform holds: the one most recently pushed under its name,
`none` when nothing was ever pushed under that name. -/
def lastValue : ShaderManager R → String → Option (UniformValue R)
  | [], _ => none
  | p :: rest, name =>
    match lastValue rest name with
    | some v => some v
    | none => if p.1 = name then some p.2 else none

end ShaderManager

/-! ## Data model of the scene manager -/

/-- Modelled from the spec: `TEXTURE_INFO` (declared in SceneManager.h, which is
not among the sources) is the spec's texture entry {tag, handle}. The handle
`ID` is the unsigned 32-bit texture name whose address the source passes to
`glGenTextures`. -/
structure TEXTURE_INFO where
  tag : String
  ID : Nat
deriving DecidableEq, Repr

/-- Modelled from the spec: `OBJECT_MATERIAL` (declared in SceneManager.h, which
is not among the sources) is the spec's material entry {tag, ambientColor,
ambientStrength, diffuseColor, specularColor, shininess}. -/
structure OBJECT_MATERIAL (R : Type) where
  ambientColor : glm.vec3 R
  ambientStrength : R
  diffuseColor : glm.vec3 R
  specularColor : glm.vec3 R
  shininess : R
  tag : String
deriving DecidableEq, Repr

/-- Conversion of an `int` to an unsigned 32-bit integer (as in `ID = -1`). -/
def uint32_of_int (i : Int) : Nat := (i % 4294967296).toNat

/-- The members of `SceneManager` that the modelled methods read or write.
`m_pShaderManager = none` is the null pointer; `m_textureIDs` is the array
`TEXTURE_INFO m_textureIDs[16]`. -/
structure SceneManager (R : Type) where
  m_pShaderManager : Option (ShaderManager R)
  m_loadedTextures : Int
  m_textureIDs : Fin 16 → TEXTURE_INFO
  m_objectMaterials : List (OBJECT_MATERIAL R)

/-- Name of the model-matrix uniform. -/
def g_ModelName : String := "model"
/-- Name of the flat-colour uniform. -/
def g_ColorValueName : String := "objectColor"
/-- Name of the sampler uniform. -/
def g_TextureValueName : String := "objectTexture"
/-- Name of the use-texture flag uniform. -/
def g_UseTextureName : String := "bUseTexture"
/-- Name of the use-lighting flag uniform. -/
def g_UseLightingName : String := "bUseLighting"

namespace SceneManager

variable {R : Type}

/-- Constructor `SceneManager::SceneManager(pShaderManager)`: every one of the
16 entries gets tag "/0" and ID -1, and no texture is loaded. -/
def construct (pShaderManager : Option (ShaderManager R)) : SceneManager R :=
  { m_pShaderManager := pShaderManager
    m_loadedTextures := 0
    m_textureIDs := fun _ => { tag := "/0", ID := uint32_of_int (-1) }
    m_objectMaterials := [] }

/-- An `int` that lies within `0..15`, as an index of the array `m_textureIDs`. -/
def arrayIndex (index : Int) (h : 0 ≤ index ∧ index < 16) : Fin 16 :=
  ⟨index.toNat, by omega⟩

/-- The array access `m_textureIDs[index]` with an `int` index: `none` when the
index lies outside the 16 entries of the array. -/
def textureAt (s : SceneManager R) (index : Int) : Option TEXTURE_INFO :=
  if h : 0 ≤ index ∧ index < 16 then
    some (s.m_textureIDs (arrayIndex index h))
  else none

/-- The loop of `FindTextureSlot`:
`while ((index < m_loadedTextures) && (bFound == false))`. -/
def FindTextureSlot.loop (s : SceneManager R) (tag : String) :
    Nat → Int → Int → Bool → Except Fault Int
  | 0, index, textureSlot, bFound =>
    if index < s.m_loadedTextures ∧ bFound = false then Except.error Fault.outOfFuel
    else Except.ok textureSlot
  | fuel + 1, index, textureSlot, bFound =>
    if index < s.m_loadedTextures ∧ bFound = false then
      match s.textureAt index with
      | none => Except.error Fault.outOfBounds
      | some e =>
        if e.tag = tag then FindTextureSlot.loop s tag fuel index index true
        else FindTextureSlot.loop s tag fuel (index + 1) textureSlot bFound
    else Except.ok textureSlot

/-- Method `SceneManager::FindTextureSlot(tag)`. -/
def FindTextureSlot (s : SceneManager R) (tag : String) : Except Fault Int :=
  FindTextureSlot.loop s tag s.m_loadedTextures.toNat 0 (-1) false

/-- Method `SceneManager::CreateGLTexture(filename, tag)`. `image` is what
`stbi_load` returned for `filename` (`none` for a null pointer) and `genID` is
the texture name written by `glGenTextures`. The result is the returned
`bool`, the scene manager and the GL calls issued so far. -/
def CreateGLTexture (s : SceneManager R) (gl : List GLCall) (filename : String) (tag : String)
    (image : Option Image) (genID : Nat) :
    Except Fault (Bool × SceneManager R × List GLCall) :=
  match image with
  | some img =>
    let textureID : Nat := genID
    let gl1 := gl ++
      [ GLCall.glGenTextures 1 textureID,
        GLCall.glBindTexture GL_TEXTURE_2D textureID,
        GLCall.glTexParameteri GL_TEXTURE_2D GL_TEXTURE_WRAP_S GL_REPEAT,
        GLCall.glTexParameteri GL_TEXTURE_2D GL_TEXTURE_WRAP_T GL_REPEAT,
        GLCall.glTexParameteri GL_TEXTURE_2D GL_TEXTURE_MIN_FILTER GL_LINEAR,
        GLCall.glTexParameteri GL_TEXTURE_2D GL_TEXTURE_MAG_FILTER GL_LINEAR ]
    let upload : Option GLCall :=
      if img.colorChannels = 3 then
        some (GLCall.glTexImage2D GL_TEXTURE_2D 0 GL_RGB8 img.width img.height 0
          GL_RGB GL_UNSIGNED_BYTE)
      else if img.colorChannels = 4 then
        some (GLCall.glTexImage2D GL_TEXTURE_2D 0 GL_RGBA8 img.width img.height 0
          GL_RGBA GL_UNSIGNED_BYTE)
      else none
    match upload with
    | none => Except.ok (false, s, gl1)
    | some call =>
      let gl2 := gl1 ++
        [ call,
          GLCall.glGenerateMipmap GL_TEXTURE_2D,
          GLCall.glBindTexture GL_TEXTURE_2D 0 ]
      if h : 0 ≤ s.m_loadedTextures ∧ s.m_loadedTextures < 16 then
        Except.ok (true,
          { s with
            m_textureIDs :=
              Function.update s.m_textureIDs (arrayIndex s.m_loadedTextures h)
                { tag := tag, ID := textureID }
            m_loadedTextures := s.m_loadedTextures + 1 },
          gl2)
      else Except.error Fault.outOfBounds
  | none => Except.ok (false, s, gl)

/-- The loop of `BindGLTextures`: `for (int i = 0; i < m_loadedTextures; i++)`. -/
def BindGLTextures.loop (s : SceneManager R) : Nat → Int → List GLCall → Except Fault (List GLCall)
  | 0, i, gl =>
    if i < s.m_loadedTextures then Except.error Fault.outOfFuel else Except.ok gl
  | fuel + 1, i, gl =>
    if i < s.m_loadedTextures then
      match s.textureAt i with
      | none => Except.error Fault.outOfBounds
      | some e =>
        BindGLTextures.loop s fuel (i + 1)
          (gl ++ [GLCall.glActiveTexture (GL_TEXTURE0 + i),
                  GLCall.glBindTexture GL_TEXTURE_2D e.ID])
    else Except.ok gl

/-- Method `SceneManager::BindGLTextures()`; the result is the list of GL calls
issued so far. -/
def BindGLTextures (s : SceneManager R) (gl : List GLCall) : Except Fault (List GLCall) :=
  BindGLTextures.loop s s.m_loadedTextures.toNat 0 gl

/-- The loop of `FindMaterial`:
`while ((index < m_objectMaterials.size()) && (bFound == false))`. -/
def FindMaterial.loop (s : SceneManager R) (tag : String) :
    Nat → Nat → Bool → OBJECT_MATERIAL R → Except Fault (Bool × OBJECT_MATERIAL R)
  | 0, index, bFound, material =>
    if index < s.m_objectMaterials.length ∧ bFound = false then Except.error Fault.outOfFuel
    else Except.ok (bFound, material)
  | fuel + 1, index, bFound, material =>
    if h : index < s.m_objectMaterials.length ∧ bFound = false then
      if (s.m_objectMaterials.get ⟨index, h.1⟩).tag = tag then
        FindMaterial.loop s tag fuel index true
          { material with
            ambientColor := (s.m_objectMaterials.get ⟨index, h.1⟩).ambientColor
            ambientStrength := (s.m_objectMaterials.get ⟨index, h.1⟩).ambientStrength
            diffuseColor := (s.m_objectMaterials.get ⟨index, h.1⟩).diffuseColor
            specularColor := (s.m_objectMaterials.get ⟨index, h.1⟩).specularColor
            shininess := (s.m_objectMaterials.get ⟨index, h.1⟩).shininess }
      else FindMaterial.loop s tag fuel (index + 1) bFound material
    else Except.ok (bFound, material)

/-- Method `SceneManager::FindMaterial(tag, material)`. The argument `material`
is the caller's object behind the reference; the result is the returned `bool`
and that object after the call. The source ends in `return(true)`: the flag
`bFound` computed by the loop is not what is returned. -/
def FindMaterial (s : SceneManager R) (tag : String) (material : OBJECT_MATERIAL R) :
    Except Fault (Bool × OBJECT_MATERIAL R) :=
  if s.m_objectMaterials.length = 0 then Except.ok (false, material)
  else
    match FindMaterial.loop s tag s.m_objectMaterials.length 0 false material with
    | Except.error f => Except.error f
    | Except.ok (bFound, material1) => Except.ok (true, material1)

/-- The local `modelView` of `SetTransformations`:
`translation * rotationX * rotationY * rotationZ * scale`. -/
def SetTransformations.modelView [Ring R] (G : glm.ScalarFns R) (scaleXYZ : glm.vec3 R)
    (XrotationDegrees YrotationDegrees ZrotationDegrees : R) (positionXYZ : glm.vec3 R) :
    glm.mat4 R :=
  let scale := glm.scale scaleXYZ
  let rotationX := glm.rotate G (glm.radians G XrotationDegrees) ⟨1, 0, 0⟩
  let rotationY := glm.rotate G (glm.radians G YrotationDegrees) ⟨0, 1, 0⟩
  let rotationZ := glm.rotate G (glm.radians G ZrotationDegrees) ⟨0, 0, 1⟩
  let translation := glm.translate positionXYZ
  translation * rotationX * rotationY * rotationZ * scale

/-- Method `SceneManager::SetTransformations(scaleXYZ, XrotationDegrees,
YrotationDegrees, ZrotationDegrees, positionXYZ)`. -/
def SetTransformations [Ring R] (G : glm.ScalarFns R) (s : SceneManager R)
    (scaleXYZ : glm.vec3 R) (XrotationDegrees YrotationDegrees ZrotationDegrees : R)
    (positionXYZ : glm.vec3 R) : SceneManager R :=
  let modelView := SetTransformations.modelView G scaleXYZ XrotationDegrees YrotationDegrees
    ZrotationDegrees positionXYZ
  match s.m_pShaderManager with
  | some sh => { s with m_pShaderManager := some (sh.setMat4Value g_ModelName modelView) }
  | none => s

/-- Method `SceneManager::SetShaderColor(redColorValue, greenColorValue,
blueColorValue, alphaValue)`; the `false` passed to `setIntValue` converts to 0. -/
def SetShaderColor (s : SceneManager R) (redColorValue greenColorValue blueColorValue
    alphaValue : R) : SceneManager R :=
  let currentColor : glm.vec4 R := ⟨redColorValue, greenColorValue, blueColorValue, alphaValue⟩
  match s.m_pShaderManager with
  | some sh =>
    { s with
      m_pShaderManager :=
        some ((sh.setIntValue g_UseTextureName 0).setVec4Value g_ColorValueName currentColor) }
  | none => s

/-- Method `SceneManager::SetShaderTexture(textureTag)`; the `true` passed to
`setIntValue` converts to 1. -/
def SetShaderTexture (s : SceneManager R) (textureTag : String) : Except Fault (SceneManager R) :=
  match s.m_pShaderManager with
  | some sh =>
    let sh1 := sh.setIntValue g_UseTextureName 1
    match s.FindTextureSlot textureTag with
    | Except.error f => Except.error f
    | Except.ok textureID =>
      Except.ok { s with
        m_pShaderManager := some (sh1.setSampler2DValue g_TextureValueName textureID) }
  | none => Except.ok s

/-- Method `SceneManager::SetTextureUVScale(u, v)`. -/
def SetTextureUVScale (s : SceneManager R) (u v : R) : SceneManager R :=
  match s.m_pShaderManager with
  | some sh => { s with m_pShaderManager := some (sh.setVec2Value "UVscale" ⟨u, v⟩) }
  | none => s

/-- Method `SceneManager::SetShaderMaterial(materialTag)`. The argument
`material` is the indeterminate initial content of the local variable
`OBJECT_MATERIAL material`, which the source does not initialise. The source
calls through `m_pShaderManager` without a null check. -/
def SetShaderMaterial (s : SceneManager R) (materialTag : String)
    (material : OBJECT_MATERIAL R) : Except Fault (SceneManager R) :=
  if s.m_objectMaterials.length > 0 then
    match s.FindMaterial materialTag material with
    | Except.error f => Except.error f
    | Except.ok (bReturn, material1) =>
      if bReturn = true then
        match s.m_pShaderManager with
        | none => Except.error Fault.nullDereference
        | some sh =>
          Except.ok { s with
            m_pShaderManager := some
              (((((sh.setVec3Value "material.ambientColor" material1.ambientColor).setFloatValue
                "material.ambientStrength" material1.ambientStrength).setVec3Value
                "material.diffuseColor" material1.diffuseColor).setVec3Value
                "material.specularColor" material1.specularColor).setFloatValue
                "material.shininess" material1.shininess) }
      else Except.ok s
  else Except.ok s

/-! ### Vocabulary of the statements -/

/-- Entry `i` is one of the first `m_loadedTextures` entries and carries tag `t`. -/
def HasTagAt (s : SceneManager R) (t : String) (i : Int) : Prop :=
  0 ≤ i ∧ i < s.m_loadedTextures ∧ ∃ e, s.textureAt i = some e ∧ e.tag = t

/-- Index `i` is the least index among the first `m_loadedTextures` entries
whose tag is `t`. -/
def IsFirstSlot (s : SceneManager R) (t : String) (i : Int) : Prop :=
  s.HasTagAt t i ∧ ∀ j, j < i → ¬ s.HasTagAt t j

/-- Index `i` is the least index of `m_objectMaterials` whose tag is `t`,
and `m` is the entry stored there. -/
def IsFirstMaterial (s : SceneManager R) (t : String) (i : Nat) (m : OBJECT_MATERIAL R) : Prop :=
  s.m_objectMaterials[i]? = some m ∧ m.tag = t ∧
    ∀ (j : Nat) (mj : OBJECT_MATERIAL R), j < i → s.m_objectMaterials[j]? = some mj → mj.tag ≠ t

/-- The caller's object `out` after `FindMaterial` has copied into it the five
property fields of the entry `m`; the tag of `out` is not assigned. -/
def copyMaterial (out m : OBJECT_MATERIAL R) : OBJECT_MATERIAL R :=
  { out with
    ambientColor := m.ambientColor
    ambientStrength := m.ambientStrength
    diffuseColor := m.diffuseColor
    specularColor := m.specularColor
    shininess := m.shininess }

/-- The five pushes by which `SetShaderMaterial` passes the material `m` to the
shader, in the order of the source. -/
def materialPushes (m : OBJECT_MATERIAL R) : List (String × UniformValue R) :=
  [ ("material.ambientColor", UniformValue.vec3 m.ambientColor),
    ("material.ambientStrength", UniformValue.float m.ambientStrength),
    ("material.diffuseColor", UniformValue.vec3 m.diffuseColor),
    ("material.specularColor", UniformValue.vec3 m.specularColor),
    ("material.shininess", UniformValue.float m.shininess) ]

/-- One call of `SetShaderColor` or of `SetShaderTexture`, with its arguments. -/
inductive FlagSetterCall (R : Type) where
  | color (r g b a : R)
  | texture (textureTag : String)

/-- The value of the use-texture flag that belongs to the kind of a call:
0 (`false`) for `SetShaderColor`, 1 (`true`) for `SetShaderTexture`. -/
def FlagSetterCall.flag : FlagSetterCall R → Int
  | FlagSetterCall.color _ _ _ _ => 0
  | FlagSetterCall.texture _ => 1

/-- A sequence of `SetShaderColor` and `SetShaderTexture` calls made one after
the other. -/
def applyFlagSetters (s : SceneManager R) : List (FlagSetterCall R) → Except Fault (SceneManager R)
  | [] => Except.ok s
  | FlagSetterCall.color r g b a :: rest => applyFlagSetters (s.SetShaderColor r g b a) rest
  | FlagSetterCall.texture textureTag :: rest =>
    match s.SetShaderTexture textureTag with
    | Except.error f => Except.error f
    | Except.ok s1 => applyFlagSetters s1 rest

end SceneManager

/-- The environment of one `CreateGLTexture(filename, tag)` call: its two
arguments, what `stbi_load` returns for the file and the texture name that
`glGenTextures` writes. -/
structure TextureLoad where
  filename : String
  tag : String
  image : Option Image
  genID : Nat
deriving DecidableEq, Repr

/-- The image of the call decodes and has 3 or 4 colour channels. -/
def TextureLoad.decodes (l : TextureLoad) : Bool :=
  match l.image with
  | some img => decide (img.colorChannels = 3) || decide (img.colorChannels = 4)
  | none => false

namespace SceneManager

variable {R : Type}

/-- A sequence of `CreateGLTexture` calls made one after the other (as in
`LoadSceneTextures`); the result lists the returned `bool` of every call. -/
def CreateGLTextures (s : SceneManager R) (gl : List GLCall) :
    List TextureLoad → Except Fault (List Bool × SceneManager R × List GLCall)
  | [] => Except.ok ([], s, gl)
  | l :: rest =>
    match s.CreateGLTexture gl l.filename l.tag l.image l.genID with
    | Except.error f => Except.error f
    | Except.ok (b, s1, gl1) =>
      match CreateGLTextures s1 gl1 rest with
      | Except.error f => Except.error f
      | Except.ok (bs, s2, gl2) => Except.ok (b :: bs, s2, gl2)

end SceneManager

/-! ## Further methods and vocabulary -/

/-- Conversion of an unsigned 32-bit integer to `int` (two's complement), as
in `int textureID = m_textureIDs[index].ID`. -/
def int_of_uint32 (n : Nat) : Int :=
  if n % 4294967296 < 2147483648 then (n % 4294967296 : Nat)
  else ((n % 4294967296 : Nat) : Int) - 4294967296

/-- A GL call that uploads pixel data (`glTexImage2D`). -/
def GLCall.isUpload : GLCall → Bool
  | GLCall.glTexImage2D _ _ _ _ _ _ _ _ => true
  | _ => false

/-- A GL call that generates mipmaps (`glGenerateMipmap`). -/
def GLCall.isMipmap : GLCall → Bool
  | GLCall.glGenerateMipmap _ => true
  | _ => false

namespace SceneManager

variable {R : Type}

/-- The loop of `FindTextureID`:
`while ((index < m_loadedTextures) && (bFound == false))`. -/
def FindTextureID.loop (s : SceneManager R) (tag : String) :
    Nat → Int → Int → Bool → Except Fault Int
  | 0, index, textureID, bFound =>
    if index < s.m_loadedTextures ∧ bFound = false then Except.error Fault.outOfFuel
    else Except.ok textureID
  | fuel + 1, index, textureID, bFound =>
    if index < s.m_loadedTextures ∧ bFound = false then
      match s.textureAt index with
      | none => Except.error Fault.outOfBounds
      | some e =>
        if e.tag = tag then FindTextureID.loop s tag fuel index (int_of_uint32 e.ID) true
        else FindTextureID.loop s tag fuel (index + 1) textureID bFound
    else Except.ok textureID

/-- Method `SceneManager::FindTextureID(tag)`. -/
def FindTextureID (s : SceneManager R) (tag : String) : Except Fault Int :=
  FindTextureID.loop s tag s.m_loadedTextures.toNat 0 (-1) false

/-- Method `SceneManager::DefineObjectMaterials()`: six `push_back` calls. -/
def DefineObjectMaterials [DivisionRing R] (s : SceneManager R) : SceneManager R :=
  let goldMaterial : OBJECT_MATERIAL R :=
    { ambientColor := ⟨1.0, 0.9, 0.6⟩, ambientStrength := 0.5, diffuseColor := ⟨0.8, 0.6, 0.2⟩,
      specularColor := ⟨1.0, 0.8, 0.6⟩, shininess := 2.0, tag := "gold" }
  let s := { s with m_objectMaterials := s.m_objectMaterials ++ [goldMaterial] }
  let cementMaterial : OBJECT_MATERIAL R :=
    { ambientColor := ⟨0.3, 0.3, 0.3⟩, ambientStrength := 0.2, diffuseColor := ⟨0.5, 0.5, 0.5⟩,
      specularColor := ⟨0.2, 0.2, 0.2⟩, shininess := 2.0, tag := "cement" }
  let s := { s with m_objectMaterials := s.m_objectMaterials ++ [cementMaterial] }
  let woodMaterial : OBJECT_MATERIAL R :=
    { ambientColor := ⟨0.5, 0.3, 0.1⟩, ambientStrength := 0.3, diffuseColor := ⟨0.6, 0.4, 0.2⟩,
      specularColor := ⟨0.2, 0.15, 0.1⟩, shininess := 8.0, tag := "wood" }
  let s := { s with m_objectMaterials := s.m_objectMaterials ++ [woodMaterial] }
  let tileMaterial : OBJECT_MATERIAL R :=
    { ambientColor := ⟨0.3, 0.3, 0.4⟩, ambientStrength := 0.4, diffuseColor := ⟨0.5, 0.4, 0.3⟩,
      specularColor := ⟨0.6, 0.6, 0.6⟩, shininess := 24.0, tag := "tile" }
  let s := { s with m_objectMaterials := s.m_objectMaterials ++ [tileMaterial] }
  let glassMaterial : OBJECT_MATERIAL R :=
    { ambientColor := ⟨0.3, 0.4, 0.4⟩, ambientStrength := 0.1, diffuseColor := ⟨0.1, 0.1, 0.1⟩,
      specularColor := ⟨1.8, 1.8, 1.8⟩, shininess := 64.0, tag := "glass" }
  let s := { s with m_objectMaterials := s.m_objectMaterials ++ [glassMaterial] }
  let clayMaterial : OBJECT_MATERIAL R :=
    { ambientColor := ⟨0.4, 0.3, 0.2⟩, ambientStrength := 0.3, diffuseColor := ⟨0.6, 0.5, 0.4⟩,
      specularColor := ⟨0.2, 0.2, 0.2⟩, shininess := 4.0, tag := "clay" }
  { s with m_objectMaterials := s.m_objectMaterials ++ [clayMaterial] }

/-- The value the uniform `name` holds in the sink of `s`: the value last
pushed under that name, `none` when nothing was pushed under it or when the
shader-manager pointer is null. -/
def uniformValue (s : SceneManager R) (name : String) : Option (UniformValue R) :=
  match s.m_pShaderManager with
  | some sh => ShaderManager.lastValue sh name
  | none => none

/-- The texture registry (`m_textureIDs`, `m_loadedTextures`) and the material
list (`m_objectMaterials`) of `s1` are those of `s`. -/
def SameRegistry (s1 s : SceneManager R) : Prop :=
  s1.m_textureIDs = s.m_textureIDs ∧ s1.m_loadedTextures = s.m_loadedTextures ∧
    s1.m_objectMaterials = s.m_objectMaterials

/-- The uniforms that `SetShaderMaterial` pushes. -/
def materialUniformNames : List String :=
  [ "material.ambientColor", "material.ambientStrength", "material.diffuseColor",
    "material.specularColor", "material.shininess" ]

end SceneManager

/-! ## The render pass -/

/-- One call made by `RenderScene`: a call of one of the five setters with
its arguments, or a call of one of the mesh-drawing methods of the external
shapes library (`m_basicMeshes->Draw...Mesh()`). -/
inductive SceneCall (R : Type) where
  | SetTransformations (scaleXYZ : glm.vec3 R) (XrotationDegrees YrotationDegrees
      ZrotationDegrees : R) (positionXYZ : glm.vec3 R)
  | SetShaderColor (redColorValue greenColorValue blueColorValue alphaValue : R)
  | SetShaderTexture (textureTag : String)
  | SetShaderMaterial (materialTag : String)
  | SetTextureUVScale (u v : R)
  | DrawBoxMesh
  | DrawPlaneMesh
  | DrawConeMesh
  | DrawCylinderMesh
  | DrawTorusMesh
  | DrawSphereMesh

/-- Which method a call of `RenderScene` invokes, the arguments left out. -/
inductive CallKind where
  | transformations
  | color
  | texture
  | material
  | uvScale
  | draw
deriving DecidableEq, Repr

/-- The kind of a call. -/
def SceneCall.kind {R : Type} : SceneCall R → CallKind
  | SceneCall.SetTransformations _ _ _ _ _ => CallKind.transformations
  | SceneCall.SetShaderColor _ _ _ _ => CallKind.color
  | SceneCall.SetShaderTexture _ => CallKind.texture
  | SceneCall.SetShaderMaterial _ => CallKind.material
  | SceneCall.SetTextureUVScale _ _ => CallKind.uvScale
  | SceneCall.DrawBoxMesh => CallKind.draw
  | SceneCall.DrawPlaneMesh => CallKind.draw
  | SceneCall.DrawConeMesh => CallKind.draw
  | SceneCall.DrawCylinderMesh => CallKind.draw
  | SceneCall.DrawTorusMesh => CallKind.draw
  | SceneCall.DrawSphereMesh => CallKind.draw

/-- For every draw call of a call trace, the kinds of the calls made since the
previous draw call (or since the start), in order; `acc` collects the calls of
the block being read, most recent first. -/
def drawBlocks : List CallKind → List CallKind → List (List CallKind)
  | _, [] => []
  | acc, CallKind.draw :: rest => acc.reverse :: drawBlocks [] rest
  | acc, CallKind.transformations :: rest => drawBlocks (CallKind.transformations :: acc) rest
  | acc, CallKind.color :: rest => drawBlocks (CallKind.color :: acc) rest
  | acc, CallKind.texture :: rest => drawBlocks (CallKind.texture :: acc) rest
  | acc, CallKind.material :: rest => drawBlocks (CallKind.material :: acc) rest
  | acc, CallKind.uvScale :: rest => drawBlocks (CallKind.uvScale :: acc) rest

/-- The two blocks the specification allows before a draw call. -/
def specifiedBlocks : List (List CallKind) :=
  [ [CallKind.transformations, CallKind.color],
    [CallKind.transformations, CallKind.texture, CallKind.material, CallKind.uvScale] ]

/-- The seven blocks that occur before the draw calls of `RenderScene`. -/
def occurringBlocks : List (List CallKind) :=
  [ [CallKind.transformations, CallKind.color],
    [CallKind.transformations, CallKind.texture, CallKind.material, CallKind.uvScale],
    [CallKind.transformations, CallKind.color, CallKind.texture, CallKind.material],
    [CallKind.transformations, CallKind.color, CallKind.material],
    [CallKind.transformations, CallKind.texture, CallKind.material],
    [CallKind.transformations, CallKind.color, CallKind.material, CallKind.uvScale],
    [CallKind.transformations, CallKind.texture, CallKind.material, CallKind.uvScale,
      CallKind.color] ]

namespace SceneManager

variable {R : Type}

/-- The calls of `RenderScene` in lines 622 to 805 of the source, with the values
the local variables hold at each call. -/
def RenderScene.calls0 [DivisionRing R] : List (SceneCall R) :=
  [ SceneCall.SetTransformations ⟨2.6, 0.2, 3.0⟩ 3.0 0.0 0.0 ⟨-6.5, 4.5, 1.5⟩,
    SceneCall.SetShaderColor 1.0 1.0 1.0 1.0,
    SceneCall.DrawBoxMesh,
    SceneCall.SetTransformations ⟨2.6, 0.3, 3.0⟩ 3.0 0.0 0.0 ⟨-6.5, 4.7, 1.5⟩,
    SceneCall.SetShaderTexture "plant",
    SceneCall.SetShaderMaterial "cement",
    SceneCall.SetTextureUVScale 1.0 1.0,
    SceneCall.DrawBoxMesh,
    SceneCall.SetTransformations ⟨2.6, 0.3, 3.0⟩ 3.0 0.0 0.0 ⟨-6.5, 4.0, 1.5⟩,
    SceneCall.SetShaderColor 1.0 1.0 1.0 1.0,
    SceneCall.DrawBoxMesh,
    SceneCall.SetTransformations ⟨2.6, 0.3, 3.0⟩ 3.0 0.0 0.0 ⟨-6.5, 4.3, 1.5⟩,
    SceneCall.SetShaderColor 0.0 1.0 0.0 1.0,
    SceneCall.SetShaderMaterial "cement",
    SceneCall.SetTextureUVScale 1.0 1.0,
    SceneCall.DrawBoxMesh,
    SceneCall.SetTransformations ⟨2.8, 0.4, 3.0⟩ 3.0 0.0 0.0 ⟨-6.5, 3.5, 1.5⟩,
    SceneCall.SetShaderColor 1.0 1.0 1.0 1.0,
    SceneCall.DrawBoxMesh,
    SceneCall.SetTransformations ⟨2.8, 0.2, 3.0⟩ 0.0 0.0 0.0 ⟨-6.5, 3.75, 1.5⟩,
    SceneCall.SetShaderTexture "abstract",
    SceneCall.SetShaderMaterial "cement",
    SceneCall.SetTextureUVScale 1.0 1.0,
    SceneCall.SetShaderColor 1.0 0.5 0.0 1.0,
    SceneCall.DrawBoxMesh,
    SceneCall.SetTransformations ⟨0.1, 0.1, 0.2⟩ 0.0 0.0 0.0 ⟨6.0, 5.0, -1.0⟩,
    SceneCall.SetShaderColor 0.3 0.15 0.05 1.0,
    SceneCall.DrawConeMesh,
    SceneCall.SetTransformations ⟨0.1, 0.2, 0.2⟩ 0.0 0.0 0.0 ⟨6.0, 5.0, -1.0⟩,
    SceneCall.SetShaderColor 0.6 0.4 0.2 1.0,
    SceneCall.DrawConeMesh,
    SceneCall.SetTransformations ⟨0.1, 0.8, 0.2⟩ 0.0 0.0 0.0 ⟨6.0, 5.0, -1.0⟩,
    SceneCall.SetShaderColor 1.0 0.85 0.0 1.0,
    SceneCall.SetShaderMaterial "clay",
    SceneCall.DrawConeMesh,
    SceneCall.SetTransformations ⟨0.1, 0.1, 0.2⟩ 0.0 0.0 0.0 ⟨5.7, 5.0, -1.0⟩,
    SceneCall.SetShaderColor 0.3 0.15 0.05 1.0,
    SceneCall.DrawConeMesh ]

/-- The calls of `RenderScene` in lines 813 to 1049 of the source, with the values
the local variables hold at each call. -/
def RenderScene.calls1 [DivisionRing R] : List (SceneCall R) :=
  [ SceneCall.SetTransformations ⟨0.1, 0.2, 0.2⟩ 0.0 0.0 0.0 ⟨5.7, 5.0, -1.0⟩,
    SceneCall.SetShaderColor 0.6 0.4 0.2 1.0,
    SceneCall.DrawConeMesh,
    SceneCall.SetTransformations ⟨0.1, 0.8, 0.2⟩ 0.0 0.0 0.0 ⟨5.7, 5.0, -1.0⟩,
    SceneCall.SetShaderColor 1.0 0.85 0.0 1.0,
    SceneCall.SetShaderMaterial "clay",
    SceneCall.DrawConeMesh,
    SceneCall.SetTransformations ⟨1.0, 0.1, 1.0⟩ 0.0 0.0 0.0 ⟨5.8, 5.0, -1.3⟩,
    SceneCall.SetShaderColor 0.1 0.1 0.1 1.0,
    SceneCall.SetShaderMaterial "glass",
    SceneCall.DrawCylinderMesh,
    SceneCall.SetTransformations ⟨1.0, 2.0, 1.0⟩ 0.0 0.0 0.0 ⟨5.8, 3.0, -1.3⟩,
    SceneCall.SetShaderTexture "tile",
    SceneCall.SetShaderMaterial "cement",
    SceneCall.SetTextureUVScale 1.0 1.0,
    SceneCall.DrawCylinderMesh,
    SceneCall.SetTransformations ⟨1.0, 0.1, 1.2⟩ 0.0 0.0 0.0 ⟨8.5, 5.6, 2.0⟩,
    SceneCall.SetShaderColor 0.5 0.25 0.1 1.0,
    SceneCall.SetShaderMaterial "cement",
    SceneCall.DrawCylinderMesh,
    SceneCall.SetTransformations ⟨1.2, 0.2, 1.2⟩ 0.0 0.0 0.0 ⟨8.5, 5.5, 2.0⟩,
    SceneCall.SetShaderTexture "marble",
    SceneCall.SetShaderMaterial "gold",
    SceneCall.SetTextureUVScale 1.0 1.0,
    SceneCall.DrawCylinderMesh,
    SceneCall.SetTransformations ⟨1.2, 2.5, 1.2⟩ 0.0 0.0 0.0 ⟨8.5, 3.0, 2.0⟩,
    SceneCall.SetShaderTexture "gold",
    SceneCall.SetShaderMaterial "cement",
    SceneCall.DrawCylinderMesh,
    SceneCall.SetTransformations ⟨0.4, 0.5, 1.5⟩ 0.0 0.0 0.0 ⟨10.0, 4.5, 2.0⟩,
    SceneCall.SetShaderTexture "gold",
    SceneCall.SetShaderMaterial "cement",
    SceneCall.SetTextureUVScale 1.0 1.0,
    SceneCall.DrawTorusMesh,
    SceneCall.SetTransformations ⟨6.5, 10.0, 4.0⟩ 75.0 0.0 0.0 ⟨0.0, 10.3, -2.0⟩,
    SceneCall.SetShaderColor 1.0 1.0 1.0 1.0,
    SceneCall.SetShaderMaterial "glass",
    SceneCall.DrawPlaneMesh,
    SceneCall.SetTransformations ⟨8.0, 10.0, 5.0⟩ 75.0 0.0 0.0 ⟨0.0, 10.5, -3.0⟩,
    SceneCall.SetShaderTexture "metallic",
    SceneCall.SetShaderMaterial "cement",
    SceneCall.SetTextureUVScale 1.0 1.0,
    SceneCall.DrawPlaneMesh ]

/-- The calls of `RenderScene` in lines 1065 to 1310 of the source, with the values
the local variables hold at each call. -/
def RenderScene.calls2 [DivisionRing R] : List (SceneCall R) :=
  [ SceneCall.SetTransformations ⟨0.2, 0.2, 0.2⟩ 0.0 0.0 0.0 ⟨5.0, 3.55, 1.7⟩,
    SceneCall.SetShaderColor 1.0 0.0 0.0 1.0,
    SceneCall.SetShaderMaterial "glass",
    SceneCall.DrawSphereMesh,
    SceneCall.SetTransformations ⟨1.0, 0.1, 1.0⟩ 0.0 0.0 0.0 ⟨5.0, 3.55, 2.0⟩,
    SceneCall.SetShaderTexture "metallic",
    SceneCall.SetShaderMaterial "glass",
    SceneCall.SetTextureUVScale 1.0 1.0,
    SceneCall.DrawBoxMesh,
    SceneCall.SetTransformations ⟨0.03, 0.03, 0.03⟩ 0.0 0.0 0.0 ⟨-2.4, 3.75, 1.5⟩,
    SceneCall.SetShaderColor 0.0 0.0 0.0 1.0,
    SceneCall.DrawPlaneMesh,
    SceneCall.SetTransformations ⟨0.2, 0.3, 0.2⟩ 0.0 0.0 0.0 ⟨-2.4, 3.55, 1.5⟩,
    SceneCall.SetShaderColor 1.0 1.0 1.0 1.0,
    SceneCall.SetShaderTexture "metallic",
    SceneCall.SetShaderMaterial "glass",
    SceneCall.DrawBoxMesh,
    SceneCall.SetTransformations ⟨0.03, 0.03, 0.03⟩ 0.0 0.0 0.0 ⟨-2.0, 3.75, 1.5⟩,
    SceneCall.SetShaderColor 0.0 0.0 0.0 1.0,
    SceneCall.DrawPlaneMesh,
    SceneCall.SetTransformations ⟨0.2, 0.3, 0.2⟩ 0.0 0.0 0.0 ⟨-2.0, 3.55, 1.5⟩,
    SceneCall.SetShaderColor 1.0 1.0 1.0 1.0,
    SceneCall.SetShaderTexture "metallic",
    SceneCall.SetShaderMaterial "glass",
    SceneCall.DrawBoxMesh,
    SceneCall.SetTransformations ⟨0.03, 0.03, 0.03⟩ 0.0 0.0 0.0 ⟨-1.6, 3.75, 1.5⟩,
    SceneCall.SetShaderColor 0.0 0.0 0.0 1.0,
    SceneCall.DrawPlaneMesh,
    SceneCall.SetTransformations ⟨0.2, 0.3, 0.2⟩ 0.0 0.0 0.0 ⟨-1.6, 3.55, 1.5⟩,
    SceneCall.SetShaderColor 1.0 1.0 1.0 1.0,
    SceneCall.SetShaderTexture "metallic",
    SceneCall.SetShaderMaterial "glass",
    SceneCall.DrawBoxMesh,
    SceneCall.SetTransformations ⟨0.03, 0.03, 0.03⟩ 0.0 0.0 0.0 ⟨-1.2, 3.75, 1.5⟩,
    SceneCall.SetShaderColor 0.0 0.0 0.0 1.0,
    SceneCall.DrawPlaneMesh,
    SceneCall.SetTransformations ⟨0.2, 0.3, 0.2⟩ 0.0 0.0 0.0 ⟨-1.2, 3.55, 1.5⟩,
    SceneCall.SetShaderColor 1.0 1.0 1.0 1.0,
    SceneCall.SetShaderTexture "metallic",
    SceneCall.SetShaderMaterial "glass",
    SceneCall.DrawBoxMesh ]

/-- The calls of `RenderScene` in lines 1324 to 1560 of the source, with the values
the local variables hold at each call. -/
def RenderScene.calls3 [DivisionRing R] : List (SceneCall R) :=
  [ SceneCall.SetTransformations ⟨0.03, 0.03, 0.03⟩ 0.0 0.0 0.0 ⟨-0.8, 3.75, 1.5⟩,
    SceneCall.SetShaderColor 0.0 0.0 0.0 1.0,
    SceneCall.DrawPlaneMesh,
    SceneCall.SetTransformations ⟨0.2, 0.3, 0.2⟩ 0.0 0.0 0.0 ⟨-0.8, 3.55, 1.5⟩,
    SceneCall.SetShaderColor 1.0 1.0 1.0 1.0,
    SceneCall.SetShaderTexture "metallic",
    SceneCall.SetShaderMaterial "glass",
    SceneCall.DrawBoxMesh,
    SceneCall.SetTransformations ⟨0.03, 0.03, 0.03⟩ 0.0 0.0 0.0 ⟨-0.4, 3.75, 1.5⟩,
    SceneCall.SetShaderColor 0.0 0.0 0.0 1.0,
    SceneCall.DrawPlaneMesh,
    SceneCall.SetTransformations ⟨0.2, 0.3, 0.2⟩ 0.0 0.0 0.0 ⟨-0.4, 3.55, 1.5⟩,
    SceneCall.SetShaderColor 1.0 1.0 1.0 1.0,
    SceneCall.SetShaderTexture "metallic",
    SceneCall.SetShaderMaterial "glass",
    SceneCall.DrawBoxMesh,
    SceneCall.SetTransformations ⟨0.03, 0.03, 0.03⟩ 0.0 0.0 0.0 ⟨0.0, 3.75, 1.5⟩,
    SceneCall.SetShaderColor 0.0 0.0 0.0 1.0,
    SceneCall.DrawPlaneMesh,
    SceneCall.SetTransformations ⟨0.2, 0.3, 0.2⟩ 0.0 0.0 0.0 ⟨0.0, 3.55, 1.5⟩,
    SceneCall.SetShaderColor 1.0 1.0 1.0 1.0,
    SceneCall.SetShaderTexture "metallic",
    SceneCall.SetShaderMaterial "glass",
    SceneCall.DrawBoxMesh,
    SceneCall.SetTransformations ⟨0.03, 0.03, 0.03⟩ 0.0 0.0 0.0 ⟨0.4, 3.75, 1.5⟩,
    SceneCall.SetShaderColor 0.0 0.0 0.0 1.0,
    SceneCall.DrawPlaneMesh,
    SceneCall.SetTransformations ⟨0.2, 0.3, 0.2⟩ 0.0 0.0 0.0 ⟨0.4, 3.55, 1.5⟩,
    SceneCall.SetShaderColor 1.0 1.0 1.0 1.0,
    SceneCall.SetShaderTexture "metallic",
    SceneCall.SetShaderMaterial "glass",
    SceneCall.DrawBoxMesh,
    SceneCall.SetTransformations ⟨0.03, 0.03, 0.03⟩ 0.0 0.0 0.0 ⟨0.8, 3.75, 1.5⟩,
    SceneCall.SetShaderColor 0.0 0.0 0.0 1.0,
    SceneCall.DrawPlaneMesh,
    SceneCall.SetTransformations ⟨0.2, 0.3, 0.2⟩ 0.0 0.0 0.0 ⟨0.8, 3.55, 1.5⟩,
    SceneCall.SetShaderColor 1.0 1.0 1.0 1.0,
    SceneCall.SetShaderTexture "metallic",
    SceneCall.SetShaderMaterial "glass",
    SceneCall.DrawBoxMesh ]

/-- The calls of `RenderScene` in lines 1574 to 1816 of the source, with the values
the local variables hold at each call. -/
def RenderScene.calls4 [DivisionRing R] : List (SceneCall R) :=
  [ SceneCall.SetTransformations ⟨0.03, 0.03, 0.03⟩ 0.0 0.0 0.0 ⟨1.2, 3.75, 1.5⟩,
    SceneCall.SetShaderColor 0.0 0.0 0.0 1.0,
    SceneCall.DrawPlaneMesh,
    SceneCall.SetTransformations ⟨0.2, 0.3, 0.2⟩ 0.0 0.0 0.0 ⟨1.2, 3.55, 1.5⟩,
    SceneCall.SetShaderColor 1.0 1.0 1.0 1.0,
    SceneCall.SetShaderTexture "metallic",
    SceneCall.SetShaderMaterial "glass",
    SceneCall.DrawBoxMesh,
    SceneCall.SetTransformations ⟨0.03, 0.03, 0.03⟩ 0.0 0.0 0.0 ⟨-2.4, 3.75, 2.0⟩,
    SceneCall.SetShaderColor 0.0 0.0 0.0 1.0,
    SceneCall.DrawPlaneMesh,
    SceneCall.SetTransformations ⟨0.2, 0.3, 0.2⟩ 0.0 0.0 0.0 ⟨-2.4, 3.55, 2.0⟩,
    SceneCall.SetShaderColor 1.0 1.0 1.0 1.0,
    SceneCall.SetShaderTexture "metallic",
    SceneCall.SetShaderMaterial "glass",
    SceneCall.DrawBoxMesh,
    SceneCall.SetTransformations ⟨0.03, 0.03, 0.03⟩ 0.0 0.0 0.0 ⟨-2.0, 3.75, 2.0⟩,
    SceneCall.SetShaderColor 0.0 0.0 0.0 1.0,
    SceneCall.DrawPlaneMesh,
    SceneCall.SetTransformations ⟨0.2, 0.3, 0.2⟩ 0.0 0.0 0.0 ⟨-2.0, 3.55, 2.0⟩,
    SceneCall.SetShaderColor 1.0 1.0 1.0 1.0,
    SceneCall.SetShaderTexture "metallic",
    SceneCall.SetShaderMaterial "glass",
    SceneCall.DrawBoxMesh,
    SceneCall.SetTransformations ⟨0.03, 0.03, 0.03⟩ 0.0 0.0 0.0 ⟨-1.6, 3.75, 2.0⟩,
    SceneCall.SetShaderColor 0.0 0.0 0.0 1.0,
    SceneCall.DrawPlaneMesh,
    SceneCall.SetTransformations ⟨0.2, 0.3, 0.2⟩ 0.0 0.0 0.0 ⟨-1.6, 3.55, 2.0⟩,
    SceneCall.SetShaderColor 1.0 1.0 1.0 1.0,
    SceneCall.SetShaderTexture "metallic",
    SceneCall.SetShaderMaterial "glass",
    SceneCall.DrawBoxMesh,
    SceneCall.SetTransformations ⟨0.03, 0.03, 0.03⟩ 0.0 0.0 0.0 ⟨-1.2, 3.75, 2.0⟩,
    SceneCall.SetShaderColor 0.0 0.0 0.0 1.0,
    SceneCall.DrawPlaneMesh,
    SceneCall.SetTransformations ⟨0.2, 0.3, 0.2⟩ 0.0 0.0 0.0 ⟨-1.2, 3.55, 2.0⟩,
    SceneCall.SetShaderColor 1.0 1.0 1.0 1.0,
    SceneCall.SetShaderTexture "metallic",
    SceneCall.SetShaderMaterial "glass",
    SceneCall.DrawBoxMesh ]

/-- The calls of `RenderScene` in lines 1830 to 2066 of the source, with the values
the local variables hold at each call. -/
def RenderScene.calls5 [DivisionRing R] : List (SceneCall R) :=
  [ SceneCall.SetTransformations ⟨0.03, 0.03, 0.03⟩ 0.0 0.0 0.0 ⟨-0.8, 3.75, 2.0⟩,
    SceneCall.SetShaderColor 0.0 0.0 0.0 1.0,
    SceneCall.DrawPlaneMesh,
    SceneCall.SetTransformations ⟨0.2, 0.3, 0.2⟩ 0.0 0.0 0.0 ⟨-0.8, 3.55, 2.0⟩,
    SceneCall.SetShaderColor 1.0 1.0 1.0 1.0,
    SceneCall.SetShaderTexture "metallic",
    SceneCall.SetShaderMaterial "glass",
    SceneCall.DrawBoxMesh,
    SceneCall.SetTransformations ⟨0.03, 0.03, 0.03⟩ 0.0 0.0 0.0 ⟨-0.4, 3.75, 2.0⟩,
    SceneCall.SetShaderColor 0.0 0.0 0.0 1.0,
    SceneCall.DrawPlaneMesh,
    SceneCall.SetTransformations ⟨0.2, 0.3, 0.2⟩ 0.0 0.0 0.0 ⟨-0.4, 3.55, 2.0⟩,
    SceneCall.SetShaderColor 1.0 1.0 1.0 1.0,
    SceneCall.SetShaderTexture "metallic",
    SceneCall.SetShaderMaterial "glass",
    SceneCall.DrawBoxMesh,
    SceneCall.SetTransformations ⟨0.03, 0.03, 0.03⟩ 0.0 0.0 0.0 ⟨0.0, 3.75, 2.0⟩,
    SceneCall.SetShaderColor 0.0 0.0 0.0 1.0,
    SceneCall.DrawPlaneMesh,
    SceneCall.SetTransformations ⟨0.2, 0.3, 0.2⟩ 0.0 0.0 0.0 ⟨0.0, 3.55, 2.0⟩,
    SceneCall.SetShaderColor 1.0 1.0 1.0 1.0,
    SceneCall.SetShaderTexture "metallic",
    SceneCall.SetShaderMaterial "glass",
    SceneCall.DrawBoxMesh,
    SceneCall.SetTransformations ⟨0.03, 0.03, 0.03⟩ 0.0 0.0 0.0 ⟨0.4, 3.75, 2.0⟩,
    SceneCall.SetShaderColor 0.0 0.0 0.0 1.0,
    SceneCall.DrawPlaneMesh,
    SceneCall.SetTransformations ⟨0.2, 0.3, 0.2⟩ 0.0 0.0 0.0 ⟨0.4, 3.55, 2.0⟩,
    SceneCall.SetShaderColor 1.0 1.0 1.0 1.0,
    SceneCall.SetShaderTexture "metallic",
    SceneCall.SetShaderMaterial "glass",
    SceneCall.DrawBoxMesh,
    SceneCall.SetTransformations ⟨0.03, 0.03, 0.03⟩ 0.0 0.0 0.0 ⟨0.8, 3.75, 2.0⟩,
    SceneCall.SetShaderColor 0.0 0.0 0.0 1.0,
    SceneCall.DrawPlaneMesh,
    SceneCall.SetTransformations ⟨0.2, 0.3, 0.2⟩ 0.0 0.0 0.0 ⟨0.8, 3.55, 2.0⟩,
    SceneCall.SetShaderColor 1.0 1.0 1.0 1.0,
    SceneCall.SetShaderTexture "metallic",
    SceneCall.SetShaderMaterial "glass",
    SceneCall.DrawBoxMesh ]

/-- The calls of `RenderScene` in lines 2080 to 2322 of the source, with the values
the local variables hold at each call. -/
def RenderScene.calls6 [DivisionRing R] : List (SceneCall R) :=
  [ SceneCall.SetTransformations ⟨0.03, 0.03, 0.03⟩ 0.0 0.0 0.0 ⟨1.2, 3.75, 2.0⟩,
    SceneCall.SetShaderColor 0.0 0.0 0.0 1.0,
    SceneCall.DrawPlaneMesh,
    SceneCall.SetTransformations ⟨0.2, 0.3, 0.2⟩ 0.0 0.0 0.0 ⟨1.2, 3.55, 2.0⟩,
    SceneCall.SetShaderColor 1.0 1.0 1.0 1.0,
    SceneCall.SetShaderTexture "metallic",
    SceneCall.SetShaderMaterial "glass",
    SceneCall.DrawBoxMesh,
    SceneCall.SetTransformations ⟨0.03, 0.03, 0.03⟩ 0.0 0.0 0.0 ⟨-2.4, 3.75, 2.5⟩,
    SceneCall.SetShaderColor 0.0 0.0 0.0 1.0,
    SceneCall.DrawPlaneMesh,
    SceneCall.SetTransformations ⟨0.2, 0.3, 0.2⟩ 0.0 0.0 0.0 ⟨-2.4, 3.55, 2.5⟩,
    SceneCall.SetShaderColor 1.0 1.0 1.0 1.0,
    SceneCall.SetShaderTexture "metallic",
    SceneCall.SetShaderMaterial "glass",
    SceneCall.DrawBoxMesh,
    SceneCall.SetTransformations ⟨0.03, 0.03, 0.03⟩ 0.0 0.0 0.0 ⟨-2.0, 3.75, 2.5⟩,
    SceneCall.SetShaderColor 0.0 0.0 0.0 1.0,
    SceneCall.DrawPlaneMesh,
    SceneCall.SetTransformations ⟨0.2, 0.3, 0.2⟩ 0.0 0.0 0.0 ⟨-2.0, 3.55, 2.5⟩,
    SceneCall.SetShaderColor 1.0 1.0 1.0 1.0,
    SceneCall.SetShaderTexture "metallic",
    SceneCall.SetShaderMaterial "glass",
    SceneCall.DrawBoxMesh,
    SceneCall.SetTransformations ⟨0.03, 0.03, 0.03⟩ 0.0 0.0 0.0 ⟨-1.6, 3.75, 2.5⟩,
    SceneCall.SetShaderColor 0.0 0.0 0.0 1.0,
    SceneCall.DrawPlaneMesh,
    SceneCall.SetTransformations ⟨0.2, 0.3, 0.2⟩ 0.0 0.0 0.0 ⟨-1.6, 3.55, 2.5⟩,
    SceneCall.SetShaderColor 1.0 1.0 1.0 1.0,
    SceneCall.SetShaderTexture "metallic",
    SceneCall.SetShaderMaterial "glass",
    SceneCall.DrawBoxMesh,
    SceneCall.SetTransformations ⟨0.03, 0.03, 0.03⟩ 0.0 0.0 0.0 ⟨-1.2, 3.75, 2.5⟩,
    SceneCall.SetShaderColor 0.0 0.0 0.0 1.0,
    SceneCall.DrawPlaneMesh,
    SceneCall.SetTransformations ⟨0.2, 0.3, 0.2⟩ 0.0 0.0 0.0 ⟨-1.2, 3.55, 2.5⟩,
    SceneCall.SetShaderColor 1.0 1.0 1.0 1.0,
    SceneCall.SetShaderTexture "metallic",
    SceneCall.SetShaderMaterial "glass",
    SceneCall.DrawBoxMesh ]

/-- The calls of `RenderScene` in lines 2336 to 2572 of the source, with the values
the local variables hold at each call. -/
def RenderScene.calls7 [DivisionRing R] : List (SceneCall R) :=
  [ SceneCall.SetTransformations ⟨0.03, 0.03, 0.03⟩ 0.0 0.0 0.0 ⟨-0.8, 3.75, 2.5⟩,
    SceneCall.SetShaderColor 0.0 0.0 0.0 1.0,
    SceneCall.DrawPlaneMesh,
    SceneCall.SetTransformations ⟨0.2, 0.3, 0.2⟩ 0.0 0.0 0.0 ⟨-0.8, 3.55, 2.5⟩,
    SceneCall.SetShaderColor 1.0 1.0 1.0 1.0,
    SceneCall.SetShaderTexture "metallic",
    SceneCall.SetShaderMaterial "glass",
    SceneCall.DrawBoxMesh,
    SceneCall.SetTransformations ⟨0.03, 0.03, 0.03⟩ 0.0 0.0 0.0 ⟨-0.4, 3.75, 2.5⟩,
    SceneCall.SetShaderColor 0.0 0.0 0.0 1.0,
    SceneCall.DrawPlaneMesh,
    SceneCall.SetTransformations ⟨0.2, 0.3, 0.2⟩ 0.0 0.0 0.0 ⟨-0.4, 3.55, 2.5⟩,
    SceneCall.SetShaderColor 1.0 1.0 1.0 1.0,
    SceneCall.SetShaderTexture "metallic",
    SceneCall.SetShaderMaterial "glass",
    SceneCall.DrawBoxMesh,
    SceneCall.SetTransformations ⟨0.03, 0.03, 0.03⟩ 0.0 0.0 0.0 ⟨0.0, 3.75, 2.5⟩,
    SceneCall.SetShaderColor 0.0 0.0 0.0 1.0,
    SceneCall.DrawPlaneMesh,
    SceneCall.SetTransformations ⟨0.2, 0.3, 0.2⟩ 0.0 0.0 0.0 ⟨0.0, 3.55, 2.5⟩,
    SceneCall.SetShaderColor 1.0 1.0 1.0 1.0,
    SceneCall.SetShaderTexture "metallic",
    SceneCall.SetShaderMaterial "glass",
    SceneCall.DrawBoxMesh,
    SceneCall.SetTransformations ⟨0.03, 0.03, 0.03⟩ 0.0 0.0 0.0 ⟨0.4, 3.75, 2.5⟩,
    SceneCall.SetShaderColor 0.0 0.0 0.0 1.0,
    SceneCall.DrawPlaneMesh,
    SceneCall.SetTransformations ⟨0.2, 0.3, 0.2⟩ 0.0 0.0 0.0 ⟨0.4, 3.55, 2.5⟩,
    SceneCall.SetShaderColor 1.0 1.0 1.0 1.0,
    SceneCall.SetShaderTexture "metallic",
    SceneCall.SetShaderMaterial "glass",
    SceneCall.DrawBoxMesh,
    SceneCall.SetTransformations ⟨0.03, 0.03, 0.03⟩ 0.0 0.0 0.0 ⟨0.8, 3.75, 2.5⟩,
    SceneCall.SetShaderColor 0.0 0.0 0.0 1.0,
    SceneCall.DrawPlaneMesh,
    SceneCall.SetTransformations ⟨0.2, 0.3, 0.2⟩ 0.0 0.0 0.0 ⟨0.8, 3.55, 2.5⟩,
    SceneCall.SetShaderColor 1.0 1.0 1.0 1.0,
    SceneCall.SetShaderTexture "metallic",
    SceneCall.SetShaderMaterial "glass",
    SceneCall.DrawBoxMesh ]

/-- The calls of `RenderScene` in lines 2586 to 2830 of the source, with the values
the local variables hold at each call. -/
def RenderScene.calls8 [DivisionRing R] : List (SceneCall R) :=
  [ SceneCall.SetTransformations ⟨0.03, 0.03, 0.03⟩ 0.0 0.0 0.0 ⟨1.2, 3.75, 2.5⟩,
    SceneCall.SetShaderColor 0.0 0.0 0.0 1.0,
    SceneCall.DrawPlaneMesh,
    SceneCall.SetTransformations ⟨0.2, 0.3, 0.2⟩ 0.0 0.0 0.0 ⟨1.2, 3.55, 2.5⟩,
    SceneCall.SetShaderColor 1.0 1.0 1.0 1.0,
    SceneCall.SetShaderTexture "metallic",
    SceneCall.SetShaderMaterial "glass",
    SceneCall.DrawBoxMesh,
    SceneCall.SetTransformations ⟨3.8, 0.3, 0.2⟩ 0.0 0.0 0.0 ⟨-0.60, 3.55, 2.9⟩,
    SceneCall.SetShaderColor 1.0 1.0 1.0 1.0,
    SceneCall.SetShaderTexture "metallic",
    SceneCall.SetShaderMaterial "glass",
    SceneCall.DrawBoxMesh,
    SceneCall.SetTransformations ⟨1.0, 0.3, 0.2⟩ 0.0 0.0 0.0 ⟨2.4, 3.55, 2.9⟩,
    SceneCall.SetShaderColor 1.0 1.0 1.0 1.0,
    SceneCall.SetShaderTexture "metallic",
    SceneCall.SetShaderMaterial "glass",
    SceneCall.DrawBoxMesh,
    SceneCall.SetTransformations ⟨0.03, 0.03, 0.03⟩ 0.0 0.0 0.0 ⟨2.0, 3.75, 1.5⟩,
    SceneCall.SetShaderColor 0.0 0.0 0.0 1.0,
    SceneCall.DrawPlaneMesh,
    SceneCall.SetTransformations ⟨0.2, 0.3, 0.2⟩ 0.0 0.0 0.0 ⟨2.0, 3.55, 1.5⟩,
    SceneCall.SetShaderColor 1.0 1.0 1.0 1.0,
    SceneCall.SetShaderTexture "metallic",
    SceneCall.SetShaderMaterial "glass",
    SceneCall.DrawBoxMesh,
    SceneCall.SetTransformations ⟨0.03, 0.03, 0.03⟩ 0.0 0.0 0.0 ⟨2.4, 3.75, 1.5⟩,
    SceneCall.SetShaderColor 0.0 0.0 0.0 1.0,
    SceneCall.DrawPlaneMesh,
    SceneCall.SetTransformations ⟨0.2, 0.3, 0.2⟩ 0.0 0.0 0.0 ⟨2.4, 3.55, 1.5⟩,
    SceneCall.SetShaderColor 1.0 1.0 1.0 1.0,
    SceneCall.SetShaderTexture "metallic",
    SceneCall.SetShaderMaterial "glass",
    SceneCall.DrawBoxMesh,
    SceneCall.SetTransformations ⟨0.03, 0.03, 0.03⟩ 0.0 0.0 0.0 ⟨2.8, 3.75, 1.5⟩,
    SceneCall.SetShaderColor 0.0 0.0 0.0 1.0,
    SceneCall.DrawPlaneMesh,
    SceneCall.SetTransformations ⟨0.2, 0.3, 0.2⟩ 0.0 0.0 0.0 ⟨2.8, 3.55, 1.5⟩,
    SceneCall.SetShaderColor 1.0 1.0 1.0 1.0,
    SceneCall.SetShaderTexture "metallic",
    SceneCall.SetShaderMaterial "glass",
    SceneCall.DrawBoxMesh ]

/-- The calls of `RenderScene` in lines 2844 to 3090 of the source, with the values
the local variables hold at each call. -/
def RenderScene.calls9 [DivisionRing R] : List (SceneCall R) :=
  [ SceneCall.SetTransformations ⟨0.03, 0.03, 0.03⟩ 0.0 0.0 0.0 ⟨2.8, 3.75, 2.0⟩,
    SceneCall.SetShaderColor 0.0 0.0 0.0 1.0,
    SceneCall.DrawPlaneMesh,
    SceneCall.SetTransformations ⟨0.03, 0.03, 0.03⟩ 0.0 0.0 0.0 ⟨2.0, 3.75, 2.0⟩,
    SceneCall.SetShaderColor 0.0 0.0 0.0 1.0,
    SceneCall.DrawPlaneMesh,
    SceneCall.SetTransformations ⟨0.2, 0.3, 0.2⟩ 0.0 0.0 0.0 ⟨2.0, 3.55, 2.0⟩,
    SceneCall.SetShaderColor 1.0 1.0 1.0 1.0,
    SceneCall.SetShaderTexture "metallic",
    SceneCall.SetShaderMaterial "glass",
    SceneCall.DrawBoxMesh,
    SceneCall.SetTransformations ⟨0.03, 0.03, 0.03⟩ 0.0 0.0 0.0 ⟨2.4, 3.75, 2.0⟩,
    SceneCall.SetShaderColor 0.0 0.0 0.0 1.0,
    SceneCall.DrawPlaneMesh,
    SceneCall.SetTransformations ⟨0.2, 0.3, 0.2⟩ 0.0 0.0 0.0 ⟨2.4, 3.55, 2.0⟩,
    SceneCall.SetShaderColor 1.0 1.0 1.0 1.0,
    SceneCall.SetShaderTexture "metallic",
    SceneCall.SetShaderMaterial "glass",
    SceneCall.DrawBoxMesh,
    SceneCall.SetTransformations ⟨0.03, 0.03, 0.03⟩ 0.0 0.0 0.0 ⟨2.8, 3.75, 2.0⟩,
    SceneCall.SetShaderColor 0.0 0.0 0.0 1.0,
    SceneCall.DrawPlaneMesh,
    SceneCall.SetTransformations ⟨0.2, 0.3, 0.2⟩ 0.0 0.0 0.0 ⟨2.8, 3.55, 2.0⟩,
    SceneCall.SetShaderColor 1.0 1.0 1.0 1.0,
    SceneCall.SetShaderTexture "metallic",
    SceneCall.SetShaderMaterial "glass",
    SceneCall.DrawBoxMesh,
    SceneCall.SetTransformations ⟨0.03, 0.03, 0.03⟩ 0.0 0.0 0.0 ⟨2.0, 3.75, 2.5⟩,
    SceneCall.SetShaderColor 0.0 0.0 0.0 1.0,
    SceneCall.DrawPlaneMesh,
    SceneCall.SetTransformations ⟨0.2, 0.3, 0.2⟩ 0.0 0.0 0.0 ⟨2.0, 3.55, 2.5⟩,
    SceneCall.SetShaderColor 1.0 1.0 1.0 1.0,
    SceneCall.SetShaderTexture "metallic",
    SceneCall.SetShaderMaterial "glass",
    SceneCall.DrawBoxMesh,
    SceneCall.SetTransformations ⟨0.03, 0.03, 0.03⟩ 0.0 0.0 0.0 ⟨2.4, 3.75, 2.5⟩,
    SceneCall.SetShaderColor 0.0 0.0 0.0 1.0,
    SceneCall.DrawPlaneMesh ]

/-- The calls of `RenderScene` in lines 3104 to 3283 of the source, with the values
the local variables hold at each call. -/
def RenderScene.calls10 [DivisionRing R] : List (SceneCall R) :=
  [ SceneCall.SetTransformations ⟨0.2, 0.3, 0.2⟩ 0.0 0.0 0.0 ⟨2.4, 3.55, 2.5⟩,
    SceneCall.SetShaderColor 1.0 1.0 1.0 1.0,
    SceneCall.SetShaderTexture "metallic",
    SceneCall.SetShaderMaterial "glass",
    SceneCall.DrawBoxMesh,
    SceneCall.SetTransformations ⟨0.03, 0.03, 0.03⟩ 0.0 0.0 0.0 ⟨2.8, 3.75, 2.5⟩,
    SceneCall.SetShaderColor 0.0 0.0 0.0 1.0,
    SceneCall.DrawPlaneMesh,
    SceneCall.SetTransformations ⟨0.2, 0.3, 0.2⟩ 0.0 0.0 0.0 ⟨2.8, 3.55, 2.5⟩,
    SceneCall.SetShaderColor 1.0 1.0 1.0 1.0,
    SceneCall.SetShaderTexture "metallic",
    SceneCall.SetShaderMaterial "glass",
    SceneCall.DrawBoxMesh,
    SceneCall.SetTransformations ⟨3.0, 0.1, 1.0⟩ 0.0 0.0 0.0 ⟨0.1, 3.55, 2.2⟩,
    SceneCall.SetShaderTexture "metallic",
    SceneCall.SetShaderMaterial "cement",
    SceneCall.DrawPlaneMesh,
    SceneCall.SetTransformations ⟨1.5, 10.0, 3.0⟩ 90.0 0.0 0.0 ⟨0.5, 3.0, -1.8⟩,
    SceneCall.SetShaderTexture "metallic",
    SceneCall.SetShaderMaterial "cement",
    SceneCall.DrawPlaneMesh,
    SceneCall.SetTransformations ⟨22.0, 1.0, 10.0⟩ 0.0 0.0 0.0 ⟨0.0, 3.0, 0.0⟩,
    SceneCall.SetShaderTexture "marble",
    SceneCall.SetShaderMaterial "gold",
    SceneCall.DrawBoxMesh,
    SceneCall.SetTransformations ⟨22.0, 5.0, 10.0⟩ 0.0 0.0 0.0 ⟨0.0, 0.0, 0.0⟩,
    SceneCall.SetShaderTexture "plank",
    SceneCall.SetShaderMaterial "clay",
    SceneCall.DrawBoxMesh ]

/-- The calls that `RenderScene` makes, in order: the body of the method is
straight-line code, a sequence of assignments to the locals `scaleXYZ`,
`XrotationDegrees`, `YrotationDegrees`, `ZrotationDegrees`, `positionXYZ` and of
calls of the five setters and of the mesh-drawing methods. -/
def RenderScene.calls [DivisionRing R] : List (SceneCall R) :=
  RenderScene.calls0 ++ RenderScene.calls1 ++ RenderScene.calls2 ++ RenderScene.calls3 ++
    RenderScene.calls4 ++ RenderScene.calls5 ++ RenderScene.calls6 ++ RenderScene.calls7 ++
    RenderScene.calls8 ++ RenderScene.calls9 ++ RenderScene.calls10
/-- The blocks of setter calls that precede the draw calls of `RenderScene`. -/
def RenderScene.blocks (R : Type) [DivisionRing R] : List (List CallKind) :=
  drawBlocks [] ((RenderScene.calls : List (SceneCall R)).map SceneCall.kind)

/-- Execution of one call of `RenderScene`; `stale` is the indeterminate
content of the local of `SetShaderMaterial`. The mesh-drawing methods do not
touch the members of the scene manager. -/
def execCall [Ring R] (G : glm.ScalarFns R) (stale : OBJECT_MATERIAL R) (s : SceneManager R) :
    SceneCall R → Except Fault (SceneManager R)
  | SceneCall.SetTransformations scaleXYZ x y z positionXYZ =>
    Except.ok (s.SetTransformations G scaleXYZ x y z positionXYZ)
  | SceneCall.SetShaderColor r g b a => Except.ok (s.SetShaderColor r g b a)
  | SceneCall.SetShaderTexture textureTag => s.SetShaderTexture textureTag
  | SceneCall.SetShaderMaterial materialTag => s.SetShaderMaterial materialTag stale
  | SceneCall.SetTextureUVScale u v => Except.ok (s.SetTextureUVScale u v)
  | SceneCall.DrawBoxMesh => Except.ok s
  | SceneCall.DrawPlaneMesh => Except.ok s
  | SceneCall.DrawConeMesh => Except.ok s
  | SceneCall.DrawCylinderMesh => Except.ok s
  | SceneCall.DrawTorusMesh => Except.ok s
  | SceneCall.DrawSphereMesh => Except.ok s

/-- Execution of a list of calls one after the other; `stale k` is the
indeterminate content of the local of `SetShaderMaterial` at call number `k`. -/
def execCalls [Ring R] (G : glm.ScalarFns R) (stale : Nat → OBJECT_MATERIAL R) :
    Nat → SceneManager R → List (SceneCall R) → Except Fault (SceneManager R)
  | _, s, [] => Except.ok s
  | k, s, c :: rest =>
    match s.execCall G (stale k) c with
    | Except.error f => Except.error f
    | Except.ok s1 => execCalls G stale (k + 1) s1 rest

/-- Method `SceneManager::RenderScene()`. -/
def RenderScene [DivisionRing R] (G : glm.ScalarFns R) (stale : Nat → OBJECT_MATERIAL R)
    (s : SceneManager R) : Except Fault (SceneManager R) :=
  execCalls G stale 0 s RenderScene.calls

end SceneManager

/-! ## Example inputs -/

/-- Sixteen calls whose images all decode with 3 channels, with the file names
and tags of `LoadSceneTextures`. -/
def sixteenLoads : List TextureLoad :=
  [ { filename := "../../Utilities/textures/wood.jpg", tag := "wood",
      image := some ⟨64, 64, 3⟩, genID := 1 },
    { filename := "../../Utilities/textures/plant.jpg", tag := "plant",
      image := some ⟨64, 64, 3⟩, genID := 2 },
    { filename := "../../Utilities/textures/black_marble.jpg", tag := "marble",
      image := some ⟨64, 64, 3⟩, genID := 3 },
    { filename := "../../Utilities/textures/tile.jpg", tag := "tile",
      image := some ⟨64, 64, 3⟩, genID := 4 },
    { filename := "../../Utilities/textures/coffee.png", tag := "coffee",
      image := some ⟨64, 64, 3⟩, genID := 5 },
    { filename := "../../Utilities/textures/metallic.jpg", tag := "metallic",
      image := some ⟨64, 64, 3⟩, genID := 6 },
    { filename := "../../Utilities/textures/silver_floral.jpeg", tag := "silver",
      image := some ⟨64, 64, 3⟩, genID := 7 },
    { filename := "../../Utilities/textures/gold.jpg", tag := "gold",
      image := some ⟨64, 64, 3⟩, genID := 8 },
    { filename := "../../Utilities/textures/gold2.jpeg", tag := "gold2",
      image := some ⟨64, 64, 3⟩, genID := 9 },
    { filename := "../../Utilities/textures/pavers.jpg", tag := "floor",
      image := some ⟨64, 64, 3⟩, genID := 10 },
    { filename := "../../Utilities/textures/gold-seamless-texture.jpg", tag := "cylinder",
      image := some ⟨64, 64, 3⟩, genID := 11 },
    { filename := "../../Utilities/textures/circular-brushed-gold-texture.jpg",
      tag := "cylinder_top", image := some ⟨64, 64, 3⟩, genID := 12 },
    { filename := "../../Utilities/textures/rusticwood.jpg", tag := "plank",
      image := some ⟨64, 64, 3⟩, genID := 13 },
    { filename := "../../Utilities/textures/tilesf2.jpg", tag := "box",
      image := some ⟨64, 64, 3⟩, genID := 14 },
    { filename := "../../Utilities/textures/stainedglass.jpg", tag := "ball",
      image := some ⟨64, 64, 3⟩, genID := 15 },
    { filename := "../../Utilities/textures/abstract.jpg", tag := "cone",
      image := some ⟨64, 64, 3⟩, genID := 16 } ]

/-- Four calls: a 3-channel image, a file that does not decode, a 4-channel
image and a 1-channel image. -/
def exampleLoads : List TextureLoad :=
  [ { filename := "wood.jpg", tag := "wood", image := some ⟨512, 512, 3⟩, genID := 1 },
    { filename := "missing.jpg", tag := "plant", image := none, genID := 0 },
    { filename := "coffee.png", tag := "coffee", image := some ⟨64, 64, 4⟩, genID := 2 },
    { filename := "gray.png", tag := "gray", image := some ⟨8, 8, 1⟩, genID := 3 } ]

/-- A registry with three loaded entries, two of them tagged "wood", and a
non-null shader manager through which nothing was pushed yet. -/
def exampleRegistry : SceneManager Int :=
  { m_pShaderManager := some []
    m_loadedTextures := 3
    m_textureIDs := fun i =>
      if i.val = 0 then { tag := "wood", ID := 7 }
      else if i.val = 1 then { tag := "plant", ID := 8 }
      else if i.val = 2 then { tag := "wood", ID := 9 }
      else { tag := "/0", ID := uint32_of_int (-1) }
    m_objectMaterials := [] }

/-- The material the source defines under the tag "gold". -/
def goldMaterial : OBJECT_MATERIAL ℚ :=
  { ambientColor := ⟨1, 9 / 10, 6 / 10⟩
    ambientStrength := 5 / 10
    diffuseColor := ⟨8 / 10, 6 / 10, 2 / 10⟩
    specularColor := ⟨1, 8 / 10, 6 / 10⟩
    shininess := 2
    tag := "gold" }

/-- The material the source defines under the tag "cement". -/
def cementMaterial : OBJECT_MATERIAL ℚ :=
  { ambientColor := ⟨3 / 10, 3 / 10, 3 / 10⟩
    ambientStrength := 2 / 10
    diffuseColor := ⟨5 / 10, 5 / 10, 5 / 10⟩
    specularColor := ⟨2 / 10, 2 / 10, 2 / 10⟩
    shininess := 2
    tag := "cement" }

/-- A second material tagged "gold", with other property values. -/
def dullGoldMaterial : OBJECT_MATERIAL ℚ :=
  { ambientColor := ⟨0, 0, 0⟩
    ambientStrength := 0
    diffuseColor := ⟨1 / 10, 1 / 10, 1 / 10⟩
    specularColor := ⟨0, 0, 0⟩
    shininess := 1
    tag := "gold" }

/-- Some content of an uninitialised `OBJECT_MATERIAL` local. -/
def staleMaterial : OBJECT_MATERIAL ℚ :=
  { ambientColor := ⟨7, 7, 7⟩
    ambientStrength := 7
    diffuseColor := ⟨7, 7, 7⟩
    specularColor := ⟨7, 7, 7⟩
    shininess := 7
    tag := "" }

/-- A freshly constructed scene manager with a non-null shader manager, to
which the materials cement, gold and a second gold were added in this order. -/
def exampleMaterials : SceneManager ℚ :=
  { SceneManager.construct (some []) with
    m_objectMaterials := [cementMaterial, goldMaterial, dullGoldMaterial] }

/-- A scene manager with a null shader-manager pointer and the materials
cement, gold and a second gold. -/
def exampleNullMaterials : SceneManager ℚ :=
  { SceneManager.construct none with
    m_objectMaterials := [cementMaterial, goldMaterial, dullGoldMaterial] }

/-- Scalar functions on the integers, with angles in whole degrees
(`degToRad = 1`): cosine and sine are exact at the multiples of a right angle
and `inversesqrt` is exact at 1, the squared length of a coordinate axis. -/
def exampleScalarFns : glm.ScalarFns Int :=
  { cos := fun a => if a % 360 = 0 then 1 else if a % 360 = 180 then -1 else 0
    sin := fun a => if a % 360 = 90 then 1 else if a % 360 = 270 then -1 else 0
    inversesqrt := fun _ => 1
    degToRad := 1 }

/-- Scalar functions on the rationals: small-angle approximations of cosine
and sine, and 355/113 for pi. -/
def rationalScalarFns : glm.ScalarFns ℚ :=
  { cos := fun a => 1 - a * a / 2
    sin := fun a => a
    inversesqrt := fun _ => 1
    degToRad := 355 / (113 * 180) }

/-- A freshly constructed scene manager with a non-null shader manager, after
`DefineObjectMaterials`. -/
def exampleScene : SceneManager ℚ :=
  SceneManager.DefineObjectMaterials (SceneManager.construct (some []))

/-! ## Scene preparation and shutdown -/

/-- Call `setBoolValue(name, value)`. -/
def ShaderManager.setBoolValue {R : Type} (sh : ShaderManager R) (name : String) (value : Bool) :
    ShaderManager R :=
  sh ++ [(name, UniformValue.bool value)]

namespace SceneManager

variable {R : Type}

/-- The loop of `DestroyGLTextures`: `for (int i = 0; i < m_loadedTextures; i++)`
with the body `glGenTextures(1, &m_textureIDs[i].ID)`; `genID i` is the texture
name that the call of iteration `i` writes into the entry. -/
def DestroyGLTextures.loop (genID : Int → Nat) :
    Nat → Int → SceneManager R → List GLCall → Except Fault (SceneManager R × List GLCall)
  | 0, i, s, gl =>
    if i < s.m_loadedTextures then Except.error Fault.outOfFuel else Except.ok (s, gl)
  | fuel + 1, i, s, gl =>
    if i < s.m_loadedTextures then
      if h : 0 ≤ i ∧ i < 16 then
        DestroyGLTextures.loop genID fuel (i + 1)
          { s with
            m_textureIDs := Function.update s.m_textureIDs (arrayIndex i h)
              { s.m_textureIDs (arrayIndex i h) with ID := genID i } }
          (gl ++ [GLCall.glGenTextures 1 (genID i)])
      else Except.error Fault.outOfBounds
    else Except.ok (s, gl)

/-- Method `SceneManager::DestroyGLTextures()`. -/
def DestroyGLTextures (s : SceneManager R) (gl : List GLCall) (genID : Int → Nat) :
    Except Fault (SceneManager R × List GLCall) :=
  DestroyGLTextures.loop genID s.m_loadedTextures.toNat 0 s gl

/-- The (file name, tag) arguments of the 16 `CreateGLTexture` calls of
`LoadSceneTextures`, in call order. -/
def LoadSceneTextures.arguments : List (String × String) :=
  [ ("../../Utilities/textures/wood.jpg", "wood"),
    ("../../Utilities/textures/plant.jpg", "plant"),
    ("../../Utilities/textures/black_marble.jpg", "marble"),
    ("../../Utilities/textures/tile.jpg", "tile"),
    ("../../Utilities/textures/coffee.png", "coffee"),
    ("../../Utilities/textures/metallic.jpg", "metallic"),
    ("../../Utilities/textures/silver_floral.jpeg", "silver"),
    ("../../Utilities/textures/gold.jpg", "gold"),
    ("../../Utilities/textures/gold2.jpeg", "gold2"),
    ("../../Utilities/textures/pavers.jpg", "floor"),
    ("../../Utilities/textures/gold-seamless-texture.jpg", "cylinder"),
    ("../../Utilities/textures/circular-brushed-gold-texture.jpg", "cylinder_top"),
    ("../../Utilities/textures/rusticwood.jpg", "plank"),
    ("../../Utilities/textures/tilesf2.jpg", "box"),
    ("../../Utilities/textures/stainedglass.jpg", "ball"),
    ("../../Utilities/textures/abstract.jpg", "cone") ]

/-- The 16 calls of `LoadSceneTextures` with their environment: `image k` is
what `stbi_load` returns at call number `k` and `genID k` the texture name that
`glGenTextures` writes there. -/
def LoadSceneTextures.loads (image : Nat → Option Image) (genID : Nat → Nat) :
    List TextureLoad :=
  (List.range 16).zipWith
    (fun k a => { filename := a.1, tag := a.2, image := image k, genID := genID k })
    LoadSceneTextures.arguments

/-- Method `SceneManager::LoadSceneTextures()`: the 16 `CreateGLTexture` calls,
whose returned `bool` is assigned to `bReturn` and not looked at, then
`BindGLTextures()`. -/
def LoadSceneTextures (s : SceneManager R) (gl : List GLCall) (image : Nat → Option Image)
    (genID : Nat → Nat) : Except Fault (SceneManager R × List GLCall) :=
  match s.CreateGLTextures gl (LoadSceneTextures.loads image genID) with
  | Except.error f => Except.error f
  | Except.ok (_, s1, gl1) =>
    match s1.BindGLTextures gl1 with
    | Except.error f => Except.error f
    | Except.ok gl2 => Except.ok (s1, gl2)

/-- The pushes of `SetupSceneLights`, in the order of the source. -/
def SetupSceneLights.pushes [DivisionRing R] : List (String × UniformValue R) :=
  [ ("bUseLighting", UniformValue.bool true),
      ("lightSources[0].position", UniformValue.vec3 ⟨0.1, 0.1, 0.1⟩),
      ("lightSources[0].ambientColor", UniformValue.vec3 ⟨0.1, 0.1, 0.1⟩),
      ("lightSources[0].diffuseColor", UniformValue.vec3 ⟨0.1, 0.1, 0.1⟩),
      ("lightSources[0].specularColor", UniformValue.vec3 ⟨0.1, 0.1, 0.1⟩),
      ("lightSources[0].focalStrength", UniformValue.float 0.1),
      ("lightSources[0].specularIntensity", UniformValue.float 0.1),
      ("lightSources[1].position", UniformValue.vec3 ⟨0.1, 0.1, 0.1⟩),
      ("lightSources[1].ambientColor", UniformValue.vec3 ⟨0.1, 0.1, 0.1⟩),
      ("lightSources[1].diffuseColor", UniformValue.vec3 ⟨0.1, 0.1, 0.1⟩),
      ("lightSources[1].specularColor", UniformValue.vec3 ⟨0.1, 0.1, 0.1⟩),
      ("lightSources[1].focalStrength", UniformValue.float 0.1),
      ("lightSources[1].specularIntensity", UniformValue.float 0.1),
      ("lightSources[2].position", UniformValue.vec3 ⟨0.1, 0.1, 0.1⟩),
      ("lightSources[2].ambientColor", UniformValue.vec3 ⟨0.1, 0.1, 0.1⟩),
      ("lightSources[2].diffuseColor", UniformValue.vec3 ⟨0.1, 0.1, 0.1⟩),
      ("lightSources[2].specularColor", UniformValue.vec3 ⟨0.1, 0.1, 0.1⟩),
      ("lightSources[2].focalStrength", UniformValue.float 0.1),
      ("lightSources[2].specularIntensity", UniformValue.float 0.1),
      ("lightSources[3].position", UniformValue.vec3 ⟨0.1, 0.1, 0.1⟩),
      ("lightSources[3].ambientColor", UniformValue.vec3 ⟨0.1, 0.1, 0.1⟩),
      ("lightSources[3].diffuseColor", UniformValue.vec3 ⟨0.1, 0.1, 0.1⟩),
      ("lightSources[3].specularColor", UniformValue.vec3 ⟨0.1, 0.1, 0.1⟩),
      ("lightSources[3].focalStrength", UniformValue.float 0.1),
      ("lightSources[3].specularIntensity", UniformValue.float 0.1) ]

/-- Method `SceneManager::SetupSceneLights()`; the source calls through
`m_pShaderManager` without a null check. -/
def SetupSceneLights [DivisionRing R] (s : SceneManager R) : Except Fault (SceneManager R) :=
  match s.m_pShaderManager with
  | none => Except.error Fault.nullDereference
  | some sh => Except.ok { s with m_pShaderManager := some (sh ++ SetupSceneLights.pushes) }

/-- Method `SceneManager::PrepareScene()`: `LoadSceneTextures()`,
`DefineObjectMaterials()`, `SetupSceneLights()`, then the nine mesh loads of
the external shapes library, which touch no modelled member. -/
def PrepareScene [DivisionRing R] (s : SceneManager R) (gl : List GLCall)
    (image : Nat → Option Image) (genID : Nat → Nat) :
    Except Fault (SceneManager R × List GLCall) :=
  match s.LoadSceneTextures gl image genID with
  | Except.error f => Except.error f
  | Except.ok (s1, gl1) =>
    match (DefineObjectMaterials s1).SetupSceneLights with
    | Except.error f => Except.error f
    | Except.ok s2 => Except.ok (s2, gl1)

/-- The tags passed to `SetShaderTexture` in a list of calls, in order. -/
def textureTags : List (SceneCall R) → List String
  | [] => []
  | SceneCall.SetShaderTexture t :: rest => t :: textureTags rest
  | _ :: rest => textureTags rest

/-- The tags passed to `SetShaderMaterial` in a list of calls, in order. -/
def materialTags : List (SceneCall R) → List String
  | [] => []
  | SceneCall.SetShaderMaterial t :: rest => t :: materialTags rest
  | _ :: rest => materialTags rest

end SceneManager

/-- A registry with one loaded entry whose handle is the largest unsigned
32-bit value, the number that also encodes -1. -/
def exampleSentinelRegistry : SceneManager Int :=
  { m_pShaderManager := some []
    m_loadedTextures := 1
    m_textureIDs := fun i =>
      if i.val = 0 then { tag := "wood", ID := 4294967295 }
      else { tag := "/0", ID := uint32_of_int (-1) }
    m_objectMaterials := [] }

/-! ## The `float` format (IEEE 754 binary32)

A finite `float` or `double` value is a rational number. A conversion to
`float` and an arithmetic operation on `float` values round the exact result
to the nearest binary32 value, ties to the even significand; a result outside
the range of `float` is undefined behaviour of the source language. The two
zeros, which compare equal, are one value. -/

namespace binary32

/-- The quotient `N / D` rounded to the nearest natural number, ties to even. -/
def roundHalfEven (N D : Nat) : Nat :=
  let q := N / D
  let r := N % D
  if 2 * r < D then q else if D < 2 * r then q + 1 else if q % 2 = 0 then q else q + 1

/-- The unit in the last place of the binary32 values around `n / d` is
`2 ^ (k - 149)` for the least `k` with `n / d < 2 ^ (k - 125)`: `k = 0` for the
subnormal numbers and the smallest normal binade (unit `2 ^ (-149)`), up to
`k = 253` for the largest binade (unit `2 ^ 104`). -/
def ulpIndex (n d : Nat) : Nat :=
  ((List.range 254).find? (fun k => decide (n * 2 ^ (125 - k) < d * 2 ^ (k - 125)))).getD 253

/-- The significand of the rounded value: `n / d` divided by the unit in the
last place, rounded to the nearest integer, ties to even. -/
def significand (n d : Nat) : Nat :=
  roundHalfEven (n * 2 ^ (149 - ulpIndex n d)) (d * 2 ^ (ulpIndex n d - 149))

/-- The binary32 value nearest to `n / d`. -/
def magnitude (n d : Nat) : ℚ :=
  ((significand n d * 2 ^ (ulpIndex n d - 149) : Nat) : ℚ) /
    ((2 ^ (149 - ulpIndex n d) : Nat) : ℚ)

/-- The binary32 value nearest to `x`, ties to even (meaningful below
`overflowThreshold`). -/
def nearest (x : ℚ) : ℚ :=
  if x < 0 then -magnitude x.num.natAbs x.den else magnitude x.num.natAbs x.den

/-- From this magnitude on, rounding to nearest leaves the range of `float`:
the midpoint of `FLT_MAX = 2 ^ 128 - 2 ^ 104` and `2 ^ 128`. -/
def overflowThreshold : ℚ := 2 ^ 128 - 2 ^ 103

/-- Conversion of a real value to `float`, as `static_cast<float>` of a finite
`double`. -/
def convert (x : ℚ) : Except Fault ℚ :=
  if overflowThreshold ≤ |x| then Except.error Fault.floatOutOfRange
  else Except.ok (nearest x)

/-- Operator `-` on two `float` values: the exact difference, rounded. -/
def sub (a b : ℚ) : Except Fault ℚ := convert (a - b)

end binary32

/-! ## The view manager (`src/ViewManager.cpp`) -/

namespace glm

/-- Function `glm::ortho(left, right, bottom, top, zNear, zFar)` of GLM
(right-handed, depth range -1 to 1, the library default). -/
def ortho {R : Type} [DivisionRing R] (left right bottom top zNear zFar : R) : mat4 R :=
  { c0 := ⟨2 / (right - left), 0, 0, 0⟩
    c1 := ⟨0, 2 / (top - bottom), 0, 0⟩
    c2 := ⟨0, 0, -(2 / (zFar - zNear)), 0⟩
    c3 := ⟨-((right + left) / (right - left)), -((top + bottom) / (top - bottom)),
      -((zFar + zNear) / (zFar - zNear)), 1⟩ }

/-- Function `glm::perspective(fovy, aspect, zNear, zFar)` of GLM (right-handed,
depth range -1 to 1, the library default); `tan` is the tangent function of
the C++ maths library. -/
def perspective {R : Type} [DivisionRing R] (tan : R → R) (fovy aspect zNear zFar : R) :
    mat4 R :=
  let tanHalfFovy := tan (fovy / 2)
  { c0 := ⟨1 / (aspect * tanHalfFovy), 0, 0, 0⟩
    c1 := ⟨0, 1 / tanHalfFovy, 0, 0⟩
    c2 := ⟨0, 0, -((zFar + zNear) / (zFar - zNear)), -1⟩
    c3 := ⟨0, 0, -((2 * zFar * zNear) / (zFar - zNear)), 0⟩ }

end glm

/-- Modelled from the spec: the `Camera` class (declared in camera.h, which is
not among the sources) is the spec's "camera object exposing a view matrix and
zoom/speed-adjustable navigation driven by keyboard/mouse deltas"; the members
that the source reads or writes are represented. -/
structure Camera (R : Type) where
  Position : glm.vec3 R
  Front : glm.vec3 R
  Up : glm.vec3 R
  Zoom : R
deriving DecidableEq, Repr

/-- The movement directions that the source passes to `Camera::ProcessKeyboard`. -/
inductive Camera_Movement where
  | FORWARD
  | BACKWARD
  | LEFT
  | RIGHT
  | UP
  | DOWN
deriving DecidableEq, Repr

/-- Modelled from the spec: the methods of the `Camera` class that the source
calls (camera.h is not among the sources); they are parameters of the model,
each mapping the camera before the call to the camera after it. -/
structure CameraMethods (R : Type) where
  ProcessKeyboard : Camera R → Camera_Movement → R → Camera R
  ProcessMouseMovement : Camera R → R → R → Camera R
  ProcessMouseScroll : Camera R → R → Camera R
  GetViewMatrix : Camera R → glm.mat4 R

/-- The keys whose state `ProcessKeyboardEvents` queries with `glfwGetKey`. -/
inductive GLFWKey where
  | ESCAPE
  | UP
  | DOWN
  | W
  | S
  | A
  | D
  | Q
  | E
  | P
  | O
deriving DecidableEq, Repr

/-- Constant `WINDOW_WIDTH`. -/
def WINDOW_WIDTH : Int := 1000
/-- Constant `WINDOW_HEIGHT`. -/
def WINDOW_HEIGHT : Int := 800
/-- Name of the view-matrix uniform. -/
def g_ViewName : String := "view"
/-- Name of the projection-matrix uniform. -/
def g_ProjectionName : String := "projection"

/-- The file-scope variables of ViewManager.cpp; `g_pCamera = none` is the
null pointer. -/
structure ViewGlobals (R : Type) where
  g_pCamera : Option (Camera R)
  g_CameraSpeed : R
  gLastX : R
  gLastY : R
  gFirstMouse : Bool
  gDeltaTime : R
  gLastFrame : R
  bOrthographicProjection : Bool

/-- The members of `ViewManager`, with the close flag of the GLFW window that
`m_pWindow` points to. -/
structure ViewManager (R : Type) where
  m_pShaderManager : Option (ShaderManager R)
  windowShouldClose : Bool

namespace ViewManager

variable {R : Type} [LinearOrderedField R]

/-- The initial values of the file-scope variables. -/
def initialGlobals : ViewGlobals R :=
  { g_pCamera := none
    g_CameraSpeed := 2.5
    gLastX := (WINDOW_WIDTH : R) / 2.0
    gLastY := (WINDOW_HEIGHT : R) / 2.0
    gFirstMouse := true
    gDeltaTime := 0.0
    gLastFrame := 0.0
    bOrthographicProjection := false }

/-- Constructor `ViewManager::ViewManager(pShaderManager)`: stores the pointer
and creates the camera with its default view parameters. -/
def construct (pShaderManager : Option (ShaderManager R)) (newCamera : Camera R)
    (g : ViewGlobals R) : ViewManager R × ViewGlobals R :=
  ({ m_pShaderManager := pShaderManager, windowShouldClose := false },
    { g with g_pCamera := some { newCamera with
        Position := ⟨0.0, 5.0, 12.0⟩
        Front := ⟨0.0, -0.5, -2.0⟩
        Up := ⟨0.0, 1.0, 0.0⟩
        Zoom := 80.0 } })

/-- Method `ViewManager::Mouse_Position_Callback(window, xMousePos, yMousePos)`;
the arguments are `double` values, `x` and `y` stand for
`static_cast<float>(xMousePos)` and `static_cast<float>(yMousePos)`. -/
def Mouse_Position_Callback (C : CameraMethods ℚ) (g : ViewGlobals ℚ)
    (xMousePos yMousePos : ℚ) : Except Fault (ViewGlobals ℚ) :=
  match binary32.convert xMousePos with
  | Except.error f => Except.error f
  | Except.ok x =>
    match binary32.convert yMousePos with
    | Except.error f => Except.error f
    | Except.ok y =>
      let g1 := if g.gFirstMouse then
          { g with gLastX := x, gLastY := y, gFirstMouse := false }
        else g
      match binary32.sub x g1.gLastX with
      | Except.error f => Except.error f
      | Except.ok xOffset =>
        match binary32.sub g1.gLastY y with
        | Except.error f => Except.error f
        | Except.ok yOffset =>
          let g2 := { g1 with gLastX := x, gLastY := y }
          match g2.g_pCamera with
          | some camera =>
            Except.ok { g2 with
              g_pCamera := some (C.ProcessMouseMovement camera xOffset yOffset) }
          | none => Except.ok g2

/-- Method `ViewManager::Mouse_Scroll_Wheel_Callback(window, xOffset, yOffset)`;
the arguments are `double` values. -/
def Mouse_Scroll_Wheel_Callback (C : CameraMethods ℚ) (g : ViewGlobals ℚ)
    (xOffset yOffset : ℚ) : Except Fault (ViewGlobals ℚ) :=
  match g.g_pCamera with
  | some camera =>
    match binary32.convert yOffset with
    | Except.error f => Except.error f
    | Except.ok y => Except.ok { g with g_pCamera := some (C.ProcessMouseScroll camera y) }
  | none => Except.ok g

/-- Lines 183 to 191 of `ProcessKeyboardEvents`: the camera speed follows the
up and down arrows. -/
def ProcessKeyboardEvents.adjustSpeed (glfwGetKey : GLFWKey → Bool) (g : ViewGlobals R) :
    ViewGlobals R :=
  let g1 := if glfwGetKey GLFWKey.UP then
      { g with g_CameraSpeed := g.g_CameraSpeed + 0.5 * g.gDeltaTime }
    else g
  if glfwGetKey GLFWKey.DOWN then
    { g1 with g_CameraSpeed := max 0.5 (g1.g_CameraSpeed - 0.5 * g1.gDeltaTime) }
  else g1

/-- Lines 193 to 219 of `ProcessKeyboardEvents`: the six movement keys, each
handed to `Camera::ProcessKeyboard` in the order W, S, A, D, Q, E. -/
def ProcessKeyboardEvents.moveCamera (C : CameraMethods R) (glfwGetKey : GLFWKey → Bool)
    (gDeltaTime : R) (camera : Camera R) : Camera R :=
  let c1 := if glfwGetKey GLFWKey.W then
    C.ProcessKeyboard camera Camera_Movement.FORWARD gDeltaTime else camera
  let c2 := if glfwGetKey GLFWKey.S then
    C.ProcessKeyboard c1 Camera_Movement.BACKWARD gDeltaTime else c1
  let c3 := if glfwGetKey GLFWKey.A then
    C.ProcessKeyboard c2 Camera_Movement.LEFT gDeltaTime else c2
  let c4 := if glfwGetKey GLFWKey.D then
    C.ProcessKeyboard c3 Camera_Movement.RIGHT gDeltaTime else c3
  let c5 := if glfwGetKey GLFWKey.Q then
    C.ProcessKeyboard c4 Camera_Movement.UP gDeltaTime else c4
  if glfwGetKey GLFWKey.E then C.ProcessKeyboard c5 Camera_Movement.DOWN gDeltaTime else c5

/-- Lines 221 to 229 of `ProcessKeyboardEvents`: P selects the perspective
projection, then O selects the orthographic one. -/
def ProcessKeyboardEvents.selectProjection (glfwGetKey : GLFWKey → Bool)
    (bOrthographicProjection : Bool) : Bool :=
  let b1 := if glfwGetKey GLFWKey.P then false else bOrthographicProjection
  if glfwGetKey GLFWKey.O then true else b1

/-- Method `ViewManager::ProcessKeyboardEvents()`; `glfwGetKey k` tells whether
`glfwGetKey(m_pWindow, k) == GLFW_PRESS`. -/
def ProcessKeyboardEvents (C : CameraMethods R) (glfwGetKey : GLFWKey → Bool)
    (vm : ViewManager R) (g : ViewGlobals R) : ViewManager R × ViewGlobals R :=
  let vm1 := if glfwGetKey GLFWKey.ESCAPE then { vm with windowShouldClose := true } else vm
  match g.g_pCamera with
  | none => (vm1, g)
  | some camera =>
    let g1 := ProcessKeyboardEvents.adjustSpeed glfwGetKey g
    let camera1 := ProcessKeyboardEvents.moveCamera C glfwGetKey g1.gDeltaTime camera
    (vm1, { g1 with
      g_pCamera := some camera1
      bOrthographicProjection :=
        ProcessKeyboardEvents.selectProjection glfwGetKey g1.bOrthographicProjection })

/-- The local `projection` of `PrepareSceneView`. -/
def PrepareSceneView.projection (G : glm.ScalarFns R) (tan : R → R)
    (bOrthographicProjection : Bool) (camera : Camera R) : glm.mat4 R :=
  if bOrthographicProjection then
    let orthoWidth : R := 10.0
    let orthoHeight : R := orthoWidth * (WINDOW_HEIGHT : R) / (WINDOW_WIDTH : R)
    glm.ortho (-orthoWidth) orthoWidth (-orthoHeight) orthoHeight 0.1 100.0
  else
    glm.perspective tan (glm.radians G camera.Zoom)
      ((WINDOW_WIDTH : R) / (WINDOW_HEIGHT : R)) 0.1 100.0

/-- Method `ViewManager::PrepareSceneView()`; `glfwGetTime` is the value the
GLFW timer returns. The source calls `g_pCamera->GetViewMatrix()` without a
null check. -/
def PrepareSceneView (C : CameraMethods R) (G : glm.ScalarFns R) (tan : R → R)
    (glfwGetTime : R) (glfwGetKey : GLFWKey → Bool) (vm : ViewManager R) (g : ViewGlobals R) :
    Except Fault (ViewManager R × ViewGlobals R) :=
  let currentFrame := glfwGetTime
  let g1 := { g with gDeltaTime := currentFrame - g.gLastFrame, gLastFrame := currentFrame }
  let r := ProcessKeyboardEvents C glfwGetKey vm g1
  match r.2.g_pCamera with
  | none => Except.error Fault.nullDereference
  | some camera =>
    let view := C.GetViewMatrix camera
    let projection := PrepareSceneView.projection G tan r.2.bOrthographicProjection camera
    match r.1.m_pShaderManager with
    | some sh =>
      Except.ok ({ r.1 with
        m_pShaderManager := some (((sh.setMat4Value g_ViewName view).setMat4Value
          g_ProjectionName projection).setVec3Value "viewPosition" camera.Position) }, r.2)
    | none => Except.ok r

end ViewManager

/-- Camera methods on the rationals for the examples: a movement key shifts
the position by the time step along one axis, the mouse shifts the front
vector, the scroll wheel changes the zoom, and the view matrix is the
translation by the position. -/
def exampleCameraMethods : CameraMethods ℚ :=
  { ProcessKeyboard := fun c d dt =>
      match d with
      | Camera_Movement.FORWARD => { c with Position := ⟨c.Position.x, c.Position.y, c.Position.z - dt⟩ }
      | Camera_Movement.BACKWARD => { c with Position := ⟨c.Position.x, c.Position.y, c.Position.z + dt⟩ }
      | Camera_Movement.LEFT => { c with Position := ⟨c.Position.x - dt, c.Position.y, c.Position.z⟩ }
      | Camera_Movement.RIGHT => { c with Position := ⟨c.Position.x + dt, c.Position.y, c.Position.z⟩ }
      | Camera_Movement.UP => { c with Position := ⟨c.Position.x, c.Position.y + dt, c.Position.z⟩ }
      | Camera_Movement.DOWN => { c with Position := ⟨c.Position.x, c.Position.y - dt, c.Position.z⟩ }
    ProcessMouseMovement := fun c xOffset yOffset =>
      { c with Front := ⟨c.Front.x + xOffset, c.Front.y + yOffset, c.Front.z⟩ }
    ProcessMouseScroll := fun c yOffset => { c with Zoom := c.Zoom - yOffset }
    GetViewMatrix := fun c => glm.translate c.Position }

/-- The file-scope variables once the constructor of the view manager has
run, written out: the initial values and the camera with its default view
parameters. -/
def exampleMouseGlobals : ViewGlobals ℚ :=
  { g_pCamera := some ⟨⟨0, 5, 12⟩, ⟨0, -(1 / 2), -2⟩, ⟨0, 1, 0⟩, 80⟩
    g_CameraSpeed := 5 / 2
    gLastX := 500
    gLastY := 400
    gFirstMouse := true
    gDeltaTime := 0
    gLastFrame := 0
    bOrthographicProjection := false }

/-- A stand-in on the rationals for the tangent (its first-order
approximation), for the examples. -/
def exampleTan : ℚ → ℚ := fun a => a

/-- Key state of the examples: only the key `O` is pressed. -/
def exampleKeys : GLFWKey → Bool := fun k => decide (k = GLFWKey.O)

/-- The file-scope variables after the constructor of the view manager ran on
their initial values. -/
def exampleViewGlobals : ViewGlobals ℚ :=
  (ViewManager.construct (some []) ⟨⟨0, 0, 0⟩, ⟨0, 0, -1⟩, ⟨0, 1, 0⟩, 45⟩
    ViewManager.initialGlobals).2

/-- A view manager with a non-null shader manager. -/
def exampleViewManager : ViewManager ℚ :=
  (ViewManager.construct (some []) ⟨⟨0, 0, 0⟩, ⟨0, 0, -1⟩, ⟨0, 1, 0⟩, 45⟩
    ViewManager.initialGlobals).1

/-- A view manager with a null shader-manager pointer. -/
def exampleNullViewManager : ViewManager ℚ :=
  (ViewManager.construct none ⟨⟨0, 0, 0⟩, ⟨0, 0, -1⟩, ⟨0, 1, 0⟩, 45⟩
    ViewManager.initialGlobals).1

/-! ## Theorems -/

namespace SceneManager

variable {R : Type}

/-! ### The texture registry -/

theorem textureAt_eq_some (s : SceneManager R) (i : Int) (h0 : 0 ≤ i) (h16 : i < 16) :
    ∃ e, s.textureAt i = some e := by
  unfold textureAt
  rw [dif_pos ⟨h0, h16⟩]
  exact ⟨_, rfl⟩

/-- The scan returns the initial slot value when no entry from `index` on carries the tag. -/
theorem FindTextureSlot_loop_absent (s : SceneManager R) (tag : String)
    (hcap : s.m_loadedTextures ≤ 16) :
    ∀ (fuel : Nat) (index slot : Int), 0 ≤ index → s.m_loadedTextures - index ≤ fuel →
      (∀ j, index ≤ j → ¬ s.HasTagAt tag j) →
      FindTextureSlot.loop s tag fuel index slot false = Except.ok slot := by
  intro fuel
  induction fuel with
  | zero =>
    intro index slot h0 hf _
    have hge : s.m_loadedTextures ≤ index := by
      have : ((0 : Nat) : Int) = 0 := rfl
      omega
    simp [FindTextureSlot.loop, hge]
  | succ fuel ih =>
    intro index slot h0 hf hno
    by_cases hlt : index < s.m_loadedTextures
    · obtain ⟨e, he⟩ := s.textureAt_eq_some index h0 (by omega)
      have hne : e.tag ≠ tag := fun heq => hno index (le_refl _) ⟨h0, hlt, e, he, heq⟩
      have hrec := ih (index + 1) slot (by omega) (by push_cast at hf ⊢; omega)
        (fun j hj => hno j (by omega))
      simp [FindTextureSlot.loop, hlt, he, hne, hrec]
    · simp [FindTextureSlot.loop, hlt]

/-- The scan returns `i` when `i` is the first index from `index` on carrying the tag. -/
theorem FindTextureSlot_loop_found (s : SceneManager R) (tag : String) (i : Int)
    (hi : s.HasTagAt tag i) :
    ∀ (fuel : Nat) (index slot : Int), 0 ≤ index → index ≤ i → i - index < fuel →
      (∀ j, index ≤ j → j < i → ¬ s.HasTagAt tag j) →
      FindTextureSlot.loop s tag fuel index slot false = Except.ok i := by
  obtain ⟨hi0, hilt, e, he, hetag⟩ := hi
  intro fuel
  induction fuel with
  | zero => intro index slot h0 hle hf _; omega
  | succ fuel ih =>
    intro index slot h0 hle hf hno
    have hlt : index < s.m_loadedTextures := by omega
    by_cases heq : index = i
    · subst heq
      cases fuel <;> simp [FindTextureSlot.loop, hlt, he, hetag]
    · have hi16 : i < 16 := by
        unfold textureAt at he
        by_contra hcon
        rw [dif_neg (by omega)] at he
        cases he
      obtain ⟨e1, he1⟩ := s.textureAt_eq_some index h0 (by omega)
      have hne : e1.tag ≠ tag :=
        fun h => hno index (le_refl _) (by omega) ⟨h0, hlt, e1, he1, h⟩
      have hrec := ih (index + 1) slot (by omega) (by omega) (by push_cast at hf ⊢; omega)
        (fun j hj hj2 => hno j (by omega) hj2)
      simp [FindTextureSlot.loop, hlt, he1, hne, hrec]

theorem FindTextureSlot_of_isFirstSlot (s : SceneManager R) (t : String) (i : Int)
    (h : s.IsFirstSlot t i) : s.FindTextureSlot t = Except.ok i := by
  have h0 := h.1.1
  have hlt := h.1.2.1
  exact FindTextureSlot_loop_found s t i h.1 _ 0 (-1) (le_refl _) h0 (by omega)
    (fun j _ hj => h.2 j hj)

theorem FindTextureSlot_of_absent (s : SceneManager R) (t : String)
    (hcap : s.m_loadedTextures ≤ 16) (h : ∀ i, ¬ s.HasTagAt t i) :
    s.FindTextureSlot t = Except.ok (-1) :=
  FindTextureSlot_loop_absent s t hcap _ 0 (-1) (le_refl _) (by omega) (fun j _ => h j)

/-- Whenever some entry carries the tag there is a least such index. -/
theorem exists_isFirstSlot (s : SceneManager R) (t : String) (i : Int) (h : s.HasTagAt t i) :
    ∃ k, s.IsFirstSlot t k := by
  have key : ∀ (n : Nat) (i : Int), i.toNat ≤ n → s.HasTagAt t i → ∃ k, s.IsFirstSlot t k := by
    intro n
    induction n with
    | zero =>
      intro i hn hi
      refine ⟨i, hi, fun j hj hj2 => ?_⟩
      have := hi.1; have := hj2.1; omega
    | succ n ih =>
      intro i hn hi
      by_cases hex : ∃ j, j < i ∧ s.HasTagAt t j
      · obtain ⟨j, hj, hj2⟩ := hex
        exact ih j (by have := hj2.1; omega) hj2
      · exact ⟨i, hi, fun j hj hj2 => hex ⟨j, hj, hj2⟩⟩
  exact key i.toNat i (le_refl _) h

/-! ### Registering textures -/

/-- A call whose image does not decode with 3 or 4 channels returns `false`
and leaves the scene manager as it was. -/
theorem CreateGLTexture_of_not_decodes (s : SceneManager R) (gl : List GLCall) (l : TextureLoad)
    (h : l.decodes = false) :
    ∃ gl1, s.CreateGLTexture gl l.filename l.tag l.image l.genID = Except.ok (false, s, gl1) := by
  unfold TextureLoad.decodes at h
  unfold CreateGLTexture
  cases himg : l.image with
  | none => exact ⟨gl, rfl⟩
  | some img =>
    rw [himg] at h
    simp only [Bool.or_eq_false_iff, decide_eq_false_iff_not] at h
    simp only [if_neg h.1, if_neg h.2]
    exact ⟨_, rfl⟩

/-- A call whose image decodes with 3 or 4 channels, made while fewer than 16
textures are loaded, returns `true`, writes {tag, genID} at index
`m_loadedTextures`, increments the count and changes nothing else. -/
theorem CreateGLTexture_of_decodes (s : SceneManager R) (gl : List GLCall) (l : TextureLoad)
    (h : l.decodes = true) (h0 : 0 ≤ s.m_loadedTextures) (h16 : s.m_loadedTextures < 16) :
    ∃ s1 gl1, s.CreateGLTexture gl l.filename l.tag l.image l.genID = Except.ok (true, s1, gl1) ∧
      s1.m_loadedTextures = s.m_loadedTextures + 1 ∧
      s1.textureAt s.m_loadedTextures = some { tag := l.tag, ID := l.genID } ∧
      (∀ j, j ≠ s.m_loadedTextures → s1.textureAt j = s.textureAt j) ∧
      s1.m_pShaderManager = s.m_pShaderManager ∧
      s1.m_objectMaterials = s.m_objectMaterials := by
  unfold TextureLoad.decodes at h
  cases himg : l.image with
  | none => rw [himg] at h; cases h
  | some img =>
    rw [himg] at h
    simp only [Bool.or_eq_true, decide_eq_true_eq] at h
    have hb : 0 ≤ s.m_loadedTextures ∧ s.m_loadedTextures < 16 := ⟨h0, h16⟩
    obtain ⟨S, hS⟩ : ∃ S : SceneManager R, S = { s with
        m_textureIDs := Function.update s.m_textureIDs (arrayIndex s.m_loadedTextures hb)
          { tag := l.tag, ID := l.genID }
        m_loadedTextures := s.m_loadedTextures + 1 } := ⟨_, rfl⟩
    have hcall : ∃ gl1,
        s.CreateGLTexture gl l.filename l.tag (some img) l.genID = Except.ok (true, S, gl1) := by
      rw [hS]
      rcases h with h3 | h4
      · unfold CreateGLTexture
        simp only [if_pos h3, dif_pos hb]
        exact ⟨_, rfl⟩
      · have h3 : ¬ img.colorChannels = 3 := by omega
        unfold CreateGLTexture
        simp only [if_neg h3, if_pos h4, dif_pos hb]
        exact ⟨_, rfl⟩
    obtain ⟨gl1, hcall⟩ := hcall
    refine ⟨S, gl1, hcall, by rw [hS], ?_, ?_, by rw [hS], by rw [hS]⟩
    · rw [hS]
      unfold textureAt
      rw [dif_pos hb]
      simp
    · intro j hj
      rw [hS]
      unfold textureAt
      by_cases hjb : 0 ≤ j ∧ j < 16
      · rw [dif_pos hjb, dif_pos hjb]
        have hne : arrayIndex j hjb ≠ arrayIndex s.m_loadedTextures hb := by
          intro hcon
          have := congrArg Fin.val hcon
          simp only [arrayIndex] at this
          omega
        simp [Function.update_noteq hne]
      · rw [dif_neg hjb, dif_neg hjb]

/-- Invariant of a run of `CreateGLTexture` calls: the tags of the loaded
entries are the tags already loaded followed by the tags of the calls that
decode, in call order. -/
theorem CreateGLTextures_registry (loads : List TextureLoad) :
    ∀ (s : SceneManager R) (gl : List GLCall) (tags : List String),
      s.m_loadedTextures = tags.length →
      tags.length + (loads.filter TextureLoad.decodes).length ≤ 16 →
      (∀ i : Nat, i < tags.length →
        (s.textureAt i).map TEXTURE_INFO.tag = tags[i]?) →
      ∃ s1 gl1,
        s.CreateGLTextures gl loads = Except.ok (loads.map TextureLoad.decodes, s1, gl1) ∧
        s1.m_loadedTextures =
          (tags ++ (loads.filter TextureLoad.decodes).map TextureLoad.tag).length ∧
        (∀ i : Nat,
          i < (tags ++ (loads.filter TextureLoad.decodes).map TextureLoad.tag).length →
          (s1.textureAt i).map TEXTURE_INFO.tag =
            (tags ++ (loads.filter TextureLoad.decodes).map TextureLoad.tag)[i]?) ∧
        s1.m_pShaderManager = s.m_pShaderManager ∧
        s1.m_objectMaterials = s.m_objectMaterials := by
  induction loads with
  | nil =>
    intro s gl tags hc _ hinv
    exact ⟨s, gl, rfl, by simpa using hc, by simpa using hinv, rfl, rfl⟩
  | cons l rest ih =>
    intro s gl tags hc hn hinv
    cases hdec : l.decodes with
    | false =>
      obtain ⟨gl1, hcall⟩ := s.CreateGLTexture_of_not_decodes gl l hdec
      have hn1 : tags.length + (rest.filter TextureLoad.decodes).length ≤ 16 := by
        simpa [List.filter_cons, hdec] using hn
      obtain ⟨s2, gl2, hrun, hc2, hinv2, hsh, hmat⟩ := ih s gl1 tags hc hn1 hinv
      refine ⟨s2, gl2, ?_, ?_, ?_, hsh, hmat⟩
      · simp [CreateGLTextures, hcall, hrun, hdec]
      · simpa [List.filter_cons, hdec] using hc2
      · simpa [List.filter_cons, hdec] using hinv2
    | true =>
      have hn1 : tags.length + ((rest.filter TextureLoad.decodes).length + 1) ≤ 16 := by
        simpa [List.filter_cons, hdec] using hn
      obtain ⟨s1, gl1, hcall, hc1, hnew, hold, hsh1, hmat1⟩ :=
        s.CreateGLTexture_of_decodes gl l hdec (by omega) (by omega)
      have hc1t : s1.m_loadedTextures = ((tags ++ [l.tag]).length : Nat) := by
        rw [hc1, hc]; simp
      have hinv1 : ∀ i : Nat, i < (tags ++ [l.tag]).length →
          (s1.textureAt i).map TEXTURE_INFO.tag = (tags ++ [l.tag])[i]? := by
        intro i hi
        simp only [List.length_append, List.length_singleton] at hi
        by_cases hlt : i < tags.length
        · rw [hold i (by omega), hinv i hlt, List.getElem?_append_left hlt]
        · have hieq : i = tags.length := by omega
          subst hieq
          rw [← hc, hnew]
          simp
      have hn2 : (tags ++ [l.tag]).length + (rest.filter TextureLoad.decodes).length ≤ 16 := by
        simp only [List.length_append, List.length_singleton]; omega
      obtain ⟨s2, gl2, hrun, hc2, hinv2, hsh, hmat⟩ := ih s1 gl1 (tags ++ [l.tag]) hc1t hn2 hinv1
      refine ⟨s2, gl2, ?_, ?_, ?_, hsh.trans hsh1, hmat.trans hmat1⟩
      · simp [CreateGLTextures, hcall, hrun, hdec]
      · simpa [List.filter_cons, hdec] using hc2
      · simpa [List.filter_cons, hdec] using hinv2

/-- In a registry whose loaded tags are the duplicate-free list `tags`, the
tag at position `k` resolves to slot `k`. -/
theorem FindTextureSlot_of_nodup (s : SceneManager R) (tags : List String)
    (hc : s.m_loadedTextures = tags.length) (hd : tags.Nodup)
    (hinv : ∀ i : Nat, i < tags.length → (s.textureAt i).map TEXTURE_INFO.tag = tags[i]?)
    (k : Nat) (hk : k < tags.length) :
    s.FindTextureSlot (tags.get ⟨k, hk⟩) = Except.ok (k : Int) := by
  apply FindTextureSlot_of_isFirstSlot
  have hkk := hinv k hk
  rw [List.getElem?_eq_getElem hk] at hkk
  refine ⟨⟨by omega, by omega, ?_⟩, ?_⟩
  · cases he : s.textureAt (k : Int) with
    | none => rw [he] at hkk; cases hkk
    | some e =>
      rw [he] at hkk
      simp only [Option.map_some', Option.some.injEq] at hkk
      exact ⟨e, rfl, by simpa using hkk⟩
  · intro j hj hcon
    obtain ⟨hj0, hjlt, e, he, hetag⟩ := hcon
    have hjn : j.toNat < tags.length := by omega
    have hjj := hinv j.toNat hjn
    have hcast : ((j.toNat : Nat) : Int) = j := Int.toNat_of_nonneg hj0
    rw [hcast, he] at hjj
    simp only [Option.map_some'] at hjj
    have hget : tags[j.toNat]? = tags[k]? := by
      rw [← hjj, hetag, List.getElem?_eq_getElem hk]
      rfl
    have := List.getElem?_inj hjn hd hget
    omega

/-! ### Claims on the texture registry -/

/-- C1: on a freshly constructed scene manager, after any sequence of
`CreateGLTexture` calls of which at most 16 succeed (decode with 3 or 4
channels) and whose successful calls carry pairwise distinct tags, the run
completes, exactly the decoding calls return `true`, and `FindTextureSlot` of
the tag of the `k`-th successful call (0-based) returns `k`. -/
theorem CreateGLTexture_slot_is_registration_order (pShaderManager : Option (ShaderManager R))
    (gl : List GLCall) (loads : List TextureLoad)
    (hn : (loads.filter TextureLoad.decodes).length ≤ 16)
    (hd : ((loads.filter TextureLoad.decodes).map TextureLoad.tag).Nodup) :
    ∃ s1 gl1,
      (construct pShaderManager).CreateGLTextures gl loads =
        Except.ok (loads.map TextureLoad.decodes, s1, gl1) ∧
      ∀ (k : Nat) (hk : k < (loads.filter TextureLoad.decodes).length),
        s1.FindTextureSlot ((loads.filter TextureLoad.decodes).get ⟨k, hk⟩).tag =
          Except.ok (k : Int) := by
  obtain ⟨s1, gl1, hrun, hc, hinv, _, _⟩ :=
    CreateGLTextures_registry loads (construct pShaderManager) gl [] rfl (by simpa using hn)
      (fun i hi => by simp at hi)
  refine ⟨s1, gl1, hrun, fun k hk => ?_⟩
  simp only [List.nil_append] at hc hinv
  have hk1 : k < ((loads.filter TextureLoad.decodes).map TextureLoad.tag).length := by
    simpa using hk
  have := FindTextureSlot_of_nodup s1 _ hc hd hinv k hk1
  simpa using this

/-- The statement of C1 at the four example calls, two of which succeed. -/
theorem CreateGLTexture_slot_is_registration_order_witness :
    (exampleLoads.filter TextureLoad.decodes).length ≤ 16 ∧
    ((exampleLoads.filter TextureLoad.decodes).map TextureLoad.tag).Nodup ∧
    ∃ s1 gl1,
      (construct (none : Option (ShaderManager Int))).CreateGLTextures [] exampleLoads =
        Except.ok (exampleLoads.map TextureLoad.decodes, s1, gl1) ∧
      ∀ (k : Nat) (hk : k < (exampleLoads.filter TextureLoad.decodes).length),
        s1.FindTextureSlot ((exampleLoads.filter TextureLoad.decodes).get ⟨k, hk⟩).tag =
          Except.ok (k : Int) :=
  ⟨by decide, by decide,
    CreateGLTexture_slot_is_registration_order none [] exampleLoads (by decide) (by decide)⟩

/-- C3: in a registry whose count does not exceed the 16 entries of the
array, `FindTextureSlot(t)` returns the least index below `m_loadedTextures`
whose entry is tagged `t` whenever some such index exists, and it returns -1
if and only if none of the first `m_loadedTextures` entries is tagged `t`. -/
theorem FindTextureSlot_first_match (s : SceneManager R) (t : String)
    (hcap : s.m_loadedTextures ≤ 16) :
    (∀ i, s.IsFirstSlot t i → s.FindTextureSlot t = Except.ok i) ∧
    ((∃ i, s.HasTagAt t i) → ∃ k, s.IsFirstSlot t k ∧ s.FindTextureSlot t = Except.ok k) ∧
    (s.FindTextureSlot t = Except.ok (-1) ↔ ¬ ∃ i, s.HasTagAt t i) := by
  refine ⟨fun i hi => FindTextureSlot_of_isFirstSlot s t i hi, ?_, ?_⟩
  · rintro ⟨i, hi⟩
    obtain ⟨k, hk⟩ := exists_isFirstSlot s t i hi
    exact ⟨k, hk, FindTextureSlot_of_isFirstSlot s t k hk⟩
  · constructor
    · rintro hres ⟨i, hi⟩
      obtain ⟨k, hk⟩ := exists_isFirstSlot s t i hi
      have hfound := FindTextureSlot_of_isFirstSlot s t k hk
      rw [hres] at hfound
      have hk0 := hk.1.1
      have : (-1 : Int) = k := by injection hfound
      omega
    · intro hno
      exact FindTextureSlot_of_absent s t hcap (fun i hi => hno ⟨i, hi⟩)

/-- The statement of C3 at the example registry and the tag "wood", carried by entries 0 and 2. -/
theorem FindTextureSlot_first_match_witness :
    exampleRegistry.m_loadedTextures ≤ 16 ∧
    (∀ i, exampleRegistry.IsFirstSlot "wood" i →
      exampleRegistry.FindTextureSlot "wood" = Except.ok i) ∧
    ((∃ i, exampleRegistry.HasTagAt "wood" i) →
      ∃ k, exampleRegistry.IsFirstSlot "wood" k ∧
        exampleRegistry.FindTextureSlot "wood" = Except.ok k) ∧
    (exampleRegistry.FindTextureSlot "wood" = Except.ok (-1) ↔
      ¬ ∃ i, exampleRegistry.HasTagAt "wood" i) :=
  ⟨by decide, FindTextureSlot_first_match exampleRegistry "wood" (by decide)⟩

/-! ### Binding textures to texture units -/

/-- What the loop of `BindGLTextures` does from index `i` on. -/
theorem BindGLTextures_loop_spec (s : SceneManager R) (hcap : s.m_loadedTextures ≤ 16) :
    ∀ (fuel : Nat) (i : Int) (gl : List GLCall), 0 ≤ i → i ≤ s.m_loadedTextures →
      s.m_loadedTextures - i ≤ fuel →
      ∃ calls, BindGLTextures.loop s fuel i gl = Except.ok (gl ++ calls) ∧
        (calls.length : Int) = 2 * (s.m_loadedTextures - i) ∧
        (∀ k : Nat, i + k < s.m_loadedTextures → ∃ e, s.textureAt (i + k) = some e ∧
          calls[2 * k]? = some (GLCall.glActiveTexture (GL_TEXTURE0 + (i + k))) ∧
          calls[2 * k + 1]? = some (GLCall.glBindTexture GL_TEXTURE_2D e.ID)) ∧
        ∀ b : GLBindings,
          (∀ j, i ≤ j → j < s.m_loadedTextures → ∃ e, s.textureAt j = some e ∧
            (b.run calls).texture2D (GL_TEXTURE0 + j) = e.ID) ∧
          (∀ u, (u < GL_TEXTURE0 + i ∨ GL_TEXTURE0 + s.m_loadedTextures ≤ u) →
            (b.run calls).texture2D u = b.texture2D u) := by
  intro fuel
  induction fuel with
  | zero =>
    intro i gl h0 hle hf
    have hge : ¬ i < s.m_loadedTextures := by
      have : ((0 : Nat) : Int) = 0 := rfl
      omega
    refine ⟨[], by simp [BindGLTextures.loop, hge], by simp; omega, ?_, ?_⟩
    · intro k hk; omega
    · intro b
      exact ⟨fun j hj hj2 => by omega, fun u _ => rfl⟩
  | succ fuel ih =>
    intro i gl h0 hle hf
    by_cases hlt : i < s.m_loadedTextures
    · obtain ⟨e, he⟩ := s.textureAt_eq_some i h0 (by omega)
      obtain ⟨calls, hrun, hlen, hidx, hbind⟩ :=
        ih (i + 1) (gl ++ [GLCall.glActiveTexture (GL_TEXTURE0 + i),
          GLCall.glBindTexture GL_TEXTURE_2D e.ID]) (by omega) (by omega)
          (by push_cast at hf ⊢; omega)
      refine ⟨GLCall.glActiveTexture (GL_TEXTURE0 + i) ::
        GLCall.glBindTexture GL_TEXTURE_2D e.ID :: calls, ?_, ?_, ?_, ?_⟩
      · simp [BindGLTextures.loop, hlt, he, hrun]
      · simp only [List.length_cons]; push_cast; omega
      · intro k hk
        cases k with
        | zero => exact ⟨e, by simpa using he, by simp, by simp⟩
        | succ k =>
          obtain ⟨e1, he1, ha, hb⟩ := hidx k (by push_cast at hk ⊢; omega)
          have hcast : i + ((k + 1 : Nat) : Int) = i + 1 + (k : Int) := by push_cast; omega
          refine ⟨e1, by rw [hcast]; exact he1, ?_, ?_⟩
          · rw [hcast, ← ha]
            have : 2 * (k + 1) = (2 * k + 1) + 1 := by omega
            rw [this]; simp
          · rw [← hb]
            have : 2 * (k + 1) + 1 = (2 * k + 1 + 1) + 1 := by omega
            rw [this]; simp
      · intro b
        obtain ⟨hin, hout⟩ := hbind
          ((b.exec (GLCall.glActiveTexture (GL_TEXTURE0 + i))).exec
            (GLCall.glBindTexture GL_TEXTURE_2D e.ID))
        have hrun2 : b.run (GLCall.glActiveTexture (GL_TEXTURE0 + i) ::
            GLCall.glBindTexture GL_TEXTURE_2D e.ID :: calls) =
            ((b.exec (GLCall.glActiveTexture (GL_TEXTURE0 + i))).exec
              (GLCall.glBindTexture GL_TEXTURE_2D e.ID)).run calls := rfl
        have hb1 : ∀ u, (((b.exec (GLCall.glActiveTexture (GL_TEXTURE0 + i))).exec
            (GLCall.glBindTexture GL_TEXTURE_2D e.ID)).texture2D u) =
            if u = GL_TEXTURE0 + i then e.ID else b.texture2D u := by
          intro u
          simp [GLBindings.exec, Function.update_apply]
        refine ⟨fun j hj hj2 => ?_, fun u hu => ?_⟩
        · by_cases hji : j = i
          · subst hji
            refine ⟨e, he, ?_⟩
            rw [hrun2, hout _ (Or.inl (by omega)), hb1, if_pos rfl]
          · obtain ⟨e1, he1, hv⟩ := hin j (by omega) hj2
            exact ⟨e1, he1, by rw [hrun2]; exact hv⟩
        · rw [hrun2, hout u (by omega), hb1, if_neg (by omega)]
    · have hieq : i = s.m_loadedTextures := by omega
      refine ⟨[], by simp [BindGLTextures.loop, hlt], by simp; omega, ?_, ?_⟩
      · intro k hk; omega
      · intro b
        exact ⟨fun j hj hj2 => by omega, fun u _ => rfl⟩

/-- With a non-null shader manager, `SetShaderTexture` pushes the flag 1 and
then the slot found by `FindTextureSlot`. -/
theorem SetShaderTexture_of_slot (s : SceneManager R) (t : String) (sh : ShaderManager R)
    (k : Int) (hsh : s.m_pShaderManager = some sh) (hk : s.FindTextureSlot t = Except.ok k) :
    s.SetShaderTexture t = Except.ok { s with
      m_pShaderManager := some (sh ++ [(g_UseTextureName, UniformValue.int 1),
        (g_TextureValueName, UniformValue.sampler2D k)]) } := by
  unfold SetShaderTexture
  rw [hsh]
  simp [hk, ShaderManager.setIntValue, ShaderManager.setSampler2DValue]

/-- C2: in a registry with `m_loadedTextures = n <= 16`, `BindGLTextures`
issues exactly the 2n calls `glActiveTexture(GL_TEXTURE0 + i)`,
`glBindTexture(GL_TEXTURE_2D, m_textureIDs[i].ID)` for `i = 0..n-1` in order,
so that afterwards unit `GL_TEXTURE0 + i` holds the handle of entry `i` and
every unit outside `GL_TEXTURE0 .. GL_TEXTURE0 + n - 1` is as before; and for
every registered tag `t`, with a non-null shader manager, `SetShaderTexture(t)`
pushes as sampler value the index `k` of the first entry tagged `t`, which is
the unit on which `BindGLTextures` bound that entry's handle. -/
theorem BindGLTextures_units_match_slots (s : SceneManager R) (gl : List GLCall) (n : Nat)
    (hn : s.m_loadedTextures = n) (h16 : n ≤ 16) :
    ∃ calls, s.BindGLTextures gl = Except.ok (gl ++ calls) ∧
      calls.length = 2 * n ∧
      (∀ i : Nat, i < n → ∃ e, s.textureAt i = some e ∧
        calls[2 * i]? = some (GLCall.glActiveTexture (GL_TEXTURE0 + i)) ∧
        calls[2 * i + 1]? = some (GLCall.glBindTexture GL_TEXTURE_2D e.ID)) ∧
      (∀ b : GLBindings,
        (∀ i : Nat, i < n → ∃ e, s.textureAt i = some e ∧
          (b.run calls).texture2D (GL_TEXTURE0 + i) = e.ID) ∧
        (∀ u, (u < GL_TEXTURE0 ∨ GL_TEXTURE0 + n ≤ u) →
          (b.run calls).texture2D u = b.texture2D u)) ∧
      (∀ (t : String) (sh : ShaderManager R) (i : Int),
        s.m_pShaderManager = some sh → s.HasTagAt t i →
        ∃ k e, s.IsFirstSlot t k ∧ s.textureAt k = some e ∧ e.tag = t ∧
          s.SetShaderTexture t = Except.ok { s with
            m_pShaderManager := some (sh ++ [(g_UseTextureName, UniformValue.int 1),
              (g_TextureValueName, UniformValue.sampler2D k)]) } ∧
          ∀ b : GLBindings, (b.run calls).texture2D (GL_TEXTURE0 + k) = e.ID) := by
  obtain ⟨calls, hrun, hlen, hidx, hbind⟩ :=
    BindGLTextures_loop_spec s (by omega) s.m_loadedTextures.toNat 0 gl (le_refl _) (by omega)
      (by omega)
  refine ⟨calls, hrun, by omega, ?_, ?_, ?_⟩
  · intro i hi
    obtain ⟨e, he, ha, hb⟩ := hidx i (by omega)
    simp only [zero_add] at he ha
    exact ⟨e, he, ha, hb⟩
  · intro b
    obtain ⟨hin, hout⟩ := hbind b
    refine ⟨fun i hi => hin i (by omega) (by omega), fun u hu => hout u (by omega)⟩
  · intro t sh i hsh hi
    obtain ⟨k, hk⟩ := exists_isFirstSlot s t i hi
    obtain ⟨hk0, hklt, e, he, hetag⟩ := hk.1
    refine ⟨k, e, hk, he, hetag,
      SetShaderTexture_of_slot s t sh k hsh (FindTextureSlot_of_isFirstSlot s t k hk), ?_⟩
    intro b
    obtain ⟨e1, he1, hv⟩ := (hbind b).1 k hk0 hklt
    rw [he] at he1
    cases he1
    exact hv

/-- The statement of C2 at the example registry with its three loaded entries. -/
theorem BindGLTextures_units_match_slots_witness :
    exampleRegistry.m_loadedTextures = (3 : Nat) ∧ (3 : Nat) ≤ 16 ∧
    ∃ calls, exampleRegistry.BindGLTextures [] = Except.ok ([] ++ calls) ∧
      calls.length = 2 * 3 ∧
      (∀ i : Nat, i < 3 → ∃ e, exampleRegistry.textureAt i = some e ∧
        calls[2 * i]? = some (GLCall.glActiveTexture (GL_TEXTURE0 + i)) ∧
        calls[2 * i + 1]? = some (GLCall.glBindTexture GL_TEXTURE_2D e.ID)) ∧
      (∀ b : GLBindings,
        (∀ i : Nat, i < 3 → ∃ e, exampleRegistry.textureAt i = some e ∧
          (b.run calls).texture2D (GL_TEXTURE0 + i) = e.ID) ∧
        (∀ u, (u < GL_TEXTURE0 ∨ GL_TEXTURE0 + (3 : Nat) ≤ u) →
          (b.run calls).texture2D u = b.texture2D u)) ∧
      (∀ (t : String) (sh : ShaderManager Int) (i : Int),
        exampleRegistry.m_pShaderManager = some sh → exampleRegistry.HasTagAt t i →
        ∃ k e, exampleRegistry.IsFirstSlot t k ∧ exampleRegistry.textureAt k = some e ∧
          e.tag = t ∧
          exampleRegistry.SetShaderTexture t = Except.ok { exampleRegistry with
            m_pShaderManager := some (sh ++ [(g_UseTextureName, UniformValue.int 1),
              (g_TextureValueName, UniformValue.sampler2D k)]) } ∧
          ∀ b : GLBindings, (b.run calls).texture2D (GL_TEXTURE0 + k) = e.ID) :=
  ⟨by decide, by decide, BindGLTextures_units_match_slots exampleRegistry [] 3 (by decide)
    (by decide)⟩

/-! ### Materials -/

/-- The scan of `FindMaterial` copies the first entry tagged `tag` and sets `bFound`. -/
theorem FindMaterial_loop_found (s : SceneManager R) (tag : String) (i : Nat)
    (m : OBJECT_MATERIAL R) (hm : s.IsFirstMaterial tag i m) (out : OBJECT_MATERIAL R) :
    ∀ (fuel index : Nat), index ≤ i → i - index < fuel →
      FindMaterial.loop s tag fuel index false out = Except.ok (true, copyMaterial out m) := by
  obtain ⟨hget, htag, hfirst⟩ := hm
  have hi : i < s.m_objectMaterials.length := by
    by_contra hcon
    rw [List.getElem?_eq_none (by omega)] at hget
    cases hget
  have hgi : s.m_objectMaterials.get ⟨i, hi⟩ = m := by
    rw [List.getElem?_eq_getElem hi] at hget
    exact Option.some.inj hget
  intro fuel
  induction fuel with
  | zero => intro index _ hf; omega
  | succ fuel ih =>
    intro index hle hf
    have hlt : index < s.m_objectMaterials.length := by omega
    by_cases heq : index = i
    · subst heq
      unfold FindMaterial.loop
      rw [dif_pos ⟨hlt, rfl⟩, hgi, if_pos htag]
      cases fuel <;> simp [FindMaterial.loop, copyMaterial]
    · have hne : (s.m_objectMaterials.get ⟨index, hlt⟩).tag ≠ tag :=
        hfirst index _ (by omega) (by rw [List.getElem?_eq_getElem hlt]; rfl)
      unfold FindMaterial.loop
      rw [dif_pos ⟨hlt, rfl⟩, if_neg hne]
      exact ih (index + 1) (by omega) (by omega)

/-- The scan of `FindMaterial` leaves `out` alone and `bFound` false when no
entry from `index` on is tagged `tag`. -/
theorem FindMaterial_loop_absent (s : SceneManager R) (tag : String)
    (out : OBJECT_MATERIAL R) :
    ∀ (fuel index : Nat), s.m_objectMaterials.length - index ≤ fuel →
      (∀ (j : Nat) (mj : OBJECT_MATERIAL R), index ≤ j → s.m_objectMaterials[j]? = some mj →
        mj.tag ≠ tag) →
      FindMaterial.loop s tag fuel index false out = Except.ok (false, out) := by
  intro fuel
  induction fuel with
  | zero =>
    intro index hf _
    have : ¬ index < s.m_objectMaterials.length := by omega
    simp [FindMaterial.loop, this]
  | succ fuel ih =>
    intro index hf hno
    by_cases hlt : index < s.m_objectMaterials.length
    · have hne : (s.m_objectMaterials.get ⟨index, hlt⟩).tag ≠ tag :=
        hno index _ (le_refl _) (by rw [List.getElem?_eq_getElem hlt]; rfl)
      unfold FindMaterial.loop
      rw [dif_pos ⟨hlt, rfl⟩, if_neg hne]
      exact ih (index + 1) (by omega) (fun j mj hj hget => hno j mj (by omega) hget)
    · unfold FindMaterial.loop
      rw [dif_neg (fun h => hlt h.1)]

/-- For a tag carried by some entry, `FindMaterial` returns `true` and the
copy of the first entry so tagged. -/
theorem FindMaterial_of_isFirstMaterial (s : SceneManager R) (t : String) (i : Nat)
    (m : OBJECT_MATERIAL R) (hm : s.IsFirstMaterial t i m) (out : OBJECT_MATERIAL R) :
    s.FindMaterial t out = Except.ok (true, copyMaterial out m) := by
  have hi : s.m_objectMaterials.length ≠ 0 := by
    intro hcon
    have := hm.1
    rw [List.getElem?_eq_none (by omega)] at this
    cases this
  unfold FindMaterial
  rw [if_neg hi, FindMaterial_loop_found s t i m hm out _ 0 (Nat.zero_le _)
    (by have := hm.1; by_contra hcon; rw [List.getElem?_eq_none (by omega)] at this; cases this)]

/-- For a tag carried by no entry of a non-empty list, `FindMaterial` still
returns `true`, and leaves `out` as it was. -/
theorem FindMaterial_of_absent (s : SceneManager R) (t : String) (out : OBJECT_MATERIAL R)
    (hne : s.m_objectMaterials.length ≠ 0)
    (hno : ∀ (j : Nat) (mj : OBJECT_MATERIAL R), s.m_objectMaterials[j]? = some mj → mj.tag ≠ t) :
    s.FindMaterial t out = Except.ok (true, out) := by
  unfold FindMaterial
  rw [if_neg hne, FindMaterial_loop_absent s t out _ 0 (by omega) (fun j mj _ hget => hno j mj hget)]

/-- Whenever some entry of the material list carries the tag there is a first one. -/
theorem exists_isFirstMaterial (s : SceneManager R) (t : String) :
    ∀ (j : Nat) (mj : OBJECT_MATERIAL R), s.m_objectMaterials[j]? = some mj → mj.tag = t →
      ∃ i m, s.IsFirstMaterial t i m := by
  intro j
  induction j using Nat.strong_induction_on with
  | _ j ih =>
    intro mj hj htag
    by_cases hex : ∃ k mk, k < j ∧ s.m_objectMaterials[k]? = some mk ∧ mk.tag = t
    · obtain ⟨k, mk, hk, hget, hkt⟩ := hex
      exact ih k hk mk hget hkt
    · exact ⟨j, mj, hj, htag, fun k mk hk hget hkt => hex ⟨k, mk, hk, hget, hkt⟩⟩

/-! ### The value a uniform holds -/

theorem lastValue_append (a b : ShaderManager R) (name : String) :
    ShaderManager.lastValue (a ++ b) name =
      match ShaderManager.lastValue b name with
      | some v => some v
      | none => ShaderManager.lastValue a name := by
  induction a with
  | nil =>
    simp only [List.nil_append, ShaderManager.lastValue]
    cases ShaderManager.lastValue b name <;> rfl
  | cons p rest ih =>
    have h : ShaderManager.lastValue (p :: (rest ++ b)) name =
        match ShaderManager.lastValue (rest ++ b) name with
        | some v => some v
        | none => if p.1 = name then some p.2 else none := rfl
    rw [List.cons_append, h, ih]
    cases ShaderManager.lastValue b name <;> rfl

theorem lastValue_materialPushes (m : OBJECT_MATERIAL R) :
    ShaderManager.lastValue (materialPushes m) "material.ambientColor" =
      some (UniformValue.vec3 m.ambientColor) ∧
    ShaderManager.lastValue (materialPushes m) "material.ambientStrength" =
      some (UniformValue.float m.ambientStrength) ∧
    ShaderManager.lastValue (materialPushes m) "material.diffuseColor" =
      some (UniformValue.vec3 m.diffuseColor) ∧
    ShaderManager.lastValue (materialPushes m) "material.specularColor" =
      some (UniformValue.vec3 m.specularColor) ∧
    ShaderManager.lastValue (materialPushes m) "material.shininess" =
      some (UniformValue.float m.shininess) :=
  ⟨rfl, rfl, rfl, rfl, rfl⟩

/-- When `FindMaterial` returns `true` with the material `m1`, and the shader
manager is non-null, `SetShaderMaterial` pushes the five fields of `m1`. -/
theorem SetShaderMaterial_of_found (s : SceneManager R) (t : String)
    (stale m1 : OBJECT_MATERIAL R) (sh : ShaderManager R)
    (hsh : s.m_pShaderManager = some sh)
    (hfind : s.FindMaterial t stale = Except.ok (true, m1)) :
    s.SetShaderMaterial t stale =
      Except.ok { s with m_pShaderManager := some (sh ++ materialPushes m1) } := by
  have hlen : s.m_objectMaterials.length > 0 := by
    by_contra hcon
    have h0 : s.m_objectMaterials.length = 0 := by omega
    unfold FindMaterial at hfind
    rw [if_pos h0] at hfind
    cases hfind
  unfold SetShaderMaterial
  rw [if_pos hlen, hfind]
  simp [hsh, materialPushes, ShaderManager.setVec3Value, ShaderManager.setFloatValue]

/-! ### Claims on materials -/

/-- C4: for every material list and every tag `t` carried by at least one
entry (here entry `j`), `FindMaterial(t, out)` returns with `out` holding the
ambientColor, ambientStrength, diffuseColor, specularColor and shininess of
the entry with the smallest index tagged `t`, whatever entries follow it. -/
theorem FindMaterial_copies_first_match (s : SceneManager R) (t : String) (j : Nat)
    (mj : OBJECT_MATERIAL R) (hj : s.m_objectMaterials[j]? = some mj) (htag : mj.tag = t)
    (out : OBJECT_MATERIAL R) :
    ∃ i m, s.IsFirstMaterial t i m ∧ i ≤ j ∧
      ∃ out1, s.FindMaterial t out = Except.ok (true, out1) ∧
        out1.ambientColor = m.ambientColor ∧
        out1.ambientStrength = m.ambientStrength ∧
        out1.diffuseColor = m.diffuseColor ∧
        out1.specularColor = m.specularColor ∧
        out1.shininess = m.shininess ∧
        out1.tag = out.tag := by
  obtain ⟨i, m, hm⟩ := exists_isFirstMaterial s t j mj hj htag
  have hij : i ≤ j := by
    by_contra hcon
    exact hm.2.2 j mj (by omega) hj htag
  exact ⟨i, m, hm, hij, copyMaterial out m, FindMaterial_of_isFirstMaterial s t i m hm out,
    rfl, rfl, rfl, rfl, rfl, rfl⟩

/-- The statement of C4 at the list cement, gold, gold and the tag "gold". -/
theorem FindMaterial_copies_first_match_witness :
    exampleMaterials.m_objectMaterials[2]? = some dullGoldMaterial ∧
    dullGoldMaterial.tag = "gold" ∧
    ∃ i m, exampleMaterials.IsFirstMaterial "gold" i m ∧ i ≤ 2 ∧
      ∃ out1, exampleMaterials.FindMaterial "gold" staleMaterial = Except.ok (true, out1) ∧
        out1.ambientColor = m.ambientColor ∧
        out1.ambientStrength = m.ambientStrength ∧
        out1.diffuseColor = m.diffuseColor ∧
        out1.specularColor = m.specularColor ∧
        out1.shininess = m.shininess ∧
        out1.tag = staleMaterial.tag :=
  ⟨rfl, rfl,
    FindMaterial_copies_first_match exampleMaterials "gold" 2 dullGoldMaterial rfl rfl
      staleMaterial⟩

/-- C5 (the code departs from the claim): the list cement, gold, gold has no
entry tagged "nonexistent", yet `FindMaterial("nonexistent", out)` returns
`true` and leaves `out` as it was. -/
theorem FindMaterial_absent_tag_returns_true :
    (∀ (j : Nat) (mj : OBJECT_MATERIAL ℚ),
      exampleMaterials.m_objectMaterials[j]? = some mj → mj.tag ≠ "nonexistent") ∧
    exampleMaterials.FindMaterial "nonexistent" staleMaterial =
      Except.ok (true, staleMaterial) := by
  have hno : ∀ (j : Nat) (mj : OBJECT_MATERIAL ℚ),
      exampleMaterials.m_objectMaterials[j]? = some mj → mj.tag ≠ "nonexistent" := by
    intro j mj hj
    have hlist : exampleMaterials.m_objectMaterials =
        [cementMaterial, goldMaterial, dullGoldMaterial] := rfl
    rw [hlist] at hj
    match j, hj with
    | 0, hj => cases hj; decide
    | 1, hj => cases hj; decide
    | 2, hj => cases hj; decide
    | n + 3, hj => simp at hj
  exact ⟨hno, FindMaterial_of_absent exampleMaterials "nonexistent" staleMaterial
    (by decide) hno⟩

/-- C6 (the code departs from the claim): on the list cement, gold, gold,
`SetShaderMaterial("gold")` pushes the five values of the gold entry, and the
following `SetShaderMaterial("nonexistent")` pushes five more uniforms, taken
from the uninitialised local, so that `material.shininess` then holds that
stale value (7 here) and no longer the 2 of the gold entry. -/
theorem SetShaderMaterial_absent_tag_pushes_stale_values :
    ∃ s1 s2,
      exampleMaterials.SetShaderMaterial "gold" staleMaterial = Except.ok s1 ∧
      s1.m_pShaderManager = some (materialPushes goldMaterial) ∧
      s1.SetShaderMaterial "nonexistent" staleMaterial = Except.ok s2 ∧
      s2.m_pShaderManager = some (materialPushes goldMaterial ++ materialPushes staleMaterial) ∧
      ∃ sh2, s2.m_pShaderManager = some sh2 ∧
        ShaderManager.lastValue sh2 "material.shininess" = some (UniformValue.float 7) ∧
        goldMaterial.shininess = 2 :=
  ⟨_, _, rfl, rfl, rfl, rfl, _, rfl, rfl, rfl⟩

/-- C7: for every material list and every tag `t` carried by some entry (here
entry `j`), `SetShaderMaterial(t)` with a non-null shader manager pushes, and
thereby sets, the uniforms material.ambientColor, material.ambientStrength,
material.diffuseColor, material.specularColor and material.shininess to the
fields of the first entry tagged `t`. -/
theorem SetShaderMaterial_pushes_first_match (s : SceneManager R) (t : String)
    (sh : ShaderManager R) (hsh : s.m_pShaderManager = some sh) (j : Nat)
    (mj : OBJECT_MATERIAL R) (hj : s.m_objectMaterials[j]? = some mj) (htag : mj.tag = t)
    (stale : OBJECT_MATERIAL R) :
    ∃ i m, s.IsFirstMaterial t i m ∧
      s.SetShaderMaterial t stale =
        Except.ok { s with m_pShaderManager := some (sh ++ materialPushes m) } ∧
      ShaderManager.lastValue (sh ++ materialPushes m) "material.ambientColor" =
        some (UniformValue.vec3 m.ambientColor) ∧
      ShaderManager.lastValue (sh ++ materialPushes m) "material.ambientStrength" =
        some (UniformValue.float m.ambientStrength) ∧
      ShaderManager.lastValue (sh ++ materialPushes m) "material.diffuseColor" =
        some (UniformValue.vec3 m.diffuseColor) ∧
      ShaderManager.lastValue (sh ++ materialPushes m) "material.specularColor" =
        some (UniformValue.vec3 m.specularColor) ∧
      ShaderManager.lastValue (sh ++ materialPushes m) "material.shininess" =
        some (UniformValue.float m.shininess) := by
  obtain ⟨i, m, hm⟩ := exists_isFirstMaterial s t j mj hj htag
  obtain ⟨h1, h2, h3, h4, h5⟩ := lastValue_materialPushes m
  refine ⟨i, m, hm,
    SetShaderMaterial_of_found s t stale (copyMaterial stale m) sh hsh
      (FindMaterial_of_isFirstMaterial s t i m hm stale), ?_, ?_, ?_, ?_, ?_⟩ <;>
    rw [lastValue_append] <;> simp only [h1, h2, h3, h4, h5]

/-- The statement of C7 at the list cement, gold, gold and the tag "gold". -/
theorem SetShaderMaterial_pushes_first_match_witness :
    exampleMaterials.m_pShaderManager = some [] ∧
    exampleMaterials.m_objectMaterials[2]? = some dullGoldMaterial ∧
    dullGoldMaterial.tag = "gold" ∧
    ∃ i m, exampleMaterials.IsFirstMaterial "gold" i m ∧
      exampleMaterials.SetShaderMaterial "gold" staleMaterial =
        Except.ok { exampleMaterials with m_pShaderManager := some ([] ++ materialPushes m) } ∧
      ShaderManager.lastValue ([] ++ materialPushes m) "material.ambientColor" =
        some (UniformValue.vec3 m.ambientColor) ∧
      ShaderManager.lastValue ([] ++ materialPushes m) "material.ambientStrength" =
        some (UniformValue.float m.ambientStrength) ∧
      ShaderManager.lastValue ([] ++ materialPushes m) "material.diffuseColor" =
        some (UniformValue.vec3 m.diffuseColor) ∧
      ShaderManager.lastValue ([] ++ materialPushes m) "material.specularColor" =
        some (UniformValue.vec3 m.specularColor) ∧
      ShaderManager.lastValue ([] ++ materialPushes m) "material.shininess" =
        some (UniformValue.float m.shininess) :=
  ⟨rfl, rfl, rfl,
    SetShaderMaterial_pushes_first_match exampleMaterials "gold" [] rfl 2 dullGoldMaterial
      rfl rfl staleMaterial⟩

/-! ### The model matrix -/

theorem mat4_mul_identity [Ring R] (m : glm.mat4 R) : m * glm.mat4.identity = m := by
  obtain ⟨⟨a0, a1, a2, a3⟩, ⟨b0, b1, b2, b3⟩, ⟨c0, c1, c2, c3⟩, ⟨d0, d1, d2, d3⟩⟩ := m
  show glm.mat4.mul _ _ = _
  simp [glm.mat4.mul, glm.mat4.identity, glm.vec4.smul, glm.vec4.add]

/-- A rotation by 0 degrees is the identity matrix, whatever the axis. -/
theorem rotate_zero_degrees [Ring R] (G : glm.ScalarFns R) (hcos : G.cos 0 = 1)
    (hsin : G.sin 0 = 0) (v : glm.vec3 R) :
    glm.rotate G (glm.radians G 0) v = glm.mat4.identity := by
  simp [glm.rotate, glm.rotateM, glm.radians, glm.mat4.identity, glm.vec4.smul, glm.vec4.add,
    glm.vec3.lsmul, hcos, hsin]

/-- The fourth column of a product is the fourth column of the left factor
when the right factor has fourth column (0, 0, 0, 1). -/
theorem mat4_mul_c3 [Ring R] (m n : glm.mat4 R) (hn : n.c3 = ⟨0, 0, 0, 1⟩) :
    (m * n).c3 = m.c3 := by
  obtain ⟨⟨a0, a1, a2, a3⟩, ⟨b0, b1, b2, b3⟩, ⟨c0, c1, c2, c3⟩, ⟨d0, d1, d2, d3⟩⟩ := m
  show (glm.mat4.mul _ _).c3 = _
  simp [glm.mat4.mul, glm.vec4.smul, glm.vec4.add, hn]

theorem rotate_c3 [Ring R] (G : glm.ScalarFns R) (angle : R) (v : glm.vec3 R) :
    (glm.rotate G angle v).c3 = ⟨0, 0, 0, 1⟩ := rfl

theorem scale_c3 [Ring R] (v : glm.vec3 R) : (glm.scale v).c3 = ⟨0, 0, 0, 1⟩ := rfl

theorem translate_c3 [Ring R] (v : glm.vec3 R) : (glm.translate v).c3 = ⟨v.x, v.y, v.z, 1⟩ := by
  simp [glm.translate, glm.translateM, glm.mat4.identity, glm.vec4.smul, glm.vec4.add]

/-- C8: with a non-null shader manager `SetTransformations` pushes to the
"model" uniform the product Translate(t) * RotateX(rx) * RotateY(ry) *
RotateZ(rz) * Scale(s), multiplied from left to right in this order; and, the
cosine and sine of the zero angle being 1 and 0, for s = (2,1,1), rx = 0,
ry = 90, rz = 0, t = (0,0,0) the pushed matrix equals
Translate(0,0,0) * RotateY(90 degrees) * Scale(2,1,1). -/
theorem SetTransformations_pushes_composition [Ring R] (G : glm.ScalarFns R)
    (s : SceneManager R) (sh : ShaderManager R) (hsh : s.m_pShaderManager = some sh)
    (hcos : G.cos 0 = 1) (hsin : G.sin 0 = 0) :
    (∀ (scaleXYZ : glm.vec3 R) (rx ry rz : R) (positionXYZ : glm.vec3 R),
      s.SetTransformations G scaleXYZ rx ry rz positionXYZ =
        { s with m_pShaderManager := some (sh ++ [(g_ModelName, UniformValue.mat4
          (glm.translate positionXYZ * glm.rotate G (glm.radians G rx) ⟨1, 0, 0⟩ *
            glm.rotate G (glm.radians G ry) ⟨0, 1, 0⟩ *
            glm.rotate G (glm.radians G rz) ⟨0, 0, 1⟩ * glm.scale scaleXYZ))]) }) ∧
    s.SetTransformations G ⟨2, 1, 1⟩ 0 90 0 ⟨0, 0, 0⟩ =
      { s with m_pShaderManager := some (sh ++ [(g_ModelName, UniformValue.mat4
        (glm.translate ⟨0, 0, 0⟩ * glm.rotate G (glm.radians G 90) ⟨0, 1, 0⟩ *
          glm.scale ⟨2, 1, 1⟩))]) } := by
  have hgen : ∀ (scaleXYZ : glm.vec3 R) (rx ry rz : R) (positionXYZ : glm.vec3 R),
      s.SetTransformations G scaleXYZ rx ry rz positionXYZ =
        { s with m_pShaderManager := some (sh ++ [(g_ModelName, UniformValue.mat4
          (glm.translate positionXYZ * glm.rotate G (glm.radians G rx) ⟨1, 0, 0⟩ *
            glm.rotate G (glm.radians G ry) ⟨0, 1, 0⟩ *
            glm.rotate G (glm.radians G rz) ⟨0, 0, 1⟩ * glm.scale scaleXYZ))]) } := by
    intro scaleXYZ rx ry rz positionXYZ
    simp only [SetTransformations, SetTransformations.modelView, hsh,
      ShaderManager.setMat4Value]
  refine ⟨hgen, ?_⟩
  rw [hgen, rotate_zero_degrees G hcos hsin, rotate_zero_degrees G hcos hsin,
    mat4_mul_identity, mat4_mul_identity]

/-- The statement of C8 on the integers with the quarter-turn cosine and sine. -/
theorem SetTransformations_pushes_composition_witness :
    exampleRegistry.m_pShaderManager = some [] ∧
    exampleScalarFns.cos 0 = 1 ∧ exampleScalarFns.sin 0 = 0 ∧
    (∀ (scaleXYZ : glm.vec3 Int) (rx ry rz : Int) (positionXYZ : glm.vec3 Int),
      exampleRegistry.SetTransformations exampleScalarFns scaleXYZ rx ry rz positionXYZ =
        { exampleRegistry with m_pShaderManager := some ([] ++ [(g_ModelName, UniformValue.mat4
          (glm.translate positionXYZ *
            glm.rotate exampleScalarFns (glm.radians exampleScalarFns rx) ⟨1, 0, 0⟩ *
            glm.rotate exampleScalarFns (glm.radians exampleScalarFns ry) ⟨0, 1, 0⟩ *
            glm.rotate exampleScalarFns (glm.radians exampleScalarFns rz) ⟨0, 0, 1⟩ *
            glm.scale scaleXYZ))]) }) ∧
    exampleRegistry.SetTransformations exampleScalarFns ⟨2, 1, 1⟩ 0 90 0 ⟨0, 0, 0⟩ =
      { exampleRegistry with m_pShaderManager := some ([] ++ [(g_ModelName, UniformValue.mat4
        (glm.translate ⟨0, 0, 0⟩ *
          glm.rotate exampleScalarFns (glm.radians exampleScalarFns 90) ⟨0, 1, 0⟩ *
          glm.scale ⟨2, 1, 1⟩))]) } :=
  ⟨rfl, by decide, by decide,
    SetTransformations_pushes_composition exampleScalarFns exampleRegistry [] rfl
      (by decide) (by decide)⟩

/-- C9: for every scale, every three rotation angles and every translation
vector t = (tx, ty, tz), the fourth column of the model matrix computed by
`SetTransformations` is (tx, ty, tz, 1). -/
theorem SetTransformations_translation_column [Ring R] (G : glm.ScalarFns R)
    (scaleXYZ : glm.vec3 R) (rx ry rz : R) (positionXYZ : glm.vec3 R) :
    (SetTransformations.modelView G scaleXYZ rx ry rz positionXYZ).c3 =
      ⟨positionXYZ.x, positionXYZ.y, positionXYZ.z, 1⟩ := by
  unfold SetTransformations.modelView
  simp only []
  rw [mat4_mul_c3 _ _ (scale_c3 _), mat4_mul_c3 _ _ (rotate_c3 _ _ _),
    mat4_mul_c3 _ _ (rotate_c3 _ _ _), mat4_mul_c3 _ _ (rotate_c3 _ _ _), translate_c3]

/-! ### The use-texture flag -/

/-- In a registry within the capacity of the array the scan always returns. -/
theorem FindTextureSlot_returns (s : SceneManager R) (t : String)
    (hcap : s.m_loadedTextures ≤ 16) : ∃ k, s.FindTextureSlot t = Except.ok k := by
  by_cases hex : ∃ i, s.HasTagAt t i
  · obtain ⟨i, hi⟩ := hex
    obtain ⟨k, hk⟩ := exists_isFirstSlot s t i hi
    exact ⟨k, FindTextureSlot_of_isFirstSlot s t k hk⟩
  · exact ⟨-1, FindTextureSlot_of_absent s t hcap (fun i hi => hex ⟨i, hi⟩)⟩

theorem SetShaderColor_of_some (s : SceneManager R) (sh : ShaderManager R)
    (hsh : s.m_pShaderManager = some sh) (r g b a : R) :
    s.SetShaderColor r g b a = { s with
      m_pShaderManager := some (sh ++ [(g_UseTextureName, UniformValue.int 0),
        (g_ColorValueName, UniformValue.vec4 ⟨r, g, b, a⟩)]) } := by
  simp [SetShaderColor, hsh, ShaderManager.setIntValue, ShaderManager.setVec4Value]

/-- One call of either setter, made with a non-null shader manager on a
registry within capacity, completes, keeps the registry, keeps the shader
manager non-null and leaves the flag of its kind as the value of bUseTexture. -/
theorem flagSetter_step (s : SceneManager R) (sh : ShaderManager R)
    (hsh : s.m_pShaderManager = some sh) (hcap : s.m_loadedTextures ≤ 16)
    (c : FlagSetterCall R) (rest : List (FlagSetterCall R)) :
    ∃ (s1 : SceneManager R) (sh1 : ShaderManager R),
      s.applyFlagSetters (c :: rest) = s1.applyFlagSetters rest ∧
      s1.m_pShaderManager = some sh1 ∧ s1.m_loadedTextures = s.m_loadedTextures ∧
      ShaderManager.lastValue sh1 g_UseTextureName = some (UniformValue.int c.flag) := by
  cases c with
  | color r g b a =>
    refine ⟨s.SetShaderColor r g b a, sh ++ [(g_UseTextureName, UniformValue.int 0),
      (g_ColorValueName, UniformValue.vec4 ⟨r, g, b, a⟩)], rfl, ?_, ?_, ?_⟩
    · rw [SetShaderColor_of_some s sh hsh]
    · rw [SetShaderColor_of_some s sh hsh]
    · rw [lastValue_append]; rfl
  | texture tag =>
    obtain ⟨k, hk⟩ := FindTextureSlot_returns s tag hcap
    have hset := SetShaderTexture_of_slot s tag sh k hsh hk
    refine ⟨{ s with
        m_pShaderManager := some (sh ++ [(g_UseTextureName, UniformValue.int 1),
          (g_TextureValueName, UniformValue.sampler2D k)]) },
      sh ++ [(g_UseTextureName, UniformValue.int 1),
        (g_TextureValueName, UniformValue.sampler2D k)], ?_, rfl, rfl, ?_⟩
    · simp only [applyFlagSetters, hset]
    · rw [lastValue_append]; rfl

/-- C10, as amended: with a non-null shader manager (and a registry within
the 16 entries of its array), after every call of `SetShaderColor` the value
last pushed to bUseTexture is 0 (`false`) and objectColor holds the given
(r, g, b, a); after every call of `SetShaderTexture` the value last pushed to
bUseTexture is 1 (`true`); and after any non-empty sequence of calls of these
two setters the flag is the one of the kind of the last call. -/
theorem useTexture_flag_follows_last_setter (s : SceneManager R) (sh : ShaderManager R)
    (hsh : s.m_pShaderManager = some sh) (hcap : s.m_loadedTextures ≤ 16) :
    (∀ r g b a : R, ∃ sh1, (s.SetShaderColor r g b a).m_pShaderManager = some sh1 ∧
      ShaderManager.lastValue sh1 g_UseTextureName = some (UniformValue.int 0) ∧
      ShaderManager.lastValue sh1 g_ColorValueName = some (UniformValue.vec4 ⟨r, g, b, a⟩)) ∧
    (∀ t : String, ∃ s1 sh1, s.SetShaderTexture t = Except.ok s1 ∧
      s1.m_pShaderManager = some sh1 ∧
      ShaderManager.lastValue sh1 g_UseTextureName = some (UniformValue.int 1)) ∧
    (∀ (calls : List (FlagSetterCall R)) (c : FlagSetterCall R),
      ∃ s1 sh1, s.applyFlagSetters (calls ++ [c]) = Except.ok s1 ∧
        s1.m_pShaderManager = some sh1 ∧
        ShaderManager.lastValue sh1 g_UseTextureName = some (UniformValue.int c.flag)) := by
  refine ⟨fun r g b a => ?_, fun t => ?_, fun calls c => ?_⟩
  · refine ⟨sh ++ [(g_UseTextureName, UniformValue.int 0),
      (g_ColorValueName, UniformValue.vec4 ⟨r, g, b, a⟩)],
      by rw [SetShaderColor_of_some s sh hsh], ?_, ?_⟩ <;>
      (rw [lastValue_append]; rfl)
  · obtain ⟨k, hk⟩ := FindTextureSlot_returns s t hcap
    exact ⟨{ s with
        m_pShaderManager := some (sh ++ [(g_UseTextureName, UniformValue.int 1),
          (g_TextureValueName, UniformValue.sampler2D k)]) },
      sh ++ [(g_UseTextureName, UniformValue.int 1),
        (g_TextureValueName, UniformValue.sampler2D k)],
      SetShaderTexture_of_slot s t sh k hsh hk, rfl, by rw [lastValue_append]; rfl⟩
  · induction calls generalizing s sh with
    | nil =>
      obtain ⟨s1, sh1, hstep, hsh1, _, hlast⟩ := flagSetter_step s sh hsh hcap c []
      exact ⟨s1, sh1, hstep, hsh1, hlast⟩
    | cons c0 rest ih =>
      obtain ⟨s1, sh1, hstep, hsh1, hcount, _⟩ := flagSetter_step s sh hsh hcap c0 (rest ++ [c])
      obtain ⟨s2, sh2, hrun, hsh2, hlast⟩ := ih s1 sh1 hsh1 (by omega)
      exact ⟨s2, sh2, by rw [List.cons_append, hstep, hrun], hsh2, hlast⟩

/-- The amended statement of C10 at the example registry. -/
theorem useTexture_flag_follows_last_setter_witness :
    exampleRegistry.m_pShaderManager = some [] ∧ exampleRegistry.m_loadedTextures ≤ 16 ∧
    (∀ r g b a : Int, ∃ sh1, (exampleRegistry.SetShaderColor r g b a).m_pShaderManager = some sh1 ∧
      ShaderManager.lastValue sh1 g_UseTextureName = some (UniformValue.int 0) ∧
      ShaderManager.lastValue sh1 g_ColorValueName = some (UniformValue.vec4 ⟨r, g, b, a⟩)) ∧
    (∀ t : String, ∃ s1 sh1, exampleRegistry.SetShaderTexture t = Except.ok s1 ∧
      s1.m_pShaderManager = some sh1 ∧
      ShaderManager.lastValue sh1 g_UseTextureName = some (UniformValue.int 1)) ∧
    (∀ (calls : List (FlagSetterCall Int)) (c : FlagSetterCall Int),
      ∃ s1 sh1, exampleRegistry.applyFlagSetters (calls ++ [c]) = Except.ok s1 ∧
        s1.m_pShaderManager = some sh1 ∧
        ShaderManager.lastValue sh1 g_UseTextureName = some (UniformValue.int c.flag)) :=
  ⟨rfl, by decide, useTexture_flag_follows_last_setter exampleRegistry [] rfl (by decide)⟩

/-- C10 as stated fails on a scene manager whose shader-manager pointer is
null: `SetShaderColor(1, 0, 0, 1)` pushes nothing, so no value `false` was
pushed to bUseTexture. -/
theorem SetShaderColor_null_shader_manager_pushes_nothing :
    ¬ ∃ sh1, ((construct none : SceneManager Int).SetShaderColor 1 0 0 1).m_pShaderManager =
        some sh1 ∧
      ShaderManager.lastValue sh1 g_UseTextureName = some (UniformValue.int 0) := by
  rintro ⟨sh1, h, _⟩
  have hnone : ((construct none : SceneManager Int).SetShaderColor 1 0 0 1).m_pShaderManager =
      none := rfl
  rw [hnone] at h
  cases h

/-! ### The composition order on an example -/

/-- On the integer example (quarter turns are exact) the model matrix for
s = (2,1,1), ry = 90, t = (0,0,0) has first column (0, 0, -2, 0), and the
product taken in the opposite order, Scale * RotateY * Translate, is a
different matrix: the order of the factors is observable. -/
theorem modelView_example_order_is_observable :
    SetTransformations.modelView exampleScalarFns ⟨2, 1, 1⟩ 0 90 0 ⟨0, 0, 0⟩ =
      ⟨⟨0, 0, -2, 0⟩, ⟨0, 1, 0, 0⟩, ⟨1, 0, 0, 0⟩, ⟨0, 0, 0, 1⟩⟩ ∧
    SetTransformations.modelView exampleScalarFns ⟨2, 1, 1⟩ 0 90 0 ⟨0, 0, 0⟩ ≠
      glm.scale ⟨2, 1, 1⟩ *
        glm.rotate exampleScalarFns (glm.radians exampleScalarFns 90) ⟨0, 1, 0⟩ *
        glm.translate ⟨0, 0, 0⟩ := by
  constructor <;> decide

/-! ### Claims on `SetShaderTexture` and `CreateGLTexture` -/

/-- C11: for every registry within the 16 entries of its array and every tag
`t`, `SetShaderTexture(t)` with a non-null shader manager completes, pushes 1
(`true`) to bUseTexture and then the value returned by `FindTextureSlot(t)` to
the objectTexture sampler; when no loaded entry is tagged `t` that value is -1. -/
theorem SetShaderTexture_pushes_found_slot (s : SceneManager R) (sh : ShaderManager R)
    (t : String) (hsh : s.m_pShaderManager = some sh) (hcap : s.m_loadedTextures ≤ 16) :
    ∃ k, s.FindTextureSlot t = Except.ok k ∧
      s.SetShaderTexture t = Except.ok { s with
        m_pShaderManager := some (sh ++ [(g_UseTextureName, UniformValue.int 1),
          (g_TextureValueName, UniformValue.sampler2D k)]) } ∧
      ShaderManager.lastValue (sh ++ [(g_UseTextureName, UniformValue.int 1),
          (g_TextureValueName, UniformValue.sampler2D k)]) g_TextureValueName =
        some (UniformValue.sampler2D k) ∧
      ShaderManager.lastValue (sh ++ [(g_UseTextureName, UniformValue.int 1),
          (g_TextureValueName, UniformValue.sampler2D k)]) g_UseTextureName =
        some (UniformValue.int 1) ∧
      ((∀ i, ¬ s.HasTagAt t i) → k = -1) := by
  obtain ⟨k, hk⟩ := FindTextureSlot_returns s t hcap
  refine ⟨k, hk, SetShaderTexture_of_slot s t sh k hsh hk, ?_, ?_, ?_⟩
  · rw [lastValue_append]; rfl
  · rw [lastValue_append]; rfl
  · intro hno
    have habs := FindTextureSlot_of_absent s t hcap hno
    rw [hk] at habs
    injection habs

/-- The statement of C11 at the example registry and a tag that is not loaded. -/
theorem SetShaderTexture_pushes_found_slot_witness :
    exampleRegistry.m_pShaderManager = some [] ∧ exampleRegistry.m_loadedTextures ≤ 16 ∧
    ∃ k, exampleRegistry.FindTextureSlot "abstract" = Except.ok k ∧
      exampleRegistry.SetShaderTexture "abstract" = Except.ok { exampleRegistry with
        m_pShaderManager := some ([] ++ [(g_UseTextureName, UniformValue.int 1),
          (g_TextureValueName, UniformValue.sampler2D k)]) } ∧
      ShaderManager.lastValue (([] : ShaderManager Int) ++
          [(g_UseTextureName, UniformValue.int 1),
          (g_TextureValueName, UniformValue.sampler2D k)]) g_TextureValueName =
        some (UniformValue.sampler2D k) ∧
      ShaderManager.lastValue (([] : ShaderManager Int) ++
          [(g_UseTextureName, UniformValue.int 1),
          (g_TextureValueName, UniformValue.sampler2D k)]) g_UseTextureName =
        some (UniformValue.int 1) ∧
      ((∀ i, ¬ exampleRegistry.HasTagAt "abstract" i) → k = -1) :=
  ⟨rfl, by decide,
    SetShaderTexture_pushes_found_slot exampleRegistry [] "abstract" rfl (by decide)⟩

/-- C13: for every registry state, file name and tag, when the image decoder
returns no image `CreateGLTexture` returns `false`, issues no GL call and
leaves the scene manager, in particular `m_textureIDs` and
`m_loadedTextures`, as it was. -/
theorem CreateGLTexture_no_image (s : SceneManager R) (gl : List GLCall)
    (filename tag : String) (genID : Nat) :
    s.CreateGLTexture gl filename tag none genID = Except.ok (false, s, gl) := by
  unfold CreateGLTexture
  rfl

/-- C14: for every decoded image whose channel count is neither 3 nor 4,
`CreateGLTexture` returns `false`, none of the GL calls it issues is a
`glTexImage2D` or a `glGenerateMipmap`, and the scene manager is left as it
was; for the channel counts 3 and 4 the call never returns `false`, and made
with fewer than 16 loaded textures it returns `true` after issuing a
`glTexImage2D` and a `glGenerateMipmap`. -/
theorem CreateGLTexture_unsupported_channels (s : SceneManager R) (gl : List GLCall)
    (filename tag : String) (img : Image) (genID : Nat) :
    (img.colorChannels ≠ 3 → img.colorChannels ≠ 4 →
      ∃ calls, s.CreateGLTexture gl filename tag (some img) genID =
          Except.ok (false, s, gl ++ calls) ∧
        ∀ c ∈ calls, c.isUpload = false ∧ c.isMipmap = false) ∧
    ((img.colorChannels = 3 ∨ img.colorChannels = 4) →
      (∀ s1 gl1, s.CreateGLTexture gl filename tag (some img) genID ≠
        Except.ok (false, s1, gl1)) ∧
      (0 ≤ s.m_loadedTextures → s.m_loadedTextures < 16 →
        ∃ s1 calls, s.CreateGLTexture gl filename tag (some img) genID =
            Except.ok (true, s1, gl ++ calls) ∧
          (∃ c ∈ calls, c.isUpload = true) ∧ ∃ c ∈ calls, c.isMipmap = true)) := by
  constructor
  · intro h3 h4
    refine ⟨[ GLCall.glGenTextures 1 genID,
        GLCall.glBindTexture GL_TEXTURE_2D genID,
        GLCall.glTexParameteri GL_TEXTURE_2D GL_TEXTURE_WRAP_S GL_REPEAT,
        GLCall.glTexParameteri GL_TEXTURE_2D GL_TEXTURE_WRAP_T GL_REPEAT,
        GLCall.glTexParameteri GL_TEXTURE_2D GL_TEXTURE_MIN_FILTER GL_LINEAR,
        GLCall.glTexParameteri GL_TEXTURE_2D GL_TEXTURE_MAG_FILTER GL_LINEAR ], ?_, ?_⟩
    · unfold CreateGLTexture
      simp only [if_neg h3, if_neg h4]
    · intro c hc
      simp only [List.mem_cons, List.mem_singleton, List.not_mem_nil, or_false] at hc
      rcases hc with h | h | h | h | h | h <;> subst h <;> exact ⟨rfl, rfl⟩
  · intro hch
    have hup : ∃ call, call.isUpload = true ∧
        (if img.colorChannels = 3 then
          some (GLCall.glTexImage2D GL_TEXTURE_2D 0 GL_RGB8 img.width img.height 0
            GL_RGB GL_UNSIGNED_BYTE)
        else if img.colorChannels = 4 then
          some (GLCall.glTexImage2D GL_TEXTURE_2D 0 GL_RGBA8 img.width img.height 0
            GL_RGBA GL_UNSIGNED_BYTE)
        else none) = some call := by
      rcases hch with h3 | h4
      · exact ⟨GLCall.glTexImage2D GL_TEXTURE_2D 0 GL_RGB8 img.width img.height 0
          GL_RGB GL_UNSIGNED_BYTE, rfl, if_pos h3⟩
      · have h3 : ¬ img.colorChannels = 3 := by omega
        exact ⟨GLCall.glTexImage2D GL_TEXTURE_2D 0 GL_RGBA8 img.width img.height 0
          GL_RGBA GL_UNSIGNED_BYTE, rfl, by rw [if_neg h3, if_pos h4]⟩
    obtain ⟨call, hcall, hsel⟩ := hup
    constructor
    · intro s1 gl1
      unfold CreateGLTexture
      simp only [hsel]
      split <;> simp
    · intro h0 h16
      have hb : 0 ≤ s.m_loadedTextures ∧ s.m_loadedTextures < 16 := ⟨h0, h16⟩
      refine ⟨{ s with
          m_textureIDs := Function.update s.m_textureIDs (arrayIndex s.m_loadedTextures hb)
            { tag := tag, ID := genID }
          m_loadedTextures := s.m_loadedTextures + 1 },
        [ GLCall.glGenTextures 1 genID,
          GLCall.glBindTexture GL_TEXTURE_2D genID,
          GLCall.glTexParameteri GL_TEXTURE_2D GL_TEXTURE_WRAP_S GL_REPEAT,
          GLCall.glTexParameteri GL_TEXTURE_2D GL_TEXTURE_WRAP_T GL_REPEAT,
          GLCall.glTexParameteri GL_TEXTURE_2D GL_TEXTURE_MIN_FILTER GL_LINEAR,
          GLCall.glTexParameteri GL_TEXTURE_2D GL_TEXTURE_MAG_FILTER GL_LINEAR,
          call,
          GLCall.glGenerateMipmap GL_TEXTURE_2D,
          GLCall.glBindTexture GL_TEXTURE_2D 0 ], ?_,
        ⟨call, by simp, hcall⟩, ⟨GLCall.glGenerateMipmap GL_TEXTURE_2D, by simp, rfl⟩⟩
      unfold CreateGLTexture
      simp only [hsel, dif_pos hb, List.append_assoc, List.cons_append, List.nil_append]

/-- The statement of C14 at a fresh scene manager, for a 1-channel image (the
failure branch) and for a 4-channel image (the upload branch). -/
theorem CreateGLTexture_unsupported_channels_witness :
    (∃ calls, (construct (none : Option (ShaderManager Int))).CreateGLTexture []
        "gray.png" "gray" (some ⟨8, 8, 1⟩) 3 = Except.ok (false, construct none, [] ++ calls) ∧
      ∀ c ∈ calls, c.isUpload = false ∧ c.isMipmap = false) ∧
    (∃ s1 calls, (construct (none : Option (ShaderManager Int))).CreateGLTexture []
        "coffee.png" "coffee" (some ⟨64, 64, 4⟩) 2 = Except.ok (true, s1, [] ++ calls) ∧
      (∃ c ∈ calls, c.isUpload = true) ∧ ∃ c ∈ calls, c.isMipmap = true) :=
  ⟨(CreateGLTexture_unsupported_channels (construct none) [] "gray.png" "gray" ⟨8, 8, 1⟩ 3).1
      (by decide) (by decide),
    ((CreateGLTexture_unsupported_channels (construct none) [] "coffee.png" "coffee"
      ⟨64, 64, 4⟩ 2).2 (Or.inr rfl)).2 (by decide) (by decide)⟩

theorem textureAt_fin (s : SceneManager R) (i : Fin 16) :
    s.textureAt (i.val : Int) = some (s.m_textureIDs i) := by
  unfold textureAt
  have hb : 0 ≤ ((i.val : Nat) : Int) ∧ ((i.val : Nat) : Int) < 16 := by
    have := i.isLt
    omega
  rw [dif_pos hb]
  congr 2

/-- C15: for every registry with `m_loadedTextures = n < 16` and every image
that decodes with 3 or 4 channels, `CreateGLTexture(filename, tag)` returns
`true`, sets entry `n` to {tag, the handle just generated}, sets
`m_loadedTextures` to `n + 1` and leaves every entry at an index other than
`n`, the material list and the shader-manager pointer unchanged. -/
theorem CreateGLTexture_appends_entry (s : SceneManager R) (gl : List GLCall)
    (filename tag : String) (img : Image) (genID : Nat) (n : Nat)
    (hn : s.m_loadedTextures = n) (h16 : n < 16)
    (hch : img.colorChannels = 3 ∨ img.colorChannels = 4) :
    ∃ s1 gl1, s.CreateGLTexture gl filename tag (some img) genID = Except.ok (true, s1, gl1) ∧
      s1.m_textureIDs ⟨n, h16⟩ = { tag := tag, ID := genID } ∧
      s1.m_loadedTextures = n + 1 ∧
      (∀ i : Fin 16, i.val ≠ n → s1.m_textureIDs i = s.m_textureIDs i) ∧
      s1.m_objectMaterials = s.m_objectMaterials ∧
      s1.m_pShaderManager = s.m_pShaderManager := by
  have hdec : TextureLoad.decodes
      { filename := filename, tag := tag, image := some img, genID := genID } = true := by
    simp only [TextureLoad.decodes, Bool.or_eq_true, decide_eq_true_eq]
    exact hch
  obtain ⟨s1, gl1, hcall, hcount, hnew, hold, hsh, hmat⟩ :=
    CreateGLTexture_of_decodes s gl
      { filename := filename, tag := tag, image := some img, genID := genID } hdec
      (by omega) (by omega)
  refine ⟨s1, gl1, hcall, ?_, by rw [hcount, hn], ?_, hmat, hsh⟩
  · have h1 := textureAt_fin s1 ⟨n, h16⟩
    simp only at h1
    rw [← hn, hnew] at h1
    exact (Option.some.inj h1).symm
  · intro i hi
    have h1 := textureAt_fin s1 i
    have h2 := textureAt_fin s i
    rw [hold _ (by omega), h2] at h1
    exact (Option.some.inj h1).symm

/-- The statement of C15 at the example registry (three loaded textures) and a
4-channel image. -/
theorem CreateGLTexture_appends_entry_witness :
    exampleRegistry.m_loadedTextures = (3 : Nat) ∧ (3 : Nat) < 16 ∧
    ((⟨64, 64, 4⟩ : Image).colorChannels = 3 ∨ (⟨64, 64, 4⟩ : Image).colorChannels = 4) ∧
    ∃ s1 gl1, exampleRegistry.CreateGLTexture [] "coffee.png" "coffee" (some ⟨64, 64, 4⟩) 2 =
        Except.ok (true, s1, gl1) ∧
      s1.m_textureIDs ⟨3, by decide⟩ = { tag := "coffee", ID := 2 } ∧
      s1.m_loadedTextures = (3 : Nat) + 1 ∧
      (∀ i : Fin 16, i.val ≠ 3 → s1.m_textureIDs i = exampleRegistry.m_textureIDs i) ∧
      s1.m_objectMaterials = exampleRegistry.m_objectMaterials ∧
      s1.m_pShaderManager = exampleRegistry.m_pShaderManager :=
  ⟨by decide, by decide, Or.inr rfl,
    CreateGLTexture_appends_entry exampleRegistry [] "coffee.png" "coffee" ⟨64, 64, 4⟩ 2 3
      (by decide) (by decide) (Or.inr rfl)⟩

/-- With `m_loadedTextures` outside `0..15` (16 textures loaded, say), a call
whose image decodes with 3 or 4 channels indexes `m_textureIDs` outside the
array. -/
theorem CreateGLTexture_full_registry (s : SceneManager R) (gl : List GLCall)
    (filename tag : String) (img : Image) (genID : Nat)
    (hb : ¬ (0 ≤ s.m_loadedTextures ∧ s.m_loadedTextures < 16))
    (hch : img.colorChannels = 3 ∨ img.colorChannels = 4) :
    s.CreateGLTexture gl filename tag (some img) genID = Except.error Fault.outOfBounds := by
  unfold CreateGLTexture
  rcases hch with h3 | h4
  · simp only [if_pos h3, dif_neg hb]
  · have h3 : ¬ img.colorChannels = 3 := by omega
    simp only [if_neg h3, if_pos h4, dif_neg hb]

/-- C12 (the code departs from the claim): on a fresh scene manager the 16
calls of `sixteenLoads` all return `true` and leave `m_loadedTextures = 16`;
a 17th call with a 4-channel image then does not return `false`: it writes
`m_textureIDs[16]`, an index outside `0..15`. -/
theorem CreateGLTexture_seventeenth_call_out_of_bounds :
    ∃ s16 gl16,
      (construct (none : Option (ShaderManager Int))).CreateGLTextures [] sixteenLoads =
        Except.ok (List.replicate 16 true, s16, gl16) ∧
      s16.m_loadedTextures = 16 ∧
      s16.CreateGLTexture gl16 "extra.png" "extra" (some ⟨64, 64, 4⟩) 17 =
        Except.error Fault.outOfBounds := by
  obtain ⟨s16, gl16, hrun, hc, _, _, _⟩ :=
    CreateGLTextures_registry sixteenLoads (construct (none : Option (ShaderManager Int))) []
      [] rfl (by decide) (fun i hi => by simp at hi)
  refine ⟨s16, gl16, hrun, ?_, ?_⟩
  · rw [hc]; rfl
  · exact CreateGLTexture_full_registry s16 gl16 "extra.png" "extra" ⟨64, 64, 4⟩ 17
      (by rw [hc]; decide) (Or.inr rfl)

/-! ### Null shader manager -/

/-- The four guarded setters, called while the shader-manager pointer is null,
return the scene manager as it was: they push nothing. -/
theorem guarded_setters_null_noop [Ring R] (G : glm.ScalarFns R) (s : SceneManager R)
    (hnull : s.m_pShaderManager = none) :
    (∀ (scaleXYZ : glm.vec3 R) (rx ry rz : R) (positionXYZ : glm.vec3 R),
      s.SetTransformations G scaleXYZ rx ry rz positionXYZ = s) ∧
    (∀ r g b a : R, s.SetShaderColor r g b a = s) ∧
    (∀ t : String, s.SetShaderTexture t = Except.ok s) ∧
    (∀ u v : R, s.SetTextureUVScale u v = s) := by
  refine ⟨fun _ _ _ _ _ => ?_, fun _ _ _ _ => ?_, fun _ => ?_, fun _ _ => ?_⟩
  · simp only [SetTransformations, hnull]
  · simp only [SetShaderColor, hnull]
  · simp only [SetShaderTexture, hnull]
  · simp only [SetTextureUVScale, hnull]

/-- With a null shader-manager pointer and a non-empty material list,
`SetShaderMaterial` calls through the null pointer, whatever the tag. -/
theorem SetShaderMaterial_null_dereference (s : SceneManager R) (t : String)
    (stale : OBJECT_MATERIAL R) (hnull : s.m_pShaderManager = none)
    (hne : s.m_objectMaterials.length ≠ 0) :
    s.SetShaderMaterial t stale = Except.error Fault.nullDereference := by
  have hfind : ∃ m1, s.FindMaterial t stale = Except.ok (true, m1) := by
    by_cases hex : ∃ (j : Nat) (mj : OBJECT_MATERIAL R),
        s.m_objectMaterials[j]? = some mj ∧ mj.tag = t
    · obtain ⟨j, mj, hj, htag⟩ := hex
      obtain ⟨i, m, hm⟩ := exists_isFirstMaterial s t j mj hj htag
      exact ⟨_, FindMaterial_of_isFirstMaterial s t i m hm stale⟩
    · exact ⟨_, FindMaterial_of_absent s t stale hne
        (fun j mj hj htag => hex ⟨j, mj, hj, htag⟩)⟩
  obtain ⟨m1, hfind⟩ := hfind
  unfold SetShaderMaterial
  rw [if_pos (by omega), hfind]
  simp [hnull]

/-- C16 (the code departs from the claim): on a scene manager with a null
shader-manager pointer and the materials cement, gold, gold,
`SetShaderMaterial("gold")` calls `setVec3Value` through the null pointer;
unlike its four sibling setters it has no null check. -/
theorem SetShaderMaterial_null_pointer_example :
    exampleNullMaterials.m_pShaderManager = none ∧
    exampleNullMaterials.SetShaderMaterial "gold" staleMaterial =
      Except.error Fault.nullDereference ∧
    exampleNullMaterials.SetShaderColor 1 0 0 1 = exampleNullMaterials :=
  ⟨rfl, rfl, rfl⟩

/-! ### Duplicate material tags -/

/-- C17: for every material list L and every material `m` whose tag already
occurs in L, every lookup on L with `m` appended returns exactly what it
returns on L: the same flag and the same content of `out`, for every tag. -/
theorem FindMaterial_append_duplicate (s : SceneManager R) (m : OBJECT_MATERIAL R)
    (j : Nat) (mj : OBJECT_MATERIAL R) (hj : s.m_objectMaterials[j]? = some mj)
    (hdup : mj.tag = m.tag) (t : String) (out : OBJECT_MATERIAL R) :
    FindMaterial { s with m_objectMaterials := s.m_objectMaterials ++ [m] } t out =
      s.FindMaterial t out := by
  have hjlt : j < s.m_objectMaterials.length := by
    by_contra hcon
    rw [List.getElem?_eq_none (by omega)] at hj
    cases hj
  by_cases hex : ∃ (k : Nat) (mk : OBJECT_MATERIAL R),
      s.m_objectMaterials[k]? = some mk ∧ mk.tag = t
  · obtain ⟨k, mk, hk, hkt⟩ := hex
    obtain ⟨i, mi, hget, htag, hfirst⟩ := exists_isFirstMaterial s t k mk hk hkt
    have hilt : i < s.m_objectMaterials.length := by
      by_contra hcon
      rw [List.getElem?_eq_none (by omega)] at hget
      cases hget
    have hext : IsFirstMaterial { s with m_objectMaterials := s.m_objectMaterials ++ [m] }
        t i mi := by
      refine ⟨?_, htag, ?_⟩
      · show (s.m_objectMaterials ++ [m])[i]? = some mi
        rw [List.getElem?_append_left hilt, hget]
      · intro a ma ha hga
        have hga1 : (s.m_objectMaterials ++ [m])[a]? = some ma := hga
        rw [List.getElem?_append_left (by omega)] at hga1
        exact hfirst a ma ha hga1
    rw [FindMaterial_of_isFirstMaterial _ t i mi hext out,
      FindMaterial_of_isFirstMaterial s t i mi ⟨hget, htag, hfirst⟩ out]
  · have hno : ∀ (k : Nat) (mk : OBJECT_MATERIAL R),
        s.m_objectMaterials[k]? = some mk → mk.tag ≠ t :=
      fun k mk hk hkt => hex ⟨k, mk, hk, hkt⟩
    have hmt : m.tag ≠ t := fun h => hno j mj hj (hdup.trans h)
    have hno1 : ∀ (k : Nat) (mk : OBJECT_MATERIAL R),
        (s.m_objectMaterials ++ [m])[k]? = some mk → mk.tag ≠ t := by
      intro k mk hk
      by_cases hlt : k < s.m_objectMaterials.length
      · rw [List.getElem?_append_left hlt] at hk
        exact hno k mk hk
      · rw [List.getElem?_append_right (by omega)] at hk
        by_cases h0 : k - s.m_objectMaterials.length = 0
        · rw [h0] at hk
          simp only [List.getElem?_cons_zero, Option.some.injEq] at hk
          rw [← hk]; exact hmt
        · have : ([m] : List (OBJECT_MATERIAL R))[k - s.m_objectMaterials.length]? = none :=
            List.getElem?_eq_none (by simp only [List.length_singleton]; omega)
          rw [this] at hk
          cases hk
    rw [FindMaterial_of_absent s t out (by omega) hno]
    exact FindMaterial_of_absent
      { s with m_objectMaterials := s.m_objectMaterials ++ [m] } t out
      (by simp) hno1

/-- The statement of C17 at the list cement, gold, appended with a second
material tagged "gold", for the lookup of "gold". -/
theorem FindMaterial_append_duplicate_witness :
    ({ exampleMaterials with m_objectMaterials := [cementMaterial, goldMaterial] } :
      SceneManager ℚ).m_objectMaterials[1]? = some goldMaterial ∧
    goldMaterial.tag = dullGoldMaterial.tag ∧
    FindMaterial { ({ exampleMaterials with
        m_objectMaterials := [cementMaterial, goldMaterial] } : SceneManager ℚ) with
      m_objectMaterials := [cementMaterial, goldMaterial] ++ [dullGoldMaterial] }
      "gold" staleMaterial =
    FindMaterial ({ exampleMaterials with
        m_objectMaterials := [cementMaterial, goldMaterial] } : SceneManager ℚ)
      "gold" staleMaterial :=
  ⟨rfl, rfl,
    FindMaterial_append_duplicate
      ({ exampleMaterials with m_objectMaterials := [cementMaterial, goldMaterial] } :
        SceneManager ℚ) dullGoldMaterial 1 goldMaterial rfl rfl "gold" staleMaterial⟩

/-! ### The call trace of `RenderScene` -/

set_option maxRecDepth 100000

/-- The kinds of the calls of `RenderScene` do not depend on the type of the scalars. -/
theorem RenderScene_kinds_eq (R : Type) [DivisionRing R] :
    (RenderScene.calls : List (SceneCall R)).map SceneCall.kind =
      (RenderScene.calls : List (SceneCall ℚ)).map SceneCall.kind := by
  simp only [RenderScene.calls, RenderScene.calls0, RenderScene.calls1, RenderScene.calls2,
    RenderScene.calls3, RenderScene.calls4, RenderScene.calls5, RenderScene.calls6,
    RenderScene.calls7, RenderScene.calls8, RenderScene.calls9, RenderScene.calls10,
    List.map_append, List.map_cons, List.map_nil, SceneCall.kind]

/-- The blocks of `RenderScene` do not depend on the type of the scalars. -/
theorem RenderScene_blocks_eq (R : Type) [DivisionRing R] :
    RenderScene.blocks R = RenderScene.blocks ℚ := by
  unfold RenderScene.blocks
  rw [RenderScene_kinds_eq R]

/-- C18 as stated fails: the fourth draw call of `RenderScene` (BOOK #2 (BOX),
source lines 698 to 710) is preceded by SetTransformations, SetShaderColor,
SetShaderMaterial, SetTextureUVScale, which is neither of the two specified
blocks; so not every draw call is preceded by a specified block. -/
theorem RenderScene_block_outside_specification :
    (RenderScene.blocks ℚ)[3]? = some [CallKind.transformations, CallKind.color,
      CallKind.material, CallKind.uvScale] ∧
    ¬ ∀ b ∈ RenderScene.blocks ℚ, b ∈ specifiedBlocks := by
  decide

/-- C18, as amended: `RenderScene` makes 107 draw calls and no call after the
last of them; every draw call is preceded, since the previous draw call (or
the start), by exactly one SetTransformations call, made first, followed by
one of seven setter sequences (the blocks of `occurringBlocks`), each of
which occurs; 53 of the 107 blocks are one of the two specified ones. -/
theorem RenderScene_draw_blocks (R : Type) [DivisionRing R] :
    (RenderScene.blocks R).length = 107 ∧
    ((RenderScene.calls : List (SceneCall R)).map SceneCall.kind).getLast? =
      some CallKind.draw ∧
    (∀ b ∈ RenderScene.blocks R, b ∈ occurringBlocks) ∧
    (∀ b ∈ RenderScene.blocks R, b.head? = some CallKind.transformations ∧
      b.count CallKind.transformations = 1 ∧ b.count CallKind.draw = 0) ∧
    (∀ p ∈ occurringBlocks, p ∈ RenderScene.blocks R) ∧
    (RenderScene.blocks R).countP (fun b => decide (b ∈ specifiedBlocks)) = 53 := by
  rw [RenderScene_blocks_eq R, RenderScene_kinds_eq R]
  exact ⟨by decide, by decide, by decide, by decide, by decide, by decide⟩

/-! ### Frame of the setters on the uniforms -/

theorem lastValue_of_not_mem (l : ShaderManager R) (name : String)
    (h : ∀ p ∈ l, p.1 ≠ name) : ShaderManager.lastValue l name = none := by
  induction l with
  | nil => rfl
  | cons p rest ih =>
    have hrest := ih (fun q hq => h q (List.mem_cons_of_mem _ hq))
    have hp : ¬ p.1 = name := h p (List.mem_cons_self _ _)
    simp only [ShaderManager.lastValue, hrest, if_neg hp]

theorem lastValue_append_of_not_mem (sh l : ShaderManager R) (name : String)
    (h : ∀ p ∈ l, p.1 ≠ name) :
    ShaderManager.lastValue (sh ++ l) name = ShaderManager.lastValue sh name := by
  rw [lastValue_append, lastValue_of_not_mem l name h]

/-- The possible outcomes of `SetShaderTexture`. -/
theorem SetShaderTexture_cases (s s1 : SceneManager R) (t : String)
    (h : s.SetShaderTexture t = Except.ok s1) :
    s1 = s ∨ ∃ sh k, s.m_pShaderManager = some sh ∧
      s1 = { s with m_pShaderManager := some (sh ++ [(g_UseTextureName, UniformValue.int 1),
        (g_TextureValueName, UniformValue.sampler2D k)]) } := by
  unfold SetShaderTexture at h
  cases hsh : s.m_pShaderManager with
  | none =>
    rw [hsh] at h
    left
    injection h with h
    exact h.symm
  | some sh =>
    rw [hsh] at h
    right
    cases hk : s.FindTextureSlot t with
    | error f => rw [hk] at h; cases h
    | ok k =>
      rw [hk] at h
      refine ⟨sh, k, rfl, ?_⟩
      injection h with h
      rw [← h]
      simp [ShaderManager.setIntValue, ShaderManager.setSampler2DValue]

/-- The possible outcomes of `SetShaderMaterial`. -/
theorem SetShaderMaterial_cases (s s1 : SceneManager R) (t : String)
    (stale : OBJECT_MATERIAL R) (h : s.SetShaderMaterial t stale = Except.ok s1) :
    s1 = s ∨ ∃ sh m1, s.m_pShaderManager = some sh ∧
      s1 = { s with m_pShaderManager := some (sh ++ materialPushes m1) } := by
  unfold SetShaderMaterial at h
  by_cases hlen : s.m_objectMaterials.length > 0
  · rw [if_pos hlen] at h
    cases hfind : s.FindMaterial t stale with
    | error f => rw [hfind] at h; cases h
    | ok r =>
      obtain ⟨bReturn, m1⟩ := r
      rw [hfind] at h
      cases bReturn with
      | false =>
        left
        simp only [Bool.false_eq_true, if_false] at h
        injection h with h
        exact h.symm
      | true =>
        simp only [if_true] at h
        cases hsh : s.m_pShaderManager with
        | none => rw [hsh] at h; cases h
        | some sh =>
          rw [hsh] at h
          right
          refine ⟨sh, m1, rfl, ?_⟩
          injection h with h
          rw [← h]
          simp [materialPushes, ShaderManager.setVec3Value, ShaderManager.setFloatValue]
  · rw [if_neg hlen] at h
    left
    injection h with h
    exact h.symm

/-- With a non-null shader manager `SetShaderMaterial` returns. -/
theorem SetShaderMaterial_returns (s : SceneManager R) (t : String)
    (stale : OBJECT_MATERIAL R) (hsh : s.m_pShaderManager ≠ none) :
    ∃ s1, s.SetShaderMaterial t stale = Except.ok s1 := by
  cases hshv : s.m_pShaderManager with
  | none => exact absurd hshv hsh
  | some sh =>
    by_cases hlen : s.m_objectMaterials.length = 0
    · exact ⟨s, by unfold SetShaderMaterial; rw [if_neg (by omega)]⟩
    · have hfind : ∃ m1, s.FindMaterial t stale = Except.ok (true, m1) := by
        by_cases hex : ∃ (j : Nat) (mj : OBJECT_MATERIAL R),
            s.m_objectMaterials[j]? = some mj ∧ mj.tag = t
        · obtain ⟨j, mj, hj, htag⟩ := hex
          obtain ⟨i, m, hm⟩ := exists_isFirstMaterial s t j mj hj htag
          exact ⟨_, FindMaterial_of_isFirstMaterial s t i m hm stale⟩
        · exact ⟨_, FindMaterial_of_absent s t stale hlen
            (fun j mj hj htag => hex ⟨j, mj, hj, htag⟩)⟩
      obtain ⟨m1, hfind⟩ := hfind
      exact ⟨_, SetShaderMaterial_of_found s t stale m1 sh hshv hfind⟩

/-- C19: each setter writes only its own uniforms. For every uniform `name`
outside the set of a setter (model for `SetTransformations`; bUseTexture and
objectColor for `SetShaderColor`; bUseTexture and objectTexture for
`SetShaderTexture`; UVscale for `SetTextureUVScale`; the five material.*
uniforms for `SetShaderMaterial`) the value the uniform holds after the call
is the value it held before; and the two setters that can fail do return when
the registry is within its 16 entries, respectively when the shader manager
is non-null. -/
theorem setters_write_only_their_uniforms [Ring R] (G : glm.ScalarFns R) (s : SceneManager R)
    (name : String) :
    (name ≠ g_ModelName →
      ∀ (scaleXYZ : glm.vec3 R) (rx ry rz : R) (positionXYZ : glm.vec3 R),
        (s.SetTransformations G scaleXYZ rx ry rz positionXYZ).uniformValue name =
          s.uniformValue name) ∧
    (name ≠ g_UseTextureName → name ≠ g_ColorValueName →
      ∀ r g b a : R, (s.SetShaderColor r g b a).uniformValue name = s.uniformValue name) ∧
    (name ≠ g_UseTextureName → name ≠ g_TextureValueName →
      ∀ (t : String) (s1 : SceneManager R), s.SetShaderTexture t = Except.ok s1 →
        s1.uniformValue name = s.uniformValue name) ∧
    (name ≠ "UVscale" →
      ∀ u v : R, (s.SetTextureUVScale u v).uniformValue name = s.uniformValue name) ∧
    (name ∉ materialUniformNames →
      ∀ (t : String) (stale : OBJECT_MATERIAL R) (s1 : SceneManager R),
        s.SetShaderMaterial t stale = Except.ok s1 →
        s1.uniformValue name = s.uniformValue name) ∧
    (s.m_loadedTextures ≤ 16 → ∀ t : String, ∃ s1, s.SetShaderTexture t = Except.ok s1) ∧
    (s.m_pShaderManager ≠ none →
      ∀ (t : String) (stale : OBJECT_MATERIAL R), ∃ s1,
        s.SetShaderMaterial t stale = Except.ok s1) := by
  refine ⟨?_, ?_, ?_, ?_, ?_, ?_, ?_⟩
  · intro h scaleXYZ rx ry rz positionXYZ
    cases hsh : s.m_pShaderManager with
    | none => simp only [SetTransformations, hsh]
    | some sh =>
      simp only [SetTransformations, hsh, uniformValue, ShaderManager.setMat4Value]
      apply lastValue_append_of_not_mem
      intro p hp
      simp only [List.mem_singleton] at hp
      rw [hp]; exact fun hc => h hc.symm
  · intro h1 h2 r g b a
    cases hsh : s.m_pShaderManager with
    | none => simp only [SetShaderColor, hsh]
    | some sh =>
      rw [SetShaderColor_of_some s sh hsh]
      simp only [uniformValue, hsh]
      apply lastValue_append_of_not_mem
      intro p hp
      simp only [List.mem_cons, List.mem_singleton, List.not_mem_nil, or_false] at hp
      rcases hp with hp | hp <;> rw [hp]
      · exact fun hc => h1 hc.symm
      · exact fun hc => h2 hc.symm
  · intro h1 h2 t s1 hres
    rcases SetShaderTexture_cases s s1 t hres with heq | ⟨sh, k, hsh, heq⟩
    · rw [heq]
    · rw [heq]
      simp only [uniformValue, hsh]
      apply lastValue_append_of_not_mem
      intro p hp
      simp only [List.mem_cons, List.mem_singleton, List.not_mem_nil, or_false] at hp
      rcases hp with hp | hp <;> rw [hp]
      · exact fun hc => h1 hc.symm
      · exact fun hc => h2 hc.symm
  · intro h u v
    cases hsh : s.m_pShaderManager with
    | none => simp only [SetTextureUVScale, hsh]
    | some sh =>
      simp only [SetTextureUVScale, hsh, uniformValue, ShaderManager.setVec2Value]
      apply lastValue_append_of_not_mem
      intro p hp
      simp only [List.mem_singleton] at hp
      rw [hp]; exact fun hc => h hc.symm
  · intro h t stale s1 hres
    rcases SetShaderMaterial_cases s s1 t stale hres with heq | ⟨sh, m1, hsh, heq⟩
    · rw [heq]
    · rw [heq]
      simp only [uniformValue, hsh]
      apply lastValue_append_of_not_mem
      intro p hp hc
      apply h
      rw [← hc]
      simp only [materialPushes, List.mem_cons, List.mem_singleton, List.not_mem_nil,
        or_false] at hp
      rcases hp with hp | hp | hp | hp | hp <;> rw [hp] <;> simp [materialUniformNames]
  · intro hcap t
    cases hsh : s.m_pShaderManager with
    | none => exact ⟨s, by simp only [SetShaderTexture, hsh]⟩
    | some sh =>
      obtain ⟨k, hk⟩ := FindTextureSlot_returns s t hcap
      exact ⟨_, SetShaderTexture_of_slot s t sh k hsh hk⟩
  · intro hsh t stale
    exact SetShaderMaterial_returns s t stale hsh

/-- The statement of C19 at the example registry and the uniform UVscale,
which `SetTransformations`, `SetShaderColor` and `SetShaderTexture` leave alone. -/
theorem setters_write_only_their_uniforms_witness :
    (∀ (scaleXYZ : glm.vec3 Int) (rx ry rz : Int) (positionXYZ : glm.vec3 Int),
      (exampleRegistry.SetTransformations exampleScalarFns scaleXYZ rx ry rz
        positionXYZ).uniformValue "UVscale" = exampleRegistry.uniformValue "UVscale") ∧
    (∀ r g b a : Int, (exampleRegistry.SetShaderColor r g b a).uniformValue "UVscale" =
      exampleRegistry.uniformValue "UVscale") ∧
    (∀ (t : String) (s1 : SceneManager Int), exampleRegistry.SetShaderTexture t = Except.ok s1 →
      s1.uniformValue "UVscale" = exampleRegistry.uniformValue "UVscale") ∧
    (∀ t : String, ∃ s1, exampleRegistry.SetShaderTexture t = Except.ok s1) :=
  ⟨(setters_write_only_their_uniforms exampleScalarFns exampleRegistry "UVscale").1
      (by decide),
    (setters_write_only_their_uniforms exampleScalarFns exampleRegistry "UVscale").2.1
      (by decide) (by decide),
    (setters_write_only_their_uniforms exampleScalarFns exampleRegistry "UVscale").2.2.1
      (by decide) (by decide),
    (setters_write_only_their_uniforms exampleScalarFns exampleRegistry "UVscale").2.2.2.2.2.1
      (by decide)⟩

/-! ### Frame of the readers, the setters and the render pass on the registries -/

theorem SameRegistry_refl (s : SceneManager R) : SameRegistry s s := ⟨rfl, rfl, rfl⟩

theorem SameRegistry_trans (s2 s1 s : SceneManager R) (h2 : SameRegistry s2 s1)
    (h1 : SameRegistry s1 s) : SameRegistry s2 s :=
  ⟨h2.1.trans h1.1, h2.2.1.trans h1.2.1, h2.2.2.trans h1.2.2⟩

theorem SetTransformations_sameRegistry [Ring R] (G : glm.ScalarFns R) (s : SceneManager R)
    (scaleXYZ : glm.vec3 R) (rx ry rz : R) (positionXYZ : glm.vec3 R) :
    SameRegistry (s.SetTransformations G scaleXYZ rx ry rz positionXYZ) s := by
  unfold SetTransformations
  cases s.m_pShaderManager <;> exact ⟨rfl, rfl, rfl⟩

theorem SetShaderColor_sameRegistry (s : SceneManager R) (r g b a : R) :
    SameRegistry (s.SetShaderColor r g b a) s := by
  unfold SetShaderColor
  cases s.m_pShaderManager <;> exact ⟨rfl, rfl, rfl⟩

theorem SetTextureUVScale_sameRegistry (s : SceneManager R) (u v : R) :
    SameRegistry (s.SetTextureUVScale u v) s := by
  unfold SetTextureUVScale
  cases s.m_pShaderManager <;> exact ⟨rfl, rfl, rfl⟩

theorem SetShaderTexture_sameRegistry (s s1 : SceneManager R) (t : String)
    (h : s.SetShaderTexture t = Except.ok s1) : SameRegistry s1 s := by
  rcases SetShaderTexture_cases s s1 t h with heq | ⟨sh, k, _, heq⟩ <;> rw [heq] <;>
    exact ⟨rfl, rfl, rfl⟩

theorem SetShaderMaterial_sameRegistry (s s1 : SceneManager R) (t : String)
    (stale : OBJECT_MATERIAL R) (h : s.SetShaderMaterial t stale = Except.ok s1) :
    SameRegistry s1 s := by
  rcases SetShaderMaterial_cases s s1 t stale h with heq | ⟨sh, m1, _, heq⟩ <;> rw [heq] <;>
    exact ⟨rfl, rfl, rfl⟩

theorem execCall_sameRegistry [Ring R] (G : glm.ScalarFns R) (stale : OBJECT_MATERIAL R)
    (s s1 : SceneManager R) (c : SceneCall R) (h : s.execCall G stale c = Except.ok s1) :
    SameRegistry s1 s := by
  cases c with
  | SetTransformations scaleXYZ x y z positionXYZ =>
    simp only [execCall, Except.ok.injEq] at h
    rw [← h]; exact SetTransformations_sameRegistry G s _ _ _ _ _
  | SetShaderColor r g b a =>
    simp only [execCall, Except.ok.injEq] at h
    rw [← h]; exact SetShaderColor_sameRegistry s _ _ _ _
  | SetShaderTexture t => exact SetShaderTexture_sameRegistry s s1 t h
  | SetShaderMaterial t => exact SetShaderMaterial_sameRegistry s s1 t stale h
  | SetTextureUVScale u v =>
    simp only [execCall, Except.ok.injEq] at h
    rw [← h]; exact SetTextureUVScale_sameRegistry s _ _
  | DrawBoxMesh => simp only [execCall, Except.ok.injEq] at h; rw [← h]; exact ⟨rfl, rfl, rfl⟩
  | DrawPlaneMesh => simp only [execCall, Except.ok.injEq] at h; rw [← h]; exact ⟨rfl, rfl, rfl⟩
  | DrawConeMesh => simp only [execCall, Except.ok.injEq] at h; rw [← h]; exact ⟨rfl, rfl, rfl⟩
  | DrawCylinderMesh =>
    simp only [execCall, Except.ok.injEq] at h; rw [← h]; exact ⟨rfl, rfl, rfl⟩
  | DrawTorusMesh => simp only [execCall, Except.ok.injEq] at h; rw [← h]; exact ⟨rfl, rfl, rfl⟩
  | DrawSphereMesh => simp only [execCall, Except.ok.injEq] at h; rw [← h]; exact ⟨rfl, rfl, rfl⟩

theorem execCalls_sameRegistry [Ring R] (G : glm.ScalarFns R) (stale : Nat → OBJECT_MATERIAL R)
    (calls : List (SceneCall R)) :
    ∀ (k : Nat) (s s1 : SceneManager R), execCalls G stale k s calls = Except.ok s1 →
      SameRegistry s1 s := by
  induction calls with
  | nil =>
    intro k s s1 h
    simp only [execCalls, Except.ok.injEq] at h
    rw [← h]; exact SameRegistry_refl s
  | cons c rest ih =>
    intro k s s1 h
    unfold execCalls at h
    cases hc : s.execCall G (stale k) c with
    | error f => rw [hc] at h; cases h
    | ok s2 =>
      rw [hc] at h
      exact SameRegistry_trans s1 s2 s (ih (k + 1) s2 s1 h)
        (execCall_sameRegistry G (stale k) s s2 c hc)

/-- With a non-null shader manager and a registry within its 16 entries every
call of the render pass returns, and leaves the shader manager non-null. -/
theorem execCall_returns [Ring R] (G : glm.ScalarFns R) (stale : OBJECT_MATERIAL R)
    (s : SceneManager R) (c : SceneCall R) (hsh : s.m_pShaderManager ≠ none)
    (hcap : s.m_loadedTextures ≤ 16) :
    ∃ s1, s.execCall G stale c = Except.ok s1 ∧ s1.m_pShaderManager ≠ none := by
  obtain ⟨sh, hshv⟩ : ∃ sh, s.m_pShaderManager = some sh := by
    cases h : s.m_pShaderManager with
    | none => exact absurd h hsh
    | some sh => exact ⟨sh, rfl⟩
  cases c with
  | SetTransformations scaleXYZ x y z positionXYZ =>
    exact ⟨_, rfl, by simp [SetTransformations, hshv]⟩
  | SetShaderColor r g b a =>
    exact ⟨_, rfl, by simp [SetShaderColor, hshv]⟩
  | SetShaderTexture t =>
    obtain ⟨k, hk⟩ := FindTextureSlot_returns s t hcap
    exact ⟨_, SetShaderTexture_of_slot s t sh k hshv hk, by simp⟩
  | SetShaderMaterial t =>
    obtain ⟨s1, hs1⟩ := SetShaderMaterial_returns s t stale hsh
    refine ⟨s1, hs1, ?_⟩
    rcases SetShaderMaterial_cases s s1 t stale hs1 with heq | ⟨sh1, m1, _, heq⟩ <;>
      rw [heq]
    · exact hsh
    · simp
  | SetTextureUVScale u v =>
    exact ⟨_, rfl, by simp [SetTextureUVScale, hshv]⟩
  | DrawBoxMesh => exact ⟨s, rfl, hsh⟩
  | DrawPlaneMesh => exact ⟨s, rfl, hsh⟩
  | DrawConeMesh => exact ⟨s, rfl, hsh⟩
  | DrawCylinderMesh => exact ⟨s, rfl, hsh⟩
  | DrawTorusMesh => exact ⟨s, rfl, hsh⟩
  | DrawSphereMesh => exact ⟨s, rfl, hsh⟩

theorem execCalls_returns [Ring R] (G : glm.ScalarFns R) (stale : Nat → OBJECT_MATERIAL R)
    (calls : List (SceneCall R)) :
    ∀ (k : Nat) (s : SceneManager R), s.m_pShaderManager ≠ none → s.m_loadedTextures ≤ 16 →
      ∃ s1, execCalls G stale k s calls = Except.ok s1 := by
  induction calls with
  | nil => intro k s _ _; exact ⟨s, rfl⟩
  | cons c rest ih =>
    intro k s hsh hcap
    obtain ⟨s2, hc, hsh2⟩ := execCall_returns G (stale k) s c hsh hcap
    have hreg := execCall_sameRegistry G (stale k) s s2 c hc
    obtain ⟨s1, h1⟩ := ih (k + 1) s2 hsh2 (by rw [hreg.2.1]; exact hcap)
    exact ⟨s1, by unfold execCalls; rw [hc]; exact h1⟩

/-- What `CreateGLTexture` does to the registries, whatever it returns. -/
theorem CreateGLTexture_registry_effect (s s1 : SceneManager R) (gl gl1 : List GLCall)
    (filename tag : String) (image : Option Image) (genID : Nat) (b : Bool)
    (h : s.CreateGLTexture gl filename tag image genID = Except.ok (b, s1, gl1)) :
    s1.m_objectMaterials = s.m_objectMaterials ∧
    (b = false → s1 = s) ∧
    (b = true → s1.m_loadedTextures = s.m_loadedTextures + 1) := by
  cases hdec : TextureLoad.decodes
      { filename := filename, tag := tag, image := image, genID := genID } with
  | false =>
    obtain ⟨gl2, hcall⟩ := CreateGLTexture_of_not_decodes s gl
      { filename := filename, tag := tag, image := image, genID := genID } hdec
    simp only at hcall
    rw [hcall] at h
    simp only [Except.ok.injEq, Prod.mk.injEq] at h
    obtain ⟨hb, hs, _⟩ := h
    rw [← hs, ← hb]
    exact ⟨rfl, fun _ => rfl, fun hc => by cases hc⟩
  | true =>
    by_cases hb : 0 ≤ s.m_loadedTextures ∧ s.m_loadedTextures < 16
    · obtain ⟨s2, gl2, hcall, hcount, _, _, _, hmat⟩ := CreateGLTexture_of_decodes s gl
        { filename := filename, tag := tag, image := image, genID := genID } hdec hb.1 hb.2
      simp only at hcall
      rw [hcall] at h
      simp only [Except.ok.injEq, Prod.mk.injEq] at h
      obtain ⟨hbt, hs, _⟩ := h
      rw [← hs, ← hbt]
      exact ⟨hmat, fun hc => (by cases hc), fun _ => hcount⟩
    · cases image with
      | none => simp [TextureLoad.decodes] at hdec
      | some img =>
        have hch : img.colorChannels = 3 ∨ img.colorChannels = 4 := by
          simpa [TextureLoad.decodes] using hdec
        rw [CreateGLTexture_full_registry s gl filename tag img genID hb hch] at h
        cases h

/-- C20: the five setters and `RenderScene` leave the texture registry
(`m_textureIDs`, `m_loadedTextures`) and the material list unchanged, for
every input and every outcome, and `RenderScene` does return when the shader
manager is non-null and the registry within its 16 entries; entries are added
by `CreateGLTexture`, which on returning `true` has raised `m_loadedTextures`
by one (and on returning `false` has changed nothing), and by
`DefineObjectMaterials`, which appends six materials. -/
theorem registries_changed_only_by_loading [DivisionRing R] (G : glm.ScalarFns R)
    (s : SceneManager R) :
    (∀ (scaleXYZ : glm.vec3 R) (rx ry rz : R) (positionXYZ : glm.vec3 R),
      SameRegistry (s.SetTransformations G scaleXYZ rx ry rz positionXYZ) s) ∧
    (∀ r g b a : R, SameRegistry (s.SetShaderColor r g b a) s) ∧
    (∀ (t : String) (s1 : SceneManager R), s.SetShaderTexture t = Except.ok s1 →
      SameRegistry s1 s) ∧
    (∀ u v : R, SameRegistry (s.SetTextureUVScale u v) s) ∧
    (∀ (t : String) (stale : OBJECT_MATERIAL R) (s1 : SceneManager R),
      s.SetShaderMaterial t stale = Except.ok s1 → SameRegistry s1 s) ∧
    (∀ (stale : Nat → OBJECT_MATERIAL R) (s1 : SceneManager R),
      s.RenderScene G stale = Except.ok s1 → SameRegistry s1 s) ∧
    (s.m_pShaderManager ≠ none → s.m_loadedTextures ≤ 16 →
      ∀ stale : Nat → OBJECT_MATERIAL R, ∃ s1, s.RenderScene G stale = Except.ok s1) ∧
    (∀ (gl gl1 : List GLCall) (filename tag : String) (image : Option Image) (genID : Nat)
      (b : Bool) (s1 : SceneManager R),
      s.CreateGLTexture gl filename tag image genID = Except.ok (b, s1, gl1) →
      s1.m_objectMaterials = s.m_objectMaterials ∧ (b = false → s1 = s) ∧
        (b = true → s1.m_loadedTextures = s.m_loadedTextures + 1)) ∧
    ((DefineObjectMaterials s).m_textureIDs = s.m_textureIDs ∧
      (DefineObjectMaterials s).m_loadedTextures = s.m_loadedTextures ∧
      (DefineObjectMaterials s).m_objectMaterials.length = s.m_objectMaterials.length + 6 ∧
      (DefineObjectMaterials s).m_objectMaterials.take s.m_objectMaterials.length =
        s.m_objectMaterials ∧
      ((DefineObjectMaterials s).m_objectMaterials.drop s.m_objectMaterials.length).map
        OBJECT_MATERIAL.tag = ["gold", "cement", "wood", "tile", "glass", "clay"]) := by
  refine ⟨SetTransformations_sameRegistry G s, SetShaderColor_sameRegistry s,
    fun t s1 h => SetShaderTexture_sameRegistry s s1 t h, SetTextureUVScale_sameRegistry s,
    fun t stale s1 h => SetShaderMaterial_sameRegistry s s1 t stale h,
    fun stale s1 h => execCalls_sameRegistry G stale _ 0 s s1 h,
    fun hsh hcap stale => execCalls_returns G stale _ 0 s hsh hcap,
    fun gl gl1 filename tag image genID b s1 h =>
      CreateGLTexture_registry_effect s s1 gl gl1 filename tag image genID b h,
    rfl, rfl, ?_, ?_, ?_⟩
  · simp [DefineObjectMaterials]
  · simp [DefineObjectMaterials]
  · simp [DefineObjectMaterials]

/-- The statement of C20 at a fresh scene manager with the six materials
defined: the render pass returns and leaves the registries as they were. -/
theorem registries_changed_only_by_loading_witness :
    exampleScene.m_pShaderManager ≠ none ∧ exampleScene.m_loadedTextures ≤ 16 ∧
    ∃ s1, exampleScene.RenderScene rationalScalarFns (fun _ => staleMaterial) = Except.ok s1 ∧
      SameRegistry s1 exampleScene := by
  have hne : exampleScene.m_pShaderManager ≠ none := by
    have h : exampleScene.m_pShaderManager = some [] := rfl
    rw [h]; simp
  have hcap : exampleScene.m_loadedTextures ≤ 16 := by decide
  have h := registries_changed_only_by_loading rationalScalarFns exampleScene
  obtain ⟨s1, hs1⟩ := h.2.2.2.2.2.2.1 hne hcap (fun _ => staleMaterial)
  exact ⟨hne, hcap, s1, hs1, h.2.2.2.2.2.1 (fun _ => staleMaterial) s1 hs1⟩

/-- The amended statement of C18 at the sixth draw call (BOOK #3 (BOX)), whose
block is SetTransformations, SetShaderTexture, SetShaderMaterial,
SetTextureUVScale, SetShaderColor. -/
theorem RenderScene_draw_blocks_witness :
    [CallKind.transformations, CallKind.texture, CallKind.material, CallKind.uvScale,
      CallKind.color] ∈ RenderScene.blocks ℚ ∧
    [CallKind.transformations, CallKind.texture, CallKind.material, CallKind.uvScale,
      CallKind.color] ∈ occurringBlocks ∧
    ([CallKind.transformations, CallKind.texture, CallKind.material, CallKind.uvScale,
      CallKind.color].head? = some CallKind.transformations ∧
      [CallKind.transformations, CallKind.texture, CallKind.material, CallKind.uvScale,
        CallKind.color].count CallKind.transformations = 1 ∧
      [CallKind.transformations, CallKind.texture, CallKind.material, CallKind.uvScale,
        CallKind.color].count CallKind.draw = 0) :=
  ⟨by decide, (RenderScene_draw_blocks ℚ).2.2.1 _ (by decide),
    (RenderScene_draw_blocks ℚ).2.2.2.1 _ (by decide)⟩

/-! ### Shutdown -/

/-- C21 (the code departs from the claim): on the example registry, whose
three loaded entries hold the handles 7, 8 and 9, `DestroyGLTextures` issues
three `glGenTextures` calls and nothing else: it deletes none of the three
textures, creates three new ones and overwrites the stored handles with the
new names. -/
theorem DestroyGLTextures_generates_instead_of_deleting :
    ∃ s1, exampleRegistry.DestroyGLTextures [] (fun i => (100 + i).toNat) =
        Except.ok (s1, [GLCall.glGenTextures 1 100, GLCall.glGenTextures 1 101,
          GLCall.glGenTextures 1 102]) ∧
      exampleRegistry.m_textureIDs 0 = { tag := "wood", ID := 7 } ∧
      s1.m_textureIDs 0 = { tag := "wood", ID := 100 } ∧
      s1.m_textureIDs 1 = { tag := "plant", ID := 101 } ∧
      s1.m_textureIDs 2 = { tag := "wood", ID := 102 } ∧
      s1.m_loadedTextures = 3 :=
  ⟨_, rfl, rfl, rfl, rfl, rfl, rfl⟩

/-! ### `FindTextureID` -/

/-- The scan of `FindTextureID` returns the initial value when no entry from
`index` on carries the tag. -/
theorem FindTextureID_loop_absent (s : SceneManager R) (tag : String)
    (hcap : s.m_loadedTextures ≤ 16) :
    ∀ (fuel : Nat) (index textureID : Int), 0 ≤ index → s.m_loadedTextures - index ≤ fuel →
      (∀ j, index ≤ j → ¬ s.HasTagAt tag j) →
      FindTextureID.loop s tag fuel index textureID false = Except.ok textureID := by
  intro fuel
  induction fuel with
  | zero =>
    intro index textureID h0 hf _
    have hge : s.m_loadedTextures ≤ index := by
      have : ((0 : Nat) : Int) = 0 := rfl
      omega
    simp [FindTextureID.loop, hge]
  | succ fuel ih =>
    intro index textureID h0 hf hno
    by_cases hlt : index < s.m_loadedTextures
    · obtain ⟨e, he⟩ := s.textureAt_eq_some index h0 (by omega)
      have hne : e.tag ≠ tag := fun heq => hno index (le_refl _) ⟨h0, hlt, e, he, heq⟩
      have hrec := ih (index + 1) textureID (by omega) (by push_cast at hf ⊢; omega)
        (fun j hj => hno j (by omega))
      simp [FindTextureID.loop, hlt, he, hne, hrec]
    · simp [FindTextureID.loop, hlt]

/-- The scan of `FindTextureID` returns the handle of entry `i`, converted to
`int`, when `i` is the first index from `index` on carrying the tag. -/
theorem FindTextureID_loop_found (s : SceneManager R) (tag : String) (i : Int)
    (e : TEXTURE_INFO) (hi0 : 0 ≤ i) (hilt : i < s.m_loadedTextures)
    (he : s.textureAt i = some e) (hetag : e.tag = tag) :
    ∀ (fuel : Nat) (index textureID : Int), 0 ≤ index → index ≤ i → i - index < fuel →
      (∀ j, index ≤ j → j < i → ¬ s.HasTagAt tag j) →
      FindTextureID.loop s tag fuel index textureID false =
        Except.ok (int_of_uint32 e.ID) := by
  intro fuel
  induction fuel with
  | zero => intro index textureID h0 hle hf _; omega
  | succ fuel ih =>
    intro index textureID h0 hle hf hno
    have hlt : index < s.m_loadedTextures := by omega
    by_cases heq : index = i
    · subst heq
      cases fuel <;> simp [FindTextureID.loop, hlt, he, hetag]
    · have hi16 : i < 16 := by
        unfold textureAt at he
        by_contra hcon
        rw [dif_neg (by omega)] at he
        cases he
      obtain ⟨e1, he1⟩ := s.textureAt_eq_some index h0 (by omega)
      have hne : e1.tag ≠ tag :=
        fun h => hno index (le_refl _) (by omega) ⟨h0, hlt, e1, he1, h⟩
      have hrec := ih (index + 1) textureID (by omega) (by omega)
        (by push_cast at hf ⊢; omega) (fun j hj hj2 => hno j (by omega) hj2)
      simp [FindTextureID.loop, hlt, he1, hne, hrec]

theorem FindTextureID_of_isFirstSlot (s : SceneManager R) (t : String) (i : Int)
    (e : TEXTURE_INFO) (h : s.IsFirstSlot t i) (he : s.textureAt i = some e) :
    s.FindTextureID t = Except.ok (int_of_uint32 e.ID) := by
  obtain ⟨⟨h0, hlt, e1, he1, hetag⟩, hfirst⟩ := h
  rw [he] at he1
  cases he1
  exact FindTextureID_loop_found s t i e h0 hlt he hetag _ 0 (-1) (le_refl _) h0 (by omega)
    (fun j _ hj => hfirst j hj)

theorem FindTextureID_of_absent (s : SceneManager R) (t : String)
    (hcap : s.m_loadedTextures ≤ 16) (h : ∀ i, ¬ s.HasTagAt t i) :
    s.FindTextureID t = Except.ok (-1) :=
  FindTextureID_loop_absent s t hcap _ 0 (-1) (le_refl _) (by omega) (fun j _ => h j)

/-- C25 as stated fails: with the single loaded entry {"wood", 0xFFFFFFFF},
`FindTextureSlot("wood")` returns 0 (found) while `FindTextureID("wood")`
returns -1, its not-found value. -/
theorem FindTextureID_sentinel_collision :
    exampleSentinelRegistry.m_loadedTextures ≤ 16 ∧
    exampleSentinelRegistry.FindTextureSlot "wood" = Except.ok 0 ∧
    exampleSentinelRegistry.FindTextureID "wood" = Except.ok (-1) ∧
    ¬ (exampleSentinelRegistry.FindTextureSlot "wood" = Except.ok (-1) ↔
      exampleSentinelRegistry.FindTextureID "wood" = Except.ok (-1)) := by
  refine ⟨by decide, rfl, rfl, ?_⟩
  intro h
  have h1 : exampleSentinelRegistry.FindTextureSlot "wood" = Except.ok (-1) := h.2 rfl
  have h2 : exampleSentinelRegistry.FindTextureSlot "wood" = Except.ok 0 := rfl
  rw [h2] at h1
  injection h1 with h1
  omega

/-- C25, as amended: in a registry of at most 16 loaded textures, either no
loaded entry is tagged `t` and both lookups return -1, or `FindTextureSlot(t)`
returns the first index `k` tagged `t` and `FindTextureID(t)` returns the
handle `m_textureIDs[k].ID` converted to `int`; hence, when no loaded handle
is 0xFFFFFFFF, `FindTextureSlot(t) = -1` if and only if `FindTextureID(t) = -1`. -/
theorem FindTextureID_agrees_with_FindTextureSlot (s : SceneManager R) (t : String)
    (hcap : s.m_loadedTextures ≤ 16) :
    (((∀ i, ¬ s.HasTagAt t i) ∧ s.FindTextureSlot t = Except.ok (-1) ∧
        s.FindTextureID t = Except.ok (-1)) ∨
      ∃ k e, s.IsFirstSlot t k ∧ s.textureAt k = some e ∧
        s.FindTextureSlot t = Except.ok k ∧
        s.FindTextureID t = Except.ok (int_of_uint32 e.ID)) ∧
    ((∀ i e, 0 ≤ i → i < s.m_loadedTextures → s.textureAt i = some e →
        e.ID % 4294967296 ≠ 4294967295) →
      (s.FindTextureSlot t = Except.ok (-1) ↔ s.FindTextureID t = Except.ok (-1))) := by
  have hmain : ((∀ i, ¬ s.HasTagAt t i) ∧ s.FindTextureSlot t = Except.ok (-1) ∧
        s.FindTextureID t = Except.ok (-1)) ∨
      ∃ k e, s.IsFirstSlot t k ∧ s.textureAt k = some e ∧
        s.FindTextureSlot t = Except.ok k ∧
        s.FindTextureID t = Except.ok (int_of_uint32 e.ID) := by
    by_cases hex : ∃ i, s.HasTagAt t i
    · obtain ⟨i, hi⟩ := hex
      obtain ⟨k, hk⟩ := exists_isFirstSlot s t i hi
      obtain ⟨e, he, _⟩ := hk.1.2.2
      exact Or.inr ⟨k, e, hk, he, FindTextureSlot_of_isFirstSlot s t k hk,
        FindTextureID_of_isFirstSlot s t k e hk he⟩
    · have hno : ∀ i, ¬ s.HasTagAt t i := fun i hi => hex ⟨i, hi⟩
      exact Or.inl ⟨hno, FindTextureSlot_of_absent s t hcap hno,
        FindTextureID_of_absent s t hcap hno⟩
  refine ⟨hmain, fun hids => ?_⟩
  rcases hmain with ⟨_, hslot, hid⟩ | ⟨k, e, hk, he, hslot, hid⟩
  · exact ⟨fun _ => hid, fun _ => hslot⟩
  · have hk0 := hk.1.1
    have hne := hids k e hk0 hk.1.2.1 he
    constructor
    · intro h
      rw [hslot] at h
      injection h with h
      omega
    · intro h
      rw [hid] at h
      injection h with h
      exfalso
      unfold int_of_uint32 at h
      split at h <;> omega

/-- The amended statement of C25 at the example registry and the tag "plant". -/
theorem FindTextureID_agrees_with_FindTextureSlot_witness :
    exampleRegistry.m_loadedTextures ≤ 16 ∧
    (((∀ i, ¬ exampleRegistry.HasTagAt "plant" i) ∧
        exampleRegistry.FindTextureSlot "plant" = Except.ok (-1) ∧
        exampleRegistry.FindTextureID "plant" = Except.ok (-1)) ∨
      ∃ k e, exampleRegistry.IsFirstSlot "plant" k ∧ exampleRegistry.textureAt k = some e ∧
        exampleRegistry.FindTextureSlot "plant" = Except.ok k ∧
        exampleRegistry.FindTextureID "plant" = Except.ok (int_of_uint32 e.ID)) ∧
    ((∀ i e, 0 ≤ i → i < exampleRegistry.m_loadedTextures →
        exampleRegistry.textureAt i = some e → e.ID % 4294967296 ≠ 4294967295) →
      (exampleRegistry.FindTextureSlot "plant" = Except.ok (-1) ↔
        exampleRegistry.FindTextureID "plant" = Except.ok (-1))) :=
  ⟨by decide, FindTextureID_agrees_with_FindTextureSlot exampleRegistry "plant" (by decide)⟩

/-- C26: a freshly constructed scene manager has `m_loadedTextures = 0` and
all 16 entries {"/0", (unsigned)-1}; on it `FindTextureSlot` and
`FindTextureID` return -1 for every tag, the placeholder tag "/0" included.
More generally, in every registry of at most 16 loaded textures, a tag carried
by no entry below `m_loadedTextures` yields -1 from both lookups, whatever the
entries from `m_loadedTextures` on hold, and a slot returned by
`FindTextureSlot` is -1 or lies below `m_loadedTextures`. -/
theorem lookups_ignore_unloaded_entries (pShaderManager : Option (ShaderManager R))
    (t : String) :
    (construct pShaderManager).m_loadedTextures = 0 ∧
    (∀ i : Fin 16, (construct pShaderManager).m_textureIDs i =
      { tag := "/0", ID := uint32_of_int (-1) }) ∧
    int_of_uint32 (uint32_of_int (-1)) = -1 ∧
    (construct pShaderManager).FindTextureSlot t = Except.ok (-1) ∧
    (construct pShaderManager).FindTextureID t = Except.ok (-1) ∧
    (construct pShaderManager).FindTextureSlot "/0" = Except.ok (-1) ∧
    (construct pShaderManager).FindTextureID "/0" = Except.ok (-1) ∧
    (∀ s : SceneManager R, s.m_loadedTextures ≤ 16 →
      (∀ i e, 0 ≤ i → i < s.m_loadedTextures → s.textureAt i = some e → e.tag ≠ t) →
      s.FindTextureSlot t = Except.ok (-1) ∧ s.FindTextureID t = Except.ok (-1)) ∧
    (∀ (s : SceneManager R) (k : Int), s.m_loadedTextures ≤ 16 →
      s.FindTextureSlot t = Except.ok k → k = -1 ∨ (0 ≤ k ∧ k < s.m_loadedTextures)) := by
  refine ⟨rfl, fun _ => rfl, by decide, rfl, rfl, rfl, rfl, ?_, ?_⟩
  · intro s hcap hno
    have habs : ∀ i, ¬ s.HasTagAt t i := by
      rintro i ⟨h0, hlt, e, he, htag⟩
      exact hno i e h0 hlt he htag
    exact ⟨FindTextureSlot_of_absent s t hcap habs, FindTextureID_of_absent s t hcap habs⟩
  · intro s k hcap hres
    by_cases hex : ∃ i, s.HasTagAt t i
    · obtain ⟨i, hi⟩ := hex
      obtain ⟨k1, hk1⟩ := exists_isFirstSlot s t i hi
      have := FindTextureSlot_of_isFirstSlot s t k1 hk1
      rw [hres] at this
      injection this with this
      rw [this]
      exact Or.inr ⟨hk1.1.1, hk1.1.2.1⟩
    · have := FindTextureSlot_of_absent s t hcap (fun i hi => hex ⟨i, hi⟩)
      rw [hres] at this
      injection this with this
      exact Or.inl this

/-- The statement of C26 for the tag "/0": in the example registry, where
only entries from index 3 on carry "/0", both lookups return -1. -/
theorem lookups_ignore_unloaded_entries_witness :
    exampleRegistry.m_loadedTextures ≤ 16 ∧
    (∀ i e, 0 ≤ i → i < exampleRegistry.m_loadedTextures →
      exampleRegistry.textureAt i = some e → e.tag ≠ "/0") ∧
    exampleRegistry.textureAt 3 = some { tag := "/0", ID := uint32_of_int (-1) } ∧
    exampleRegistry.FindTextureSlot "/0" = Except.ok (-1) ∧
    exampleRegistry.FindTextureID "/0" = Except.ok (-1) := by
  have hno : ∀ i e, 0 ≤ i → i < exampleRegistry.m_loadedTextures →
      exampleRegistry.textureAt i = some e → e.tag ≠ "/0" := by
    intro i e h0 hlt he
    have hlt3 : i < 3 := hlt
    have hcases : i = 0 ∨ i = 1 ∨ i = 2 := by omega
    rcases hcases with h | h | h <;> subst h <;>
      (have hv := Option.some.inj he; rw [← hv]; decide)
  exact ⟨by decide, hno, rfl,
    (lookups_ignore_unloaded_entries (none : Option (ShaderManager Int)) "/0").2.2.2.2.2.2.2.1
      exampleRegistry (by decide) hno⟩

/-! ### Loading the scene textures -/

/-- The 16 calls of `LoadSceneTextures`, written out. -/
theorem LoadSceneTextures_loads_eq (image : Nat → Option Image) (genID : Nat → Nat) :
    LoadSceneTextures.loads image genID =
      [
        { filename := (LoadSceneTextures.arguments.get ⟨0, by decide⟩).1,
          tag := (LoadSceneTextures.arguments.get ⟨0, by decide⟩).2, image := image 0, genID := genID 0 },
        { filename := (LoadSceneTextures.arguments.get ⟨1, by decide⟩).1,
          tag := (LoadSceneTextures.arguments.get ⟨1, by decide⟩).2, image := image 1, genID := genID 1 },
        { filename := (LoadSceneTextures.arguments.get ⟨2, by decide⟩).1,
          tag := (LoadSceneTextures.arguments.get ⟨2, by decide⟩).2, image := image 2, genID := genID 2 },
        { filename := (LoadSceneTextures.arguments.get ⟨3, by decide⟩).1,
          tag := (LoadSceneTextures.arguments.get ⟨3, by decide⟩).2, image := image 3, genID := genID 3 },
        { filename := (LoadSceneTextures.arguments.get ⟨4, by decide⟩).1,
          tag := (LoadSceneTextures.arguments.get ⟨4, by decide⟩).2, image := image 4, genID := genID 4 },
        { filename := (LoadSceneTextures.arguments.get ⟨5, by decide⟩).1,
          tag := (LoadSceneTextures.arguments.get ⟨5, by decide⟩).2, image := image 5, genID := genID 5 },
        { filename := (LoadSceneTextures.arguments.get ⟨6, by decide⟩).1,
          tag := (LoadSceneTextures.arguments.get ⟨6, by decide⟩).2, image := image 6, genID := genID 6 },
        { filename := (LoadSceneTextures.arguments.get ⟨7, by decide⟩).1,
          tag := (LoadSceneTextures.arguments.get ⟨7, by decide⟩).2, image := image 7, genID := genID 7 },
        { filename := (LoadSceneTextures.arguments.get ⟨8, by decide⟩).1,
          tag := (LoadSceneTextures.arguments.get ⟨8, by decide⟩).2, image := image 8, genID := genID 8 },
        { filename := (LoadSceneTextures.arguments.get ⟨9, by decide⟩).1,
          tag := (LoadSceneTextures.arguments.get ⟨9, by decide⟩).2, image := image 9, genID := genID 9 },
        { filename := (LoadSceneTextures.arguments.get ⟨10, by decide⟩).1,
          tag := (LoadSceneTextures.arguments.get ⟨10, by decide⟩).2, image := image 10, genID := genID 10 },
        { filename := (LoadSceneTextures.arguments.get ⟨11, by decide⟩).1,
          tag := (LoadSceneTextures.arguments.get ⟨11, by decide⟩).2, image := image 11, genID := genID 11 },
        { filename := (LoadSceneTextures.arguments.get ⟨12, by decide⟩).1,
          tag := (LoadSceneTextures.arguments.get ⟨12, by decide⟩).2, image := image 12, genID := genID 12 },
        { filename := (LoadSceneTextures.arguments.get ⟨13, by decide⟩).1,
          tag := (LoadSceneTextures.arguments.get ⟨13, by decide⟩).2, image := image 13, genID := genID 13 },
        { filename := (LoadSceneTextures.arguments.get ⟨14, by decide⟩).1,
          tag := (LoadSceneTextures.arguments.get ⟨14, by decide⟩).2, image := image 14, genID := genID 14 },
        { filename := (LoadSceneTextures.arguments.get ⟨15, by decide⟩).1,
          tag := (LoadSceneTextures.arguments.get ⟨15, by decide⟩).2, image := image 15, genID := genID 15 } ] := rfl

theorem LoadSceneTextures_loads_length (image : Nat → Option Image) (genID : Nat → Nat) :
    (LoadSceneTextures.loads image genID).length = 16 := rfl

theorem LoadSceneTextures_loads_tags (image : Nat → Option Image) (genID : Nat → Nat) :
    (LoadSceneTextures.loads image genID).map TextureLoad.tag =
      LoadSceneTextures.arguments.map Prod.snd := rfl

/-- When the image of each of the 16 calls decodes with 3 or 4 channels, every
call of `LoadSceneTextures` is a decoding one. -/
theorem LoadSceneTextures_loads_decode (image : Nat → Option Image) (genID : Nat → Nat)
    (hall : ∀ k, k < 16 → ∃ img, image k = some img ∧
      (img.colorChannels = 3 ∨ img.colorChannels = 4)) :
    (LoadSceneTextures.loads image genID).filter TextureLoad.decodes =
      LoadSceneTextures.loads image genID := by
  have hdec : ∀ (k : Nat) (f tg : String) (g : Nat), k < 16 →
      TextureLoad.decodes { filename := f, tag := tg, image := image k, genID := g } = true := by
    intro k f tg g hk
    obtain ⟨img, himg, hch⟩ := hall k hk
    simp only [TextureLoad.decodes, himg, Bool.or_eq_true, decide_eq_true_eq]
    exact hch
  rw [List.filter_eq_self, LoadSceneTextures_loads_eq]
  intro l hl
  simp only [List.mem_cons, List.mem_singleton, List.not_mem_nil, or_false] at hl
  rcases hl with h | h | h | h | h | h | h | h | h | h | h | h | h | h | h | h <;>
    rw [h] <;> exact hdec _ _ _ _ (by decide)

/-- On a freshly constructed scene manager `LoadSceneTextures` returns: its 16
calls run without leaving the array, and `BindGLTextures` follows. -/
theorem LoadSceneTextures_fresh (pShaderManager : Option (ShaderManager R)) (gl : List GLCall)
    (image : Nat → Option Image) (genID : Nat → Nat) :
    ∃ s1 glc gl1,
      (construct pShaderManager).CreateGLTextures gl (LoadSceneTextures.loads image genID) =
        Except.ok ((LoadSceneTextures.loads image genID).map TextureLoad.decodes, s1, glc) ∧
      s1.BindGLTextures glc = Except.ok gl1 ∧
      (construct pShaderManager).LoadSceneTextures gl image genID = Except.ok (s1, gl1) ∧
      s1.m_loadedTextures =
        (((LoadSceneTextures.loads image genID).filter TextureLoad.decodes).map
          TextureLoad.tag).length ∧
      (∀ i : Nat,
        i < (((LoadSceneTextures.loads image genID).filter TextureLoad.decodes).map
          TextureLoad.tag).length →
        (s1.textureAt i).map TEXTURE_INFO.tag =
          (((LoadSceneTextures.loads image genID).filter TextureLoad.decodes).map
            TextureLoad.tag)[i]?) ∧
      s1.m_loadedTextures ≤ 16 ∧
      s1.m_pShaderManager = pShaderManager ∧
      s1.m_objectMaterials = [] := by
  have hle : ((LoadSceneTextures.loads image genID).filter TextureLoad.decodes).length ≤ 16 := by
    have h1 := List.length_filter_le TextureLoad.decodes (LoadSceneTextures.loads image genID)
    rw [LoadSceneTextures_loads_length] at h1
    exact h1
  obtain ⟨s1, glc, hrun, hc, hinv, hsh, hmat⟩ :=
    CreateGLTextures_registry (LoadSceneTextures.loads image genID) (construct pShaderManager)
      gl [] rfl (by simpa using hle) (fun i hi => by simp at hi)
  simp only [List.nil_append] at hc hinv
  have hcap : s1.m_loadedTextures ≤ 16 := by
    rw [hc]
    simp only [List.length_map]
    exact_mod_cast hle
  have h0 : 0 ≤ s1.m_loadedTextures := by rw [hc]; exact Int.natCast_nonneg _
  obtain ⟨calls, hbind, _⟩ :=
    BindGLTextures_loop_spec s1 hcap s1.m_loadedTextures.toNat 0 glc (le_refl _) h0 (by omega)
  have hbind2 : s1.BindGLTextures glc = Except.ok (glc ++ calls) := hbind
  refine ⟨s1, glc, glc ++ calls, hrun, hbind2, ?_, hc, hinv, hcap, hsh, hmat⟩
  unfold LoadSceneTextures
  rw [hrun]
  simp only
  rw [hbind2]

/-- C24: `LoadSceneTextures` makes exactly 16 `CreateGLTexture` calls, with
pairwise distinct tags, and then calls `BindGLTextures` once; on a freshly
constructed scene manager it returns with `m_loadedTextures <= 16` (the number
of calls that decoded) for every pattern of load successes and failures, and
when all 16 images decode with 3 or 4 channels every tag resolves to its call
position, "wood" to 0, "metallic" to 5 and "cone" to 15. -/
theorem LoadSceneTextures_slots (pShaderManager : Option (ShaderManager R)) (gl : List GLCall)
    (image : Nat → Option Image) (genID : Nat → Nat) :
    (LoadSceneTextures.loads image genID).length = 16 ∧
    ((LoadSceneTextures.loads image genID).map TextureLoad.tag).Nodup ∧
    ∃ s1 glc gl1,
      (construct pShaderManager).CreateGLTextures gl (LoadSceneTextures.loads image genID) =
        Except.ok ((LoadSceneTextures.loads image genID).map TextureLoad.decodes, s1, glc) ∧
      s1.BindGLTextures glc = Except.ok gl1 ∧
      (construct pShaderManager).LoadSceneTextures gl image genID = Except.ok (s1, gl1) ∧
      s1.m_loadedTextures =
        ((LoadSceneTextures.loads image genID).filter TextureLoad.decodes).length ∧
      s1.m_loadedTextures ≤ 16 ∧
      ((∀ k, k < 16 → ∃ img, image k = some img ∧
          (img.colorChannels = 3 ∨ img.colorChannels = 4)) →
        s1.m_loadedTextures = 16 ∧
        (∀ (k : Nat) (hk : k < LoadSceneTextures.arguments.length),
          s1.FindTextureSlot (LoadSceneTextures.arguments.get ⟨k, hk⟩).2 =
            Except.ok (k : Int)) ∧
        s1.FindTextureSlot "wood" = Except.ok 0 ∧
        s1.FindTextureSlot "metallic" = Except.ok 5 ∧
        s1.FindTextureSlot "cone" = Except.ok 15) := by
  have hnodup : ((LoadSceneTextures.loads image genID).map TextureLoad.tag).Nodup := by
    rw [LoadSceneTextures_loads_tags]
    decide
  obtain ⟨s1, glc, gl1, hrun, hbind, hload, hc, hinv, hcap, _, _⟩ :=
    LoadSceneTextures_fresh pShaderManager gl image genID
  refine ⟨rfl, hnodup, s1, glc, gl1, hrun, hbind, hload, by simpa using hc, hcap, ?_⟩
  intro hall
  have hfilter := LoadSceneTextures_loads_decode image genID hall
  rw [hfilter, LoadSceneTextures_loads_tags] at hc hinv
  have hslot : ∀ (k : Nat) (hk : k < LoadSceneTextures.arguments.length),
      s1.FindTextureSlot (LoadSceneTextures.arguments.get ⟨k, hk⟩).2 = Except.ok (k : Int) := by
    intro k hk
    have hk1 : k < (LoadSceneTextures.arguments.map Prod.snd).length := by simpa using hk
    have := FindTextureSlot_of_nodup s1 (LoadSceneTextures.arguments.map Prod.snd) hc
      (by decide) hinv k hk1
    simpa using this
  exact ⟨by rw [hc]; rfl, hslot, hslot 0 (by decide), hslot 5 (by decide),
    hslot 15 (by decide)⟩

/-- The statement of C24 on a fresh scene manager when every image decodes
with 3 channels. -/
theorem LoadSceneTextures_slots_witness :
    (∀ k, k < 16 → ∃ img, (fun _ : Nat => some (⟨64, 64, 3⟩ : Image)) k = some img ∧
      (img.colorChannels = 3 ∨ img.colorChannels = 4)) ∧
    ∃ s1 gl1, (construct (none : Option (ShaderManager Int))).LoadSceneTextures []
        (fun _ => some ⟨64, 64, 3⟩) (fun k => k + 1) = Except.ok (s1, gl1) ∧
      s1.m_loadedTextures = 16 ∧
      s1.FindTextureSlot "wood" = Except.ok 0 ∧
      s1.FindTextureSlot "metallic" = Except.ok 5 ∧
      s1.FindTextureSlot "cone" = Except.ok 15 := by
  have hall : ∀ k, k < 16 → ∃ img, (fun _ : Nat => some (⟨64, 64, 3⟩ : Image)) k = some img ∧
      (img.colorChannels = 3 ∨ img.colorChannels = 4) :=
    fun _ _ => ⟨_, rfl, Or.inl rfl⟩
  obtain ⟨_, _, s1, glc, gl1, _, _, hload, _, _, hslots⟩ :=
    LoadSceneTextures_slots (none : Option (ShaderManager Int)) []
      (fun _ => some ⟨64, 64, 3⟩) (fun k => k + 1)
  obtain ⟨h16, _, hw, hm, hcone⟩ := hslots hall
  exact ⟨hall, s1, gl1, hload, h16, hw, hm, hcone⟩

/-! ### The texture tags of the render pass -/

theorem textureAt_of_sameRegistry (s2 s1 : SceneManager R) (h : SameRegistry s2 s1) (i : Int) :
    s2.textureAt i = s1.textureAt i := by
  unfold textureAt
  rw [h.1]

/-- The result of `FindTextureSlot` depends on the texture registry only. -/
theorem FindTextureSlot_of_sameRegistry (s2 s1 : SceneManager R) (h : SameRegistry s2 s1)
    (t : String) : s2.FindTextureSlot t = s1.FindTextureSlot t := by
  have hloop : ∀ (fuel : Nat) (index slot : Int) (b : Bool),
      FindTextureSlot.loop s2 t fuel index slot b = FindTextureSlot.loop s1 t fuel index slot b := by
    intro fuel
    induction fuel with
    | zero => intro index slot b; simp only [FindTextureSlot.loop, h.2.1]
    | succ fuel ih =>
      intro index slot b
      simp only [FindTextureSlot.loop, h.2.1, textureAt_of_sameRegistry s2 s1 h, ih]
  unfold FindTextureSlot
  rw [h.2.1, hloop]

/-- When all 16 images decode, no entry loaded by `LoadSceneTextures` carries
a tag outside the 16 tags of its calls. -/
theorem LoadSceneTextures_no_other_tag (s1 : SceneManager R) (t : String)
    (hc : s1.m_loadedTextures =
      ((LoadSceneTextures.arguments.map Prod.snd).length : Nat))
    (hinv : ∀ i : Nat, i < (LoadSceneTextures.arguments.map Prod.snd).length →
      (s1.textureAt i).map TEXTURE_INFO.tag = (LoadSceneTextures.arguments.map Prod.snd)[i]?)
    (ht : t ∉ LoadSceneTextures.arguments.map Prod.snd) : ∀ i, ¬ s1.HasTagAt t i := by
  rintro i ⟨h0, hlt, e, he, htag⟩
  have hi : i.toNat < (LoadSceneTextures.arguments.map Prod.snd).length := by omega
  have h1 := hinv i.toNat hi
  rw [Int.toNat_of_nonneg h0, he] at h1
  simp only [Option.map_some'] at h1
  exact ht (htag ▸ List.getElem?_mem h1.symm)

/-- The tags passed to `SetShaderTexture` in `RenderScene` do not depend on
the type of the scalars. -/
theorem RenderScene_textureTags_eq (R : Type) [DivisionRing R] :
    textureTags (RenderScene.calls : List (SceneCall R)) =
      textureTags (RenderScene.calls : List (SceneCall ℚ)) := by
  simp only [RenderScene.calls, RenderScene.calls0, RenderScene.calls1, RenderScene.calls2,
    RenderScene.calls3, RenderScene.calls4, RenderScene.calls5, RenderScene.calls6,
    RenderScene.calls7, RenderScene.calls8, RenderScene.calls9, RenderScene.calls10,
    List.cons_append, List.nil_append, textureTags]

/-- C22 (the code departs from the claim): `RenderScene` calls
`SetShaderTexture("abstract")` (call number 20, source line 756), a tag that
none of the 16 calls of `LoadSceneTextures` registers (abstract.jpg is
registered under "cone"); it is the only such tag among the 53
`SetShaderTexture` calls. After a `LoadSceneTextures` in which all 16 loads
succeed, in every state with that registry and a non-null shader manager the
call pushes the sampler value -1. -/
theorem RenderScene_passes_unregistered_texture_tag :
    (RenderScene.calls : List (SceneCall ℚ))[20]? =
      some (SceneCall.SetShaderTexture "abstract") ∧
    "abstract" ∉ LoadSceneTextures.arguments.map Prod.snd ∧
    (textureTags (RenderScene.calls : List (SceneCall ℚ))).length = 53 ∧
    (textureTags (RenderScene.calls : List (SceneCall ℚ))).filter
      (fun t => decide (t ∉ LoadSceneTextures.arguments.map Prod.snd)) = ["abstract"] ∧
    ∃ s1 gl1, (construct (some []) : SceneManager ℚ).LoadSceneTextures []
        (fun _ => some ⟨64, 64, 3⟩) (fun k => k + 1) = Except.ok (s1, gl1) ∧
      s1.m_loadedTextures = 16 ∧
      s1.FindTextureSlot "abstract" = Except.ok (-1) ∧
      ∀ (s2 : SceneManager ℚ) (sh : ShaderManager ℚ), SameRegistry s2 s1 →
        s2.m_pShaderManager = some sh →
        s2.SetShaderTexture "abstract" = Except.ok { s2 with
          m_pShaderManager := some (sh ++ [(g_UseTextureName, UniformValue.int 1),
            (g_TextureValueName, UniformValue.sampler2D (-1))]) } := by
  have hall : ∀ k, k < 16 → ∃ img, (fun _ : Nat => some (⟨64, 64, 3⟩ : Image)) k = some img ∧
      (img.colorChannels = 3 ∨ img.colorChannels = 4) :=
    fun _ _ => ⟨_, rfl, Or.inl rfl⟩
  obtain ⟨s1, glc, gl1, _, _, hload, hc, hinv, hcap, _, _⟩ :=
    LoadSceneTextures_fresh (some ([] : ShaderManager ℚ)) []
      (fun _ => some ⟨64, 64, 3⟩) (fun k => k + 1)
  rw [LoadSceneTextures_loads_decode _ _ hall, LoadSceneTextures_loads_tags] at hc hinv
  have habs := LoadSceneTextures_no_other_tag s1 "abstract" hc hinv (by decide)
  have hslot := FindTextureSlot_of_absent s1 "abstract" hcap habs
  refine ⟨rfl, by decide, by decide, by decide, s1, gl1, hload, by rw [hc]; rfl, hslot, ?_⟩
  intro s2 sh hreg hsh
  exact SetShaderTexture_of_slot s2 "abstract" sh (-1) hsh
    (by rw [FindTextureSlot_of_sameRegistry s2 s1 hreg, hslot])

/-! ### The material tags of the render pass -/

/-- The tags passed to `SetShaderMaterial` in `RenderScene` do not depend on
the type of the scalars. -/
theorem RenderScene_materialTags_eq (R : Type) [DivisionRing R] :
    materialTags (RenderScene.calls : List (SceneCall R)) =
      materialTags (RenderScene.calls : List (SceneCall ℚ)) := by
  simp only [RenderScene.calls, RenderScene.calls0, RenderScene.calls1, RenderScene.calls2,
    RenderScene.calls3, RenderScene.calls4, RenderScene.calls5, RenderScene.calls6,
    RenderScene.calls7, RenderScene.calls8, RenderScene.calls9, RenderScene.calls10,
    List.cons_append, List.nil_append, materialTags]

theorem materialTags_append (pre post : List (SceneCall R)) :
    materialTags (pre ++ post) = materialTags pre ++ materialTags post := by
  induction pre with
  | nil => rfl
  | cons c rest ih => cases c <;> simp [materialTags, ih]

theorem execCall_nonnull [Ring R] (G : glm.ScalarFns R) (stale : OBJECT_MATERIAL R)
    (s s1 : SceneManager R) (c : SceneCall R) (hsh : s.m_pShaderManager ≠ none)
    (h : s.execCall G stale c = Except.ok s1) : s1.m_pShaderManager ≠ none := by
  obtain ⟨sh, hshv⟩ : ∃ sh, s.m_pShaderManager = some sh := by
    cases h1 : s.m_pShaderManager with
    | none => exact absurd h1 hsh
    | some sh => exact ⟨sh, rfl⟩
  cases c with
  | SetTransformations scaleXYZ x y z positionXYZ =>
    simp only [execCall, Except.ok.injEq] at h
    rw [← h]; simp [SetTransformations, hshv]
  | SetShaderColor r g b a =>
    simp only [execCall, Except.ok.injEq] at h
    rw [← h]; simp [SetShaderColor, hshv]
  | SetShaderTexture t =>
    rcases SetShaderTexture_cases s s1 t h with heq | ⟨sh1, k, _, heq⟩ <;> rw [heq]
    · exact hsh
    · simp
  | SetShaderMaterial t =>
    rcases SetShaderMaterial_cases s s1 t stale h with heq | ⟨sh1, m1, _, heq⟩ <;> rw [heq]
    · exact hsh
    · simp
  | SetTextureUVScale u v =>
    simp only [execCall, Except.ok.injEq] at h
    rw [← h]; simp [SetTextureUVScale, hshv]
  | DrawBoxMesh => simp only [execCall, Except.ok.injEq] at h; rw [← h]; exact hsh
  | DrawPlaneMesh => simp only [execCall, Except.ok.injEq] at h; rw [← h]; exact hsh
  | DrawConeMesh => simp only [execCall, Except.ok.injEq] at h; rw [← h]; exact hsh
  | DrawCylinderMesh => simp only [execCall, Except.ok.injEq] at h; rw [← h]; exact hsh
  | DrawTorusMesh => simp only [execCall, Except.ok.injEq] at h; rw [← h]; exact hsh
  | DrawSphereMesh => simp only [execCall, Except.ok.injEq] at h; rw [← h]; exact hsh

theorem execCalls_nonnull [Ring R] (G : glm.ScalarFns R) (stale : Nat → OBJECT_MATERIAL R)
    (calls : List (SceneCall R)) :
    ∀ (k : Nat) (s s1 : SceneManager R), s.m_pShaderManager ≠ none →
      execCalls G stale k s calls = Except.ok s1 → s1.m_pShaderManager ≠ none := by
  induction calls with
  | nil =>
    intro k s s1 hsh h
    simp only [execCalls, Except.ok.injEq] at h
    rw [← h]; exact hsh
  | cons c rest ih =>
    intro k s s1 hsh h
    unfold execCalls at h
    cases hc : s.execCall G (stale k) c with
    | error f => rw [hc] at h; cases h
    | ok s2 =>
      rw [hc] at h
      exact ih (k + 1) s2 s1 (execCall_nonnull G (stale k) s s2 c hsh hc) h

/-- On a freshly constructed scene manager with a non-null shader manager
`PrepareScene` returns; afterwards the material list is the six materials of
`DefineObjectMaterials`, the shader manager is non-null and at most 16
textures are loaded. -/
theorem PrepareScene_fresh [DivisionRing R] (sh0 : ShaderManager R) (gl : List GLCall)
    (image : Nat → Option Image) (genID : Nat → Nat) :
    ∃ s gl1, (construct (some sh0)).PrepareScene gl image genID = Except.ok (s, gl1) ∧
      s.m_objectMaterials =
        (DefineObjectMaterials (construct (some sh0) : SceneManager R)).m_objectMaterials ∧
      s.m_pShaderManager = some (sh0 ++ SetupSceneLights.pushes) ∧
      s.m_loadedTextures ≤ 16 := by
  obtain ⟨s1, glc, gl1, _, _, hload, _, _, hcap, hsh, hmat⟩ :=
    LoadSceneTextures_fresh (some sh0) gl image genID
  refine ⟨{ DefineObjectMaterials s1 with
      m_pShaderManager := some (sh0 ++ SetupSceneLights.pushes) }, gl1, ?_, ?_, rfl, hcap⟩
  · unfold PrepareScene
    rw [hload]
    have hsh1 : (DefineObjectMaterials s1).m_pShaderManager = some sh0 := hsh
    simp only [SetupSceneLights, hsh1]
  · show (DefineObjectMaterials s1).m_objectMaterials = _
    simp only [DefineObjectMaterials, hmat]
    rfl

/-- C23: the six tags appended by `DefineObjectMaterials` (gold, cement, wood,
tile, glass, clay) are pairwise distinct and every tag passed to
`SetShaderMaterial` in `RenderScene` is one of them; hence, after one
`PrepareScene` on a freshly constructed scene manager with a non-null shader
manager, every `SetShaderMaterial(t)` call of `RenderScene`, made in the state
the preceding calls leave, pushes exactly the five field values of the
material that `DefineObjectMaterials` defines under the tag `t`. -/
theorem RenderScene_material_tags_defined [DivisionRing R] (G : glm.ScalarFns R)
    (sh0 : ShaderManager R) (gl : List GLCall) (image : Nat → Option Image)
    (genID : Nat → Nat) (stale : Nat → OBJECT_MATERIAL R) :
    (DefineObjectMaterials (construct (some sh0) : SceneManager R)).m_objectMaterials.map
      OBJECT_MATERIAL.tag = ["gold", "cement", "wood", "tile", "glass", "clay"] ∧
    (["gold", "cement", "wood", "tile", "glass", "clay"] : List String).Nodup ∧
    (∀ t ∈ materialTags (RenderScene.calls : List (SceneCall R)),
      t ∈ ["gold", "cement", "wood", "tile", "glass", "clay"]) ∧
    ∃ s gl1, (construct (some sh0)).PrepareScene gl image genID = Except.ok (s, gl1) ∧
      s.m_pShaderManager ≠ none ∧ s.m_loadedTextures ≤ 16 ∧
      ∀ (pre : List (SceneCall R)) (t : String) (post : List (SceneCall R))
        (s1 : SceneManager R),
        RenderScene.calls = pre ++ SceneCall.SetShaderMaterial t :: post →
        execCalls G stale 0 s pre = Except.ok s1 →
        ∃ (i : Nat) (m : OBJECT_MATERIAL R) (sh1 : ShaderManager R),
          (DefineObjectMaterials (construct (some sh0) :
            SceneManager R)).m_objectMaterials[i]? = some m ∧
          m.tag = t ∧ s1.m_pShaderManager = some sh1 ∧
          s1.SetShaderMaterial t (stale pre.length) =
            Except.ok { s1 with m_pShaderManager := some (sh1 ++ materialPushes m) } := by
  have htags : (DefineObjectMaterials (construct (some sh0) :
      SceneManager R)).m_objectMaterials.map OBJECT_MATERIAL.tag =
      ["gold", "cement", "wood", "tile", "glass", "clay"] := by
    simp [DefineObjectMaterials, construct]
  have hused : ∀ t ∈ materialTags (RenderScene.calls : List (SceneCall R)),
      t ∈ ["gold", "cement", "wood", "tile", "glass", "clay"] := by
    rw [RenderScene_materialTags_eq R]
    decide
  obtain ⟨s, gl1, hprep, hmat, hsh, hcap⟩ := PrepareScene_fresh sh0 gl image genID
  have hne : s.m_pShaderManager ≠ none := by rw [hsh]; simp
  refine ⟨htags, by decide, hused, s, gl1, hprep, hne, hcap, ?_⟩
  intro pre t post s1 hsplit hrun
  have ht : t ∈ materialTags (RenderScene.calls : List (SceneCall R)) := by
    rw [hsplit, materialTags_append]
    simp [materialTags]
  have ht6 := hused t ht
  have hreg := execCalls_sameRegistry G stale pre 0 s s1 hrun
  have hmat1 : s1.m_objectMaterials =
      (DefineObjectMaterials (construct (some sh0) : SceneManager R)).m_objectMaterials :=
    hreg.2.2.trans hmat
  rw [← htags, ← hmat1] at ht6
  obtain ⟨mj, hmj, hmjt⟩ := List.mem_map.1 ht6
  obtain ⟨j, hj⟩ := List.getElem?_of_mem hmj
  obtain ⟨i, m, hm⟩ := exists_isFirstMaterial s1 t j mj hj hmjt
  obtain ⟨sh1, hsh1⟩ : ∃ sh1, s1.m_pShaderManager = some sh1 := by
    have := execCalls_nonnull G stale pre 0 s s1 hne hrun
    cases h1 : s1.m_pShaderManager with
    | none => exact absurd h1 this
    | some sh1 => exact ⟨sh1, rfl⟩
  refine ⟨i, m, sh1, by rw [← hmat1]; exact hm.1, hm.2.1, hsh1, ?_⟩
  exact SetShaderMaterial_of_found s1 t (stale pre.length) (copyMaterial (stale pre.length) m)
    sh1 hsh1 (FindMaterial_of_isFirstMaterial s1 t i m hm (stale pre.length))

/-- The statement of C23 at the first `SetShaderMaterial` call of
`RenderScene` (call number 5, `SetShaderMaterial("cement")`). -/
theorem RenderScene_material_tags_defined_witness :
    ∃ (s : SceneManager ℚ) (gl1 : List GLCall) (s1 : SceneManager ℚ),
      (construct (some [])).PrepareScene [] (fun _ => some ⟨64, 64, 3⟩) (fun k => k + 1) =
        Except.ok (s, gl1) ∧
      (RenderScene.calls : List (SceneCall ℚ)) =
        (RenderScene.calls : List (SceneCall ℚ)).take 5 ++
          SceneCall.SetShaderMaterial "cement" ::
            (RenderScene.calls : List (SceneCall ℚ)).drop 6 ∧
      execCalls rationalScalarFns (fun _ => staleMaterial) 0 s
        ((RenderScene.calls : List (SceneCall ℚ)).take 5) = Except.ok s1 ∧
      ∃ (i : Nat) (m : OBJECT_MATERIAL ℚ) (sh1 : ShaderManager ℚ),
        (DefineObjectMaterials (construct (some []) :
          SceneManager ℚ)).m_objectMaterials[i]? = some m ∧
        m.tag = "cement" ∧ s1.m_pShaderManager = some sh1 ∧
        s1.SetShaderMaterial "cement"
            ((fun _ => staleMaterial) ((RenderScene.calls : List (SceneCall ℚ)).take 5).length) =
          Except.ok { s1 with m_pShaderManager := some (sh1 ++ materialPushes m) } := by
  obtain ⟨_, _, _, s, gl1, hprep, hne, hcap, hall⟩ :=
    RenderScene_material_tags_defined rationalScalarFns ([] : ShaderManager ℚ) []
      (fun _ => some ⟨64, 64, 3⟩) (fun k => k + 1) (fun _ => staleMaterial)
  have hsplit : (RenderScene.calls : List (SceneCall ℚ)) =
      (RenderScene.calls : List (SceneCall ℚ)).take 5 ++
        SceneCall.SetShaderMaterial "cement" ::
          (RenderScene.calls : List (SceneCall ℚ)).drop 6 := by
    have h1 : (RenderScene.calls : List (SceneCall ℚ)).drop 5 =
        SceneCall.SetShaderMaterial "cement" ::
          (RenderScene.calls : List (SceneCall ℚ)).drop 6 := rfl
    rw [← h1, List.take_append_drop]
  obtain ⟨s1, hs1⟩ := execCalls_returns rationalScalarFns (fun _ => staleMaterial)
    ((RenderScene.calls : List (SceneCall ℚ)).take 5) 0 s hne hcap
  exact ⟨s, gl1, s1, hprep, hsplit, hs1, hall _ _ _ s1 hsplit hs1⟩

end SceneManager

namespace ViewManager

variable {R : Type} [LinearOrderedField R]

/-! ### Rounding to binary32 at the values of the examples -/

/-- The rounding of a non-negative value, from the two integer computations
that make it up. -/
theorem nearest_of_parts (x : ℚ) (n d k m : Nat) (hx : ¬ x < 0) (hn : x.num.natAbs = n)
    (hd : x.den = d) (hk : binary32.ulpIndex n d = k)
    (hm : binary32.roundHalfEven (n * 2 ^ (149 - k)) (d * 2 ^ (k - 149)) = m) :
    binary32.nearest x =
      ((m * 2 ^ (k - 149) : Nat) : ℚ) / ((2 ^ (149 - k) : Nat) : ℚ) := by
  unfold binary32.nearest binary32.magnitude binary32.significand
  rw [if_neg hx, hn, hd, hk, hm]

theorem nearest_zero : binary32.nearest 0 = 0 := by
  rw [nearest_of_parts 0 0 1 0 0 (by norm_num) (by simp) (by simp) (by decide) (by decide)]
  norm_num

theorem nearest_four : binary32.nearest 4 = 4 := by
  rw [nearest_of_parts 4 4 1 128 8388608 (by norm_num) (by simp) (by simp) (by decide)
    (by decide)]
  norm_num

theorem nearest_hundred : binary32.nearest 100 = 100 := by
  rw [nearest_of_parts 100 100 1 132 13107200 (by norm_num) (by simp) (by simp) (by decide)
    (by decide)]
  norm_num

theorem nearest_three_hundred : binary32.nearest 300 = 300 := by
  rw [nearest_of_parts 300 300 1 134 9830400 (by norm_num) (by simp) (by simp) (by decide)
    (by decide)]
  norm_num

theorem nearest_six_hundred : binary32.nearest 600 = 600 := by
  rw [nearest_of_parts 600 600 1 135 9830400 (by norm_num) (by simp) (by simp) (by decide)
    (by decide)]
  norm_num

/-- The odd integer `2 ^ 24 + 1` is no binary32 value: it rounds to `2 ^ 24`. -/
theorem nearest_16777217 : binary32.nearest 16777217 = 16777216 := by
  rw [nearest_of_parts 16777217 16777217 1 150 8388608 (by norm_num) (by simp) (by simp)
    (by decide) (by decide)]
  norm_num

/-- The odd integer `2 ^ 24 + 3` rounds to `2 ^ 24 + 4`. -/
theorem nearest_16777219 : binary32.nearest 16777219 = 16777220 := by
  rw [nearest_of_parts 16777219 16777219 1 150 8388610 (by norm_num) (by simp) (by simp)
    (by decide) (by decide)]
  norm_num

/-- A conversion below the overflow threshold produces the nearest value. -/
theorem convert_of_lt (x : ℚ) (hx : |x| < binary32.overflowThreshold) :
    binary32.convert x = Except.ok (binary32.nearest x) := by
  unfold binary32.convert
  rw [if_neg (not_le.mpr hx)]

theorem overflowThreshold_pos : (0 : ℚ) < binary32.overflowThreshold := by
  unfold binary32.overflowThreshold
  norm_num

/-- A `float` subtracted from itself gives 0. -/
theorem sub_self_eq_zero (a : ℚ) : binary32.sub a a = Except.ok 0 := by
  unfold binary32.sub
  rw [sub_self, convert_of_lt 0 (by rw [abs_zero]; exact overflowThreshold_pos), nearest_zero]

/-! ### The mouse callback -/

/-- The first mouse event: the converted position is stored and the camera
receives the offsets 0. -/
theorem Mouse_Position_Callback_first (C : CameraMethods ℚ) (g : ViewGlobals ℚ) (x y : ℚ)
    (hx : |x| < binary32.overflowThreshold) (hy : |y| < binary32.overflowThreshold)
    (hfirst : g.gFirstMouse = true) :
    Mouse_Position_Callback C g x y = Except.ok { g with
      gLastX := binary32.nearest x
      gLastY := binary32.nearest y
      gFirstMouse := false
      g_pCamera := g.g_pCamera.map (fun camera => C.ProcessMouseMovement camera 0 0) } := by
  unfold Mouse_Position_Callback
  rw [convert_of_lt x hx]
  simp only
  rw [convert_of_lt y hy]
  simp only [hfirst, if_true]
  rw [sub_self_eq_zero, sub_self_eq_zero]
  simp only
  cases hc : g.g_pCamera <;> simp only [Option.map]

/-- A later mouse event: the converted position is stored and the camera
receives the rounded differences to the stored position. -/
theorem Mouse_Position_Callback_later (C : CameraMethods ℚ) (g : ViewGlobals ℚ) (x y : ℚ)
    (hx : |x| < binary32.overflowThreshold) (hy : |y| < binary32.overflowThreshold)
    (hfirst : g.gFirstMouse = false)
    (hxo : |binary32.nearest x - g.gLastX| < binary32.overflowThreshold)
    (hyo : |g.gLastY - binary32.nearest y| < binary32.overflowThreshold) :
    Mouse_Position_Callback C g x y = Except.ok { g with
      gLastX := binary32.nearest x
      gLastY := binary32.nearest y
      g_pCamera := g.g_pCamera.map (fun camera => C.ProcessMouseMovement camera
        (binary32.nearest (binary32.nearest x - g.gLastX))
        (binary32.nearest (g.gLastY - binary32.nearest y))) } := by
  unfold Mouse_Position_Callback
  rw [convert_of_lt x hx]
  simp only
  rw [convert_of_lt y hy]
  simp only [hfirst, Bool.false_eq_true, if_false]
  unfold binary32.sub
  rw [convert_of_lt _ hxo, convert_of_lt _ hyo]
  simp only
  cases hc : g.g_pCamera <;> simp only [Option.map]

/-- A magnitude below `2 ^ 127` is below the overflow threshold. -/
theorem abs_lt_overflowThreshold (a : ℚ) (h : |a| < 2 ^ 127) :
    |a| < binary32.overflowThreshold := by
  refine lt_trans h ?_
  unfold binary32.overflowThreshold
  norm_num

/-- C27 as stated fails: the callback stores the position converted to `float`.
After the first event at `x = 16777217` (a `double` value that is no `float`
value) `gLastX` is 16777216, not `x`; the next event at `x = 16777219` stores
16777220 and hands the camera the X offset 4, which is neither
`x - previous gLastX = 3` nor the distance 2 of the two positions. -/
theorem Mouse_Position_Callback_stores_rounded_position :
    ∃ g1 g2 : ViewGlobals ℚ,
      Mouse_Position_Callback exampleCameraMethods exampleMouseGlobals 16777217 0 =
        Except.ok g1 ∧
      g1.gLastX = 16777216 ∧ g1.gLastX ≠ 16777217 ∧ g1.gLastY = 0 ∧
      g1.g_pCamera = some ⟨⟨0, 5, 12⟩, ⟨0, -(1 / 2), -2⟩, ⟨0, 1, 0⟩, 80⟩ ∧
      Mouse_Position_Callback exampleCameraMethods g1 16777219 0 = Except.ok g2 ∧
      g2.gLastX = 16777220 ∧ g2.gLastX ≠ 16777219 ∧
      g2.g_pCamera = some ⟨⟨0, 5, 12⟩, ⟨4, -(1 / 2), -2⟩, ⟨0, 1, 0⟩, 80⟩ ∧
      g2.g_pCamera ≠ g1.g_pCamera.map (fun camera =>
        exampleCameraMethods.ProcessMouseMovement camera (16777219 - g1.gLastX)
          (g1.gLastY - 0)) := by
  refine ⟨{ exampleMouseGlobals with gLastX := 16777216, gLastY := 0, gFirstMouse := false },
    { exampleMouseGlobals with
      gLastX := 16777220, gLastY := 0, gFirstMouse := false
      g_pCamera := some ⟨⟨0, 5, 12⟩, ⟨4, -(1 / 2), -2⟩, ⟨0, 1, 0⟩, 80⟩ },
    ?_, rfl, ?_, rfl, rfl, ?_, rfl, ?_, rfl, ?_⟩
  · rw [Mouse_Position_Callback_first _ _ _ _ (abs_lt_overflowThreshold _ (by norm_num))
      (abs_lt_overflowThreshold _ (by norm_num)) rfl, nearest_16777217, nearest_zero]
    simp [exampleMouseGlobals, exampleCameraMethods]
  · show (16777216 : ℚ) ≠ 16777217
    norm_num
  · have e1 : binary32.nearest (16777220 - 16777216) = 4 := by
      rw [show ((16777220 : ℚ) - 16777216) = 4 by norm_num]
      exact nearest_four
    have e2 : binary32.nearest (0 - 0) = 0 := by
      rw [sub_zero]
      exact nearest_zero
    rw [Mouse_Position_Callback_later _ _ _ _ (abs_lt_overflowThreshold _ (by norm_num))
      (abs_lt_overflowThreshold _ (by norm_num)) rfl
      (by
        show |binary32.nearest 16777219 - 16777216| < binary32.overflowThreshold
        rw [nearest_16777219]
        exact abs_lt_overflowThreshold _ (by norm_num))
      (by
        show |(0 : ℚ) - binary32.nearest 0| < binary32.overflowThreshold
        rw [nearest_zero]
        exact abs_lt_overflowThreshold _ (by norm_num))]
    show Except.ok { exampleMouseGlobals with
      gLastX := binary32.nearest 16777219
      gLastY := binary32.nearest 0
      gFirstMouse := false
      g_pCamera := (exampleMouseGlobals.g_pCamera).map (fun camera =>
        exampleCameraMethods.ProcessMouseMovement camera
          (binary32.nearest (binary32.nearest 16777219 - 16777216))
          (binary32.nearest (0 - binary32.nearest 0))) } = _
    rw [nearest_16777219, nearest_zero, e1, e2]
    simp [exampleMouseGlobals, exampleCameraMethods]
  · show (16777220 : ℚ) ≠ 16777219
    norm_num
  · show some _ ≠ (exampleMouseGlobals.g_pCamera).map _
    simp [exampleMouseGlobals, exampleCameraMethods]
    norm_num

/-- C27 (amended): for every mouse position `(x, y)` whose conversion to
`float` is in range, `Mouse_Position_Callback` returns and afterwards
`gLastX = (float)x`, `gLastY = (float)y` and `gFirstMouse = false`. On the
first event a non-null camera receives both offsets 0, whatever the stored
last position. On a later event whose `float` differences are in range it
receives the rounded differences
`((float)x - previous gLastX, previous gLastY - (float)y)`. When `x`, `y` and
the two differences are `float` values these are `gLastX = x`, `gLastY = y`
and the offsets `(x - previous gLastX, previous gLastY - y)`. A null camera
stays null and the other file-scope variables are unchanged. -/
theorem Mouse_Position_Callback_offsets (C : CameraMethods ℚ) (g : ViewGlobals ℚ) (x y : ℚ)
    (hx : |x| < binary32.overflowThreshold) (hy : |y| < binary32.overflowThreshold) :
    (g.gFirstMouse = true →
      ∃ g1 : ViewGlobals ℚ, Mouse_Position_Callback C g x y = Except.ok g1 ∧
        g1.gLastX = binary32.nearest x ∧ g1.gLastY = binary32.nearest y ∧
        g1.gFirstMouse = false ∧
        g1.g_pCamera = g.g_pCamera.map (fun camera => C.ProcessMouseMovement camera 0 0) ∧
        g1.g_CameraSpeed = g.g_CameraSpeed ∧ g1.gDeltaTime = g.gDeltaTime ∧
        g1.gLastFrame = g.gLastFrame ∧
        g1.bOrthographicProjection = g.bOrthographicProjection) ∧
    (g.gFirstMouse = false →
      |binary32.nearest x - g.gLastX| < binary32.overflowThreshold →
      |g.gLastY - binary32.nearest y| < binary32.overflowThreshold →
      ∃ g1 : ViewGlobals ℚ, Mouse_Position_Callback C g x y = Except.ok g1 ∧
        g1.gLastX = binary32.nearest x ∧ g1.gLastY = binary32.nearest y ∧
        g1.gFirstMouse = false ∧
        g1.g_pCamera = g.g_pCamera.map (fun camera => C.ProcessMouseMovement camera
          (binary32.nearest (binary32.nearest x - g.gLastX))
          (binary32.nearest (g.gLastY - binary32.nearest y))) ∧
        g1.g_CameraSpeed = g.g_CameraSpeed ∧ g1.gDeltaTime = g.gDeltaTime ∧
        g1.gLastFrame = g.gLastFrame ∧
        g1.bOrthographicProjection = g.bOrthographicProjection) ∧
    (g.gFirstMouse = false →
      binary32.nearest x = x → binary32.nearest y = y →
      binary32.nearest (x - g.gLastX) = x - g.gLastX →
      binary32.nearest (g.gLastY - y) = g.gLastY - y →
      |x - g.gLastX| < binary32.overflowThreshold →
      |g.gLastY - y| < binary32.overflowThreshold →
      ∃ g1 : ViewGlobals ℚ, Mouse_Position_Callback C g x y = Except.ok g1 ∧
        g1.gLastX = x ∧ g1.gLastY = y ∧ g1.gFirstMouse = false ∧
        g1.g_pCamera = g.g_pCamera.map (fun camera => C.ProcessMouseMovement camera
          (x - g.gLastX) (g.gLastY - y))) := by
  refine ⟨fun hfirst => ?_, fun hfirst hxo hyo => ?_, fun hfirst ex ey exo eyo hxo hyo => ?_⟩
  · exact ⟨_, Mouse_Position_Callback_first C g x y hx hy hfirst, rfl, rfl, rfl, rfl, rfl, rfl,
      rfl, rfl⟩
  · exact ⟨_, Mouse_Position_Callback_later C g x y hx hy hfirst hxo hyo, rfl, rfl, hfirst, rfl,
      rfl, rfl, rfl, rfl⟩
  · have h := Mouse_Position_Callback_later C g x y hx hy hfirst (by rw [ex]; exact hxo)
      (by rw [ey]; exact hyo)
    rw [ex, ey, exo, eyo] at h
    exact ⟨_, h, rfl, rfl, hfirst, rfl⟩


/-- Witness for C27: on the variables left by the constructor (stored
position (500, 400)) the first event at (600, 300) stores (600, 300) and hands
the camera the offsets (0, 0); with `gFirstMouse` cleared, the same event
hands it the offsets (100, 100), which moves the front vector of the example
camera from (0, -1/2, -2) to (100, 199/2, -2). -/
theorem Mouse_Position_Callback_offsets_witness :
    |(600 : ℚ)| < binary32.overflowThreshold ∧ |(300 : ℚ)| < binary32.overflowThreshold ∧
      (∃ g1 : ViewGlobals ℚ,
        Mouse_Position_Callback exampleCameraMethods exampleMouseGlobals 600 300 =
          Except.ok g1 ∧
        g1.gLastX = 600 ∧ g1.gLastY = 300 ∧ g1.gFirstMouse = false ∧
        g1.g_pCamera = some ⟨⟨0, 5, 12⟩, ⟨0, -(1 / 2), -2⟩, ⟨0, 1, 0⟩, 80⟩) ∧
      ∃ g1 : ViewGlobals ℚ,
        Mouse_Position_Callback exampleCameraMethods
          { exampleMouseGlobals with gFirstMouse := false } 600 300 = Except.ok g1 ∧
        g1.gLastX = 600 ∧ g1.gLastY = 300 ∧ g1.gFirstMouse = false ∧
        g1.g_pCamera = some ⟨⟨0, 5, 12⟩, ⟨100, 199 / 2, -2⟩, ⟨0, 1, 0⟩, 80⟩ := by
  have h6 : |(600 : ℚ)| < binary32.overflowThreshold :=
    abs_lt_overflowThreshold _ (by norm_num)
  have h3 : |(300 : ℚ)| < binary32.overflowThreshold :=
    abs_lt_overflowThreshold _ (by norm_num)
  have hx : binary32.nearest ((600 : ℚ) - 500) = 600 - 500 := by
    rw [show ((600 : ℚ) - 500) = 100 by norm_num]
    exact nearest_hundred
  have hy : binary32.nearest ((400 : ℚ) - 300) = 400 - 300 := by
    rw [show ((400 : ℚ) - 300) = 100 by norm_num]
    exact nearest_hundred
  obtain ⟨f1, hf1, hfx, hfy, hff, hfc, _⟩ :=
    (Mouse_Position_Callback_offsets exampleCameraMethods exampleMouseGlobals 600 300
      h6 h3).1 rfl
  obtain ⟨g1, hrun, hgx, hgy, hgf, hgc⟩ :=
    (Mouse_Position_Callback_offsets exampleCameraMethods
      { exampleMouseGlobals with gFirstMouse := false } 600 300 h6 h3).2.2 rfl
      nearest_six_hundred nearest_three_hundred hx hy
      (abs_lt_overflowThreshold ((600 : ℚ) - 500) (by norm_num))
      (abs_lt_overflowThreshold ((400 : ℚ) - 300) (by norm_num))
  refine ⟨h6, h3, ⟨f1, hf1, ?_, ?_, hff, ?_⟩, g1, hrun, hgx, hgy, hgf, ?_⟩
  · rw [hfx, nearest_six_hundred]
  · rw [hfy, nearest_three_hundred]
  · rw [hfc]
    simp [exampleMouseGlobals, exampleCameraMethods]
  · rw [hgc]
    simp [exampleMouseGlobals, exampleCameraMethods]
    norm_num

/-- The flag chosen by the last section of `ProcessKeyboardEvents`. -/
theorem selectProjection_eq (glfwGetKey : GLFWKey → Bool) (b : Bool) :
    ProcessKeyboardEvents.selectProjection glfwGetKey b =
      (if glfwGetKey GLFWKey.O then true else if glfwGetKey GLFWKey.P then false else b) := by
  unfold ProcessKeyboardEvents.selectProjection
  cases glfwGetKey GLFWKey.O <;> cases glfwGetKey GLFWKey.P <;> rfl

/-- The speed section of `ProcessKeyboardEvents` changes only the camera speed. -/
theorem adjustSpeed_other_fields (glfwGetKey : GLFWKey → Bool) (g : ViewGlobals R) :
    (ProcessKeyboardEvents.adjustSpeed glfwGetKey g).bOrthographicProjection =
        g.bOrthographicProjection ∧
      (ProcessKeyboardEvents.adjustSpeed glfwGetKey g).g_pCamera = g.g_pCamera ∧
      (ProcessKeyboardEvents.adjustSpeed glfwGetKey g).gDeltaTime = g.gDeltaTime := by
  unfold ProcessKeyboardEvents.adjustSpeed
  cases glfwGetKey GLFWKey.UP <;> cases glfwGetKey GLFWKey.DOWN <;> simp

/-- With a non-null camera, `ProcessKeyboardEvents` keeps the shader-manager
pointer, keeps the camera non-null, and sets the projection flag from the keys
P and O. -/
theorem ProcessKeyboardEvents_nonnull_camera (C : CameraMethods R)
    (glfwGetKey : GLFWKey → Bool) (vm : ViewManager R) (g : ViewGlobals R) (camera : Camera R)
    (hcam : g.g_pCamera = some camera) :
    (ProcessKeyboardEvents C glfwGetKey vm g).1.m_pShaderManager = vm.m_pShaderManager ∧
      (ProcessKeyboardEvents C glfwGetKey vm g).2.g_pCamera =
        some (ProcessKeyboardEvents.moveCamera C glfwGetKey g.gDeltaTime camera) ∧
      (ProcessKeyboardEvents C glfwGetKey vm g).2.bOrthographicProjection =
        (if glfwGetKey GLFWKey.O then true
          else if glfwGetKey GLFWKey.P then false else g.bOrthographicProjection) := by
  obtain ⟨hb, _, hdt⟩ := adjustSpeed_other_fields glfwGetKey g
  unfold ProcessKeyboardEvents
  rw [hcam]
  refine ⟨?_, ?_, ?_⟩
  · cases glfwGetKey GLFWKey.ESCAPE <;> rfl
  · simp only [hdt]
  · simp only [hb, selectProjection_eq]

/-- The orthographic matrix of `PrepareSceneView` has the bounds -10, 10, -8,
8, 0.1, 100, and differs from every perspective matrix. -/
theorem PrepareSceneView_projection_eq (G : glm.ScalarFns R) (tan : R → R) (camera : Camera R) :
    PrepareSceneView.projection G tan true camera = glm.ortho (-10) 10 (-8) 8 0.1 100 ∧
      PrepareSceneView.projection G tan false camera =
        glm.perspective tan (glm.radians G camera.Zoom) (1000 / 800) 0.1 100 ∧
      ∀ (fovy aspect zNear zFar : R),
        glm.perspective tan fovy aspect zNear zFar ≠ glm.ortho (-10) 10 (-8) 8 0.1 100 := by
  refine ⟨?_, ?_, ?_⟩
  · have h8 : (10.0 : R) * ((800 : Int) : R) / ((1000 : Int) : R) = 8 := by
      push_cast
      norm_num
    have h10 : (10.0 : R) = 10 := by norm_num
    have h100 : (100.0 : R) = 100 := by norm_num
    simp only [PrepareSceneView.projection, WINDOW_HEIGHT, WINDOW_WIDTH, if_true, h8]
    rw [h10, h100]
  · have h100 : (100.0 : R) = 100 := by norm_num
    simp only [PrepareSceneView.projection, WINDOW_HEIGHT, WINDOW_WIDTH, Bool.false_eq_true,
      if_false]
    rw [h100]
    push_cast
    rfl
  · intro fovy aspect zNear zFar h
    have hw := congrArg (fun m => m.c3.w) h
    simp [glm.perspective, glm.ortho] at hw

/-- C28 (as claimed, refuted): with a null shader-manager pointer and a
non-null camera, `PrepareSceneView` returns normally and pushes no projection
at all: the pointer is still null and the view manager is unchanged, although
the key O selected the orthographic projection. -/
theorem PrepareSceneView_null_shader_manager_pushes_nothing :
    exampleViewGlobals.g_pCamera ≠ none ∧
      ∃ g1 : ViewGlobals ℚ,
        PrepareSceneView exampleCameraMethods rationalScalarFns exampleTan 1 exampleKeys
            exampleNullViewManager exampleViewGlobals = Except.ok (exampleNullViewManager, g1) ∧
          g1.bOrthographicProjection = true ∧
          exampleNullViewManager.m_pShaderManager = none := by
  refine ⟨by simp [exampleViewGlobals, construct], _, rfl, rfl, rfl⟩

/-- C28 (amended): the projection flag starts as `false` (perspective). With a
non-null camera, `ProcessKeyboardEvents` leaves the flag unchanged when neither
P nor O is pressed, clears it when only P is pressed, and sets it when O is
pressed (also together with P). With a non-null camera and a non-null shader
manager, `PrepareSceneView` returns normally, leaves the flag at that value,
and pushes exactly three uniforms: "view", then "projection", then
"viewPosition"; the pushed projection is `glm::ortho(-10, 10, -8, 8, 0.1, 100)`
exactly when the flag is true, and otherwise
`glm::perspective(radians(Zoom), 1000/800, 0.1, 100)`. -/
theorem PrepareSceneView_pushes_selected_projection (C : CameraMethods R)
    (G : glm.ScalarFns R) (tan : R → R) (glfwGetTime : R) (glfwGetKey : GLFWKey → Bool)
    (vm : ViewManager R) (g : ViewGlobals R) (sh : ShaderManager R) (camera : Camera R)
    (hsh : vm.m_pShaderManager = some sh) (hcam : g.g_pCamera = some camera) :
    (initialGlobals : ViewGlobals R).bOrthographicProjection = false ∧
      (ProcessKeyboardEvents C glfwGetKey vm g).2.bOrthographicProjection =
        (if glfwGetKey GLFWKey.O then true
          else if glfwGetKey GLFWKey.P then false else g.bOrthographicProjection) ∧
      ∃ (vm1 : ViewManager R) (g1 : ViewGlobals R) (camera1 : Camera R)
          (projection : glm.mat4 R),
        PrepareSceneView C G tan glfwGetTime glfwGetKey vm g = Except.ok (vm1, g1) ∧
          g1.bOrthographicProjection =
            (if glfwGetKey GLFWKey.O then true
              else if glfwGetKey GLFWKey.P then false else g.bOrthographicProjection) ∧
          g1.g_pCamera = some camera1 ∧
          vm1.m_pShaderManager = some (sh ++
            [("view", UniformValue.mat4 (C.GetViewMatrix camera1)),
             ("projection", UniformValue.mat4 projection),
             ("viewPosition", UniformValue.vec3 camera1.Position)]) ∧
          (projection = glm.ortho (-10) 10 (-8) 8 0.1 100 ↔ g1.bOrthographicProjection = true) ∧
          (g1.bOrthographicProjection = false →
            projection = glm.perspective tan (glm.radians G camera1.Zoom) (1000 / 800) 0.1 100) := by
  refine ⟨rfl, (ProcessKeyboardEvents_nonnull_camera C glfwGetKey vm g camera hcam).2.2, ?_⟩
  obtain ⟨G1, hG1⟩ : ∃ G1 : ViewGlobals R, G1 =
      { g with gDeltaTime := glfwGetTime - g.gLastFrame, gLastFrame := glfwGetTime } := ⟨_, rfl⟩
  have hcam1 : G1.g_pCamera = some camera := by rw [hG1]; exact hcam
  have hflag1 : G1.bOrthographicProjection = g.bOrthographicProjection := by rw [hG1]
  obtain ⟨hP1, hP2, hP3⟩ := ProcessKeyboardEvents_nonnull_camera C glfwGetKey vm G1 camera hcam1
  obtain ⟨hortho, hpersp, hne⟩ := PrepareSceneView_projection_eq G tan
    (ProcessKeyboardEvents.moveCamera C glfwGetKey G1.gDeltaTime camera)
  rw [hflag1] at hP3
  rw [hsh] at hP1
  have hrun : PrepareSceneView C G tan glfwGetTime glfwGetKey vm g =
      Except.ok ({ (ProcessKeyboardEvents C glfwGetKey vm G1).1 with
        m_pShaderManager := some (sh ++
          [("view", UniformValue.mat4 (C.GetViewMatrix
              (ProcessKeyboardEvents.moveCamera C glfwGetKey G1.gDeltaTime camera))),
           ("projection", UniformValue.mat4 (PrepareSceneView.projection G tan
              (ProcessKeyboardEvents C glfwGetKey vm G1).2.bOrthographicProjection
              (ProcessKeyboardEvents.moveCamera C glfwGetKey G1.gDeltaTime camera))),
           ("viewPosition", UniformValue.vec3
              (ProcessKeyboardEvents.moveCamera C glfwGetKey G1.gDeltaTime camera).Position)]) },
        (ProcessKeyboardEvents C glfwGetKey vm G1).2) := by
    unfold PrepareSceneView
    simp only [← hG1, hP2, hP1, ShaderManager.setMat4Value, ShaderManager.setVec3Value,
      g_ViewName, g_ProjectionName, List.append_assoc, List.cons_append, List.nil_append]
  refine ⟨_, _, _, _, hrun, hP3, hP2, rfl, ?_, ?_⟩
  · cases hb : (ProcessKeyboardEvents C glfwGetKey vm G1).2.bOrthographicProjection
    · rw [hpersp]
      exact ⟨fun h => absurd h (hne _ _ _ _), fun h => by cases h⟩
    · rw [hortho]
      exact ⟨fun _ => rfl, fun _ => rfl⟩
  · intro hb
    rw [hb, hpersp]

/-- Witness for C28: the constructed example view manager with only the key O
pressed. -/
theorem PrepareSceneView_pushes_selected_projection_witness :
    exampleViewManager.m_pShaderManager = some [] ∧
      exampleViewGlobals.g_pCamera = some ⟨⟨0, 5, 12⟩, ⟨0, -(1 / 2), -2⟩, ⟨0, 1, 0⟩, 80⟩ ∧
      ∃ (vm1 : ViewManager ℚ) (g1 : ViewGlobals ℚ) (camera1 : Camera ℚ)
          (projection : glm.mat4 ℚ),
        PrepareSceneView exampleCameraMethods rationalScalarFns exampleTan 1 exampleKeys
            exampleViewManager exampleViewGlobals = Except.ok (vm1, g1) ∧
          g1.bOrthographicProjection = true ∧
          vm1.m_pShaderManager = some ([] ++
            [("view", UniformValue.mat4 (exampleCameraMethods.GetViewMatrix camera1)),
             ("projection", UniformValue.mat4 projection),
             ("viewPosition", UniformValue.vec3 camera1.Position)]) ∧
          projection = glm.ortho (-10) 10 (-8) 8 (1 / 10) 100 := by
  have hsh : exampleViewManager.m_pShaderManager = some [] := rfl
  have hcam : exampleViewGlobals.g_pCamera =
      some ⟨⟨0, 5, 12⟩, ⟨0, -(1 / 2), -2⟩, ⟨0, 1, 0⟩, 80⟩ := by
    simp only [exampleViewGlobals, construct]
    norm_num
  obtain ⟨_, _, vm1, g1, camera1, projection, hrun, hflag, _, hpush, hiff, _⟩ :=
    PrepareSceneView_pushes_selected_projection exampleCameraMethods rationalScalarFns
      exampleTan 1 exampleKeys exampleViewManager exampleViewGlobals [] _ hsh hcam
  have hO : exampleKeys GLFWKey.O = true := rfl
  rw [hO] at hflag
  refine ⟨hsh, hcam, vm1, g1, camera1, projection, hrun, hflag, hpush, ?_⟩
  have h := hiff.2 hflag
  rw [h]
  norm_num

end ViewManager
